import Mathlib

/-! CHIP front end: a verification development.

Shallow embedding of the vanilla DOM variant (`src/app.js`) and of the React
variant (`src/chip-mvp-frontend.jsx`).

* The document is a list of elements in document order; an element reference
  is its position in that list.
* `classList` is a token list: `add` appends a token that is absent,
  `remove` deletes every occurrence.
* Code that can throw returns `Except`.
* A number is an IEEE 754 double, modelled as the rational it denotes; sums
  and products are rounded to the nearest double, ties to even. A draw of
  `Math.random()` is a double in `[0, 1)`.
* Timers, requests and animation frames are explicit state, and what the
  environment does (the draws, the outcomes of requests, the order of events)
  is an argument.
-/

namespace CHIP

/-! ## Vanilla variant: the document -/

/-- One element of the page. `id = ""` stands for an element without an id,
`navLink` says whether the selector `nav a` matches the element, and `href`
is the value of its `href` attribute. -/
structure Element where
  id : String
  classList : List String
  navLink : Bool
  href : String
deriving DecidableEq, Repr

/-- The page, in document order. -/
abbrev Document := List Element

/-- The call `classList.add(c)`. -/
def classListAdd (cls : List String) (c : String) : List String :=
  if c ∈ cls then cls else cls ++ [c]

/-- The call `classList.remove(c)`. -/
def classListRemove (cls : List String) (c : String) : List String :=
  cls.filter (fun x => x ≠ c)

/-- Apply `f` to the element at position `i`, when there is one. -/
def modifyNth (f : Element → Element) : Document → Nat → Document
  | [], _ => []
  | e :: es, 0 => f e :: es
  | e :: es, i + 1 => e :: modifyNth f es i

/-- The selector `.section` matches the element. -/
def isSection (e : Element) : Bool := decide ("section" ∈ e.classList)

/-- The call `document.getElementById(id)`: the first element, in document
order, whose id is `id`; the empty string names no element. -/
def getElementById (doc : Document) (id : String) : Option Nat :=
  if id = "" then none
  else
    let i := doc.findIdx (fun e => e.id = id)
    if i < doc.length then some i else none

/-- Body of the `forEach` of `showSection`, run on the elements that match
`.section`: `section.classList.add('hidden')`. -/
def hideSection (e : Element) : Element :=
  if isSection e then { e with classList := classListAdd e.classList "hidden" } else e

/-- What `showSection` does to the target: `classList.remove('hidden')`, then
`classList.add('fade-in')`. -/
def revealSection (e : Element) : Element :=
  { e with classList := classListAdd (classListRemove e.classList "hidden") "fade-in" }

/-- Body of the `forEach` of `updateActiveNav`, run on the elements that match
`nav a`: `link.classList.remove('active')`. -/
def deactivateLink (e : Element) : Element :=
  if e.navLink then { e with classList := classListRemove e.classList "active" } else e

/-- What `updateActiveNav` does to its argument: `classList.add('active')`. -/
def activateLink (e : Element) : Element :=
  { e with classList := classListAdd e.classList "active" }

/-- The function `showSection` of `src/app.js`: every `.section` gets the
class `hidden`, then the element named by `sectionId`, if any, loses `hidden`
and gets `fade-in`. -/
def showSection (doc : Document) (sectionId : String) : Document :=
  let doc1 := doc.map hideSection
  match getElementById doc1 sectionId with
  | some targetSection => modifyNth revealSection doc1 targetSection
  | none => doc1

/-- The function `updateActiveNav` of `src/app.js`. The argument is an element
reference or `null` (the result of `document.querySelector`); on `null` the
read of `activeLink.classList` throws a `TypeError`. -/
def updateActiveNav (doc : Document) (activeLink : Option Nat) :
    Except String Document :=
  let doc1 := doc.map deactivateLink
  match activeLink with
  | none => .error "TypeError: Cannot read properties of null (reading 'classList')"
  | some l => .ok (modifyNth activateLink doc1 l)

/-- The click handler that `setupNavigation` installs on the nav link at
position `link`: the target id is the `href` without its first character. -/
def navClick (doc : Document) (link : Nat) : Except String Document :=
  match doc[link]? with
  | none => .error "no such link"
  | some e =>
      let targetId := e.href.drop 1
      updateActiveNav (showSection doc targetId) (some link)

/-- Positions of the elements that satisfy `p`. -/
def positions (p : Element → Bool) (doc : Document) : List Nat :=
  (List.range doc.length).filter (fun i =>
    match doc[i]? with
    | some e => p e
    | none => false)

/-- The `.section` elements without the class `hidden`. -/
def visibleSections (doc : Document) : List Nat :=
  positions (fun e => isSection e && !decide ("hidden" ∈ e.classList)) doc

/-- The nav links with the class `active`. -/
def activeNavLinks (doc : Document) : List Nat :=
  positions (fun e => e.navLink && decide ("active" ∈ e.classList)) doc

/-- A page with three nav links and three sections, `landing` visible. -/
def samplePage : Document :=
  [ ⟨"", ["active"], true, "#landing"⟩,
    ⟨"", [], true, "#upload"⟩,
    ⟨"", [], true, "#simulation"⟩,
    ⟨"landing", ["section"], false, ""⟩,
    ⟨"upload", ["section", "hidden"], false, ""⟩,
    ⟨"simulation", ["section", "hidden"], false, ""⟩ ]

/-! ## Numbers: IEEE 754 binary64

A JavaScript number is a double. A finite double is modelled as the rational
it denotes, and every arithmetic operation rounds its exact result to the
nearest double, a tie going to the double with the even significand. -/

/-- Rounding of a rational to the nearest integer; a tie goes to the even
neighbour. -/
def roundHalfEven (q : ℚ) : ℤ :=
  if q - ⌊q⌋ < 1 / 2 then ⌊q⌋
  else if 1 / 2 < q - ⌊q⌋ then ⌊q⌋ + 1
  else if ⌊q⌋ % 2 = 0 then ⌊q⌋ else ⌊q⌋ + 1

/-- The exponent of the unit in the last place at `q`: the doubles next to
`q` are multiples of `2 ^ ulpExponent q` (53 significant bits; the subnormal
numbers are multiples of `2 ^ -1074`). -/
def ulpExponent (q : ℚ) : ℤ := max (Int.log 2 |q| - 52) (-1074)

/-- The double nearest to `q`, ties to even. Overflow to `Infinity` is left
out: the numbers of the progress simulators stay below 116. -/
def roundDouble (q : ℚ) : ℚ :=
  roundHalfEven (q / 2 ^ ulpExponent q) * 2 ^ ulpExponent q

/-- The operator `+` on two doubles. -/
def fadd (x y : ℚ) : ℚ := roundDouble (x + y)

/-- The operator `*` on two doubles. -/
def fmul (x y : ℚ) : ℚ := roundDouble (x * y)

/-- The rationals that are doubles: those that rounding leaves as they are. -/
def IsDouble (x : ℚ) : Prop := roundDouble x = x

instance instDecidableIsDouble (x : ℚ) : Decidable (IsDouble x) :=
  inferInstanceAs (Decidable (roundDouble x = x))

/-! ## Vanilla variant: the progress simulators -/

/-- State of one run of a progress simulator. `resolvedAt` lists the ticks at
which `resolve()` was invoked (tick `0` is the synchronous call made when the
bar is missing) and `widths` the percentages written to `style.width`, oldest
first. -/
structure ProgressRun where
  progress : ℚ
  timerStarted : Bool
  intervalActive : Bool
  ticks : Nat
  resolvedAt : List Nat
  widths : List ℚ
deriving DecidableEq, Repr

/-- The interval callback of both simulators, for the draw `random` of
`Math.random()`: `progress += Math.random() * factor` in double arithmetic,
clamp and complete at 100, then write the width. A cleared interval runs no
callback. -/
def progressTick (factor : ℚ) (random : ℚ) (s : ProgressRun) : ProgressRun :=
  if s.intervalActive then
    let progress := fadd s.progress (fmul random factor)
    if progress ≥ 100 then
      { s with
        progress := 100
        intervalActive := false
        ticks := s.ticks + 1
        resolvedAt := s.resolvedAt ++ [s.ticks + 1]
        widths := s.widths ++ [100] }
    else
      { s with
        progress := progress
        ticks := s.ticks + 1
        widths := s.widths ++ [progress] }
  else s

/-- The promise body shared by both simulators: without the bar element it
resolves at once and starts no timer, otherwise the interval runs on the draws
`randoms`, one per tick. -/
def progressRun (factor : ℚ) (progressBar : Bool) (randoms : List ℚ) : ProgressRun :=
  if progressBar then
    randoms.foldl (fun s r => progressTick factor r s)
      { progress := 0, timerStarted := true, intervalActive := true, ticks := 0,
        resolvedAt := [], widths := [] }
  else
    { progress := 0, timerStarted := false, intervalActive := false, ticks := 0,
      resolvedAt := [0], widths := [] }

/-- The function `simulateUploadProgress` of `src/app.js` (bar `uploadBar`,
increments `Math.random() * 15`). -/
def simulateUploadProgress (progressBar : Bool) (randoms : List ℚ) : ProgressRun :=
  progressRun 15 progressBar randoms

/-- The function `simulateProgress` of `src/app.js` (bar `simBar`, increments
`Math.random() * 8`). -/
def simulateProgress (progressBar : Bool) (randoms : List ℚ) : ProgressRun :=
  progressRun 8 progressBar randoms

/-- The value that `progress` holds after ticks on the draws `randoms` when it
starts from `p` and no tick clamps it: the statement
`progress += Math.random() * factor`, once per draw. -/
def accumulate (factor : ℚ) (p : ℚ) (randoms : List ℚ) : ℚ :=
  randoms.foldl (fun p r => fadd p (fmul r factor)) p

/-- The sum of the first `n` increments as the program computes it: the
increments `Math.random() * factor` added to `0` in the order of the ticks,
each product and each sum rounded to a double. -/
def runningSum (factor : ℚ) (randoms : List ℚ) (n : Nat) : ℚ :=
  accumulate factor 0 (randoms.take n)

/-- What every tick keeps true of a run. -/
structure ProgressRun.Sound (s : ProgressRun) : Prop where
  sorted : s.widths.Pairwise (fun a b => a ≤ b)
  below : ∀ w ∈ s.widths, w ≤ s.progress
  capped : s.progress ≤ 100
  count : s.widths.length = s.ticks
  final : ∀ n ∈ s.resolvedAt, 0 < n → s.widths[n - 1]? = some 100
  nonneg : 0 ≤ s.progress
  double : IsDouble s.progress

/-- Fourteen draws of `Math.random()`, each `0.96875`. -/
def sampleDraws : List ℚ := List.replicate 14 (31 / 32)

/-- The largest double below 1, the upper end of the draws of
`Math.random()`. -/
def maxDraw : ℚ := 1 - 1 / 2 ^ 53

/-- The value of `progress` after `t` ticks that each draw `maxDraw`, without
the clamp. -/
def paceBound (factor : ℚ) : Nat → ℚ
  | 0 => 0
  | t + 1 => fadd (paceBound factor t) (fmul maxDraw factor)

/-- What the bound on the draws keeps true of a run: `progress` is at most
what `ticks` largest draws give, and a tick resolves only when that many
largest draws reach 100. -/
def ProgressRun.Paced (factor : ℚ) (s : ProgressRun) : Prop :=
  0 ≤ s.progress ∧ s.progress ≤ paceBound factor s.ticks ∧
    ∀ n ∈ s.resolvedAt, 100 ≤ paceBound factor n

/-- Draws on which a run completes on tick `n`, for `n ≥ k`: `n - k` draws
`0` and then `k` draws `0.96875`. -/
def lateDraws (k n : Nat) : List ℚ :=
  List.replicate (n - k) 0 ++ List.replicate k (31 / 32)

/-- Fourteen equal draws of `Math.random()` whose increments, added as doubles,
reach 100 one tick before their exact sum does. -/
def roundedUpDraws : List ℚ := List.replicate 14 (4330384257087015 / 2 ^ 52)

/-- Fifteen equal draws of `Math.random()` whose increments, added as doubles,
reach 100 one tick after their exact sum does. -/
def roundedDownDraws : List ℚ := List.replicate 15 (8042142191733029 / 2 ^ 53)

/-! ## Vanilla variant: the 3D scene -/

/-- An object of the scene graph: its `name`, and the colour of its material
when it is a mesh (a light has no material). -/
structure Object3D where
  name : String
  material : Option Nat
deriving DecidableEq, Repr

/-- The children of the scene, in insertion order. -/
abbrev Scene := List Object3D

/-- The call `scene.getObjectByName(name)`: the first child with that name. -/
def getObjectByName (scene : Scene) (name : String) : Option Nat :=
  let i := scene.findIdx (fun o => o.name = name)
  if i < scene.length then some i else none

/-- The two lights that `init3DVisualizer` adds to the new scene. -/
def sceneLights : Scene := [⟨"", none⟩, ⟨"", none⟩]

/-- The function `createBuilding` of `src/app.js`: ground, main building,
roof, 3 x 2 windows, door and 4 trees are added to the scene. -/
def createBuilding (scene : Scene) : Scene :=
  scene ++ [⟨"", some 0x90EE90⟩] ++ [⟨"mainBuilding", some 0x87CEEB⟩] ++
    [⟨"", some 0x8B4513⟩] ++
    ((List.range 3).flatMap (fun _ => (List.range 2).map (fun _ => ⟨"", some 0x4169E1⟩))) ++
    [⟨"", some 0x8B4513⟩] ++
    ((List.range 4).map (fun _ => ⟨"", some 0x228B22⟩))

/-- The function `toggleHeatOverlay` of `src/app.js` on the global `scene`
(`none` when it was never assigned). Reading `building.material.color` of an
object without material throws. -/
def toggleHeatOverlay (scene : Option Scene) : Except String (Option Scene) :=
  match scene with
  | none => .ok none
  | some sc =>
    match getObjectByName sc "mainBuilding" with
    | none => .ok (some sc)
    | some i =>
      match sc[i]? with
      | some ⟨name, some currentColor⟩ =>
        if currentColor = 0x87CEEB then
          .ok (some (sc.set i ⟨name, some 0xFF6B6B⟩))
        else
          .ok (some (sc.set i ⟨name, some 0x87CEEB⟩))
      | _ => .error "TypeError: Cannot read properties of undefined (reading 'color')"

/-- The toggle applied `n` times in a row. -/
def toggleHeatOverlayTimes : Nat → Option Scene → Except String (Option Scene)
  | 0, scene => .ok scene
  | n + 1, scene =>
    match toggleHeatOverlayTimes n scene with
    | .ok scene1 => toggleHeatOverlay scene1
    | .error e => .error e

/-- Colour of the material of the first object named `mainBuilding`. -/
def mainBuildingColor (scene : Option Scene) : Option Nat :=
  match scene with
  | none => none
  | some sc =>
    match getObjectByName sc "mainBuilding" with
    | none => none
    | some i => (sc[i]?).bind (fun o => o.material)

/-- The function `toggleSunPath` of `src/app.js` on the global `scene`: the
first object named `sunPath` is removed, or a sun mesh is added. -/
def toggleSunPath (scene : Option Scene) : Option Scene :=
  match scene with
  | none => none
  | some sc =>
    match getObjectByName sc "sunPath" with
    | some existingSun => some (sc.eraseIdx existingSun)
    | none => some (sc ++ [⟨"sunPath", some 0xFFD700⟩])

/-- The scene has an object named `sunPath`. -/
def hasSunPath (scene : Option Scene) : Bool :=
  match scene with
  | none => false
  | some sc => (getObjectByName sc "sunPath").isSome

/-- The scene as `init3DVisualizer` leaves it on success. -/
def freshScene : Scene := createBuilding sceneLights

/-- The fresh scene with the heat overlay on. -/
def heatedScene : Scene := freshScene.set 3 ⟨"mainBuilding", some 0xFF6B6B⟩

/-- The fresh scene with the sun added. -/
def sunnyScene : Scene := freshScene ++ [⟨"sunPath", some 0xFFD700⟩]

/-! ## Vanilla variant: the render loop -/

/-- The module-level 3D state of `src/app.js` (`scene`, `controls`,
`animationId`) together with the browser's animation frames: `frameCounter`
is the last handle handed out by `requestAnimationFrame` (handles start at 1)
and `pendingFrames` holds the handles of the `animate` callbacks that are
requested and neither run nor cancelled. -/
structure Visualizer where
  scene : Option Scene
  controls : Bool
  animationId : Option Nat
  frameCounter : Nat
  pendingFrames : List Nat
deriving DecidableEq, Repr

/-- What the page offers when `init3DVisualizer` runs: the element
`threeContainer`, the global `THREE`, a working WebGL context (without it the
constructor of the renderer throws) and `THREE.OrbitControls`. -/
structure VisualizerEnv where
  container : Bool
  three : Bool
  webgl : Bool
  orbitControls : Bool
deriving DecidableEq, Repr

/-- The state when the script is loaded. -/
def Visualizer.initial : Visualizer :=
  { scene := none, controls := false, animationId := none, frameCounter := 0,
    pendingFrames := [] }

/-- The call `cancelAnimationFrame(handle)`. -/
def cancelAnimationFrame (handle : Nat) (v : Visualizer) : Visualizer :=
  { v with pendingFrames := v.pendingFrames.filter (fun h => h ≠ handle) }

/-- The function `animate` of `src/app.js`: it requests the next frame and
stores the handle in `animationId`; updating the controls, moving the sun and
rendering change none of the fields modelled here. -/
def animate (v : Visualizer) : Visualizer :=
  let handle := v.frameCounter + 1
  { v with
    frameCounter := handle
    pendingFrames := v.pendingFrames ++ [handle]
    animationId := some handle }

/-- The block `if (animationId) cancelAnimationFrame(animationId)` of
`init3DVisualizer`; a handle is truthy when it is not zero. -/
def cancelExistingLoop (v : Visualizer) : Visualizer :=
  match v.animationId with
  | some handle => if handle ≠ 0 then cancelAnimationFrame handle v else v
  | none => v

/-- The function `init3DVisualizer` of `src/app.js`: nothing without the
container; otherwise the existing loop is cancelled, and then either `THREE`
is missing (placeholder), or the renderer cannot be built (the new, empty
scene stays and the error is caught), or the scene is built and `animate()`
is called. -/
def init3DVisualizer (env : VisualizerEnv) (v : Visualizer) : Visualizer :=
  if !env.container then v
  else
    let v1 := cancelExistingLoop v
    if !env.three then v1
    else if !env.webgl then { v1 with scene := some [] }
    else
      let v2 := { v1 with
        controls := if env.orbitControls then true else v1.controls
        scene := some (createBuilding sceneLights) }
      animate v2

/-- The browser runs one animation frame: the callbacks requested so far are
taken off the list and run in order. -/
def fireFrame (v : Visualizer) : Visualizer :=
  v.pendingFrames.foldl (fun w _ => animate w) { v with pendingFrames := [] }

/-- What can happen to the 3D state: a call of `init3DVisualizer` or an
animation frame. -/
inductive VisualizerEvent where
  | init (env : VisualizerEnv)
  | frame
deriving DecidableEq, Repr

/-- One event. -/
def Visualizer.step (v : Visualizer) : VisualizerEvent → Visualizer
  | .init env => init3DVisualizer env v
  | .frame => fireFrame v

/-- A sequence of events from the initial state. -/
def Visualizer.run (events : List VisualizerEvent) : Visualizer :=
  events.foldl Visualizer.step Visualizer.initial

/-- A page on which the 3D view can be built. -/
def fullEnv : VisualizerEnv :=
  { container := true, three := true, webgl := true, orbitControls := true }

/-- At most one `animate` callback is requested, and `animationId` holds its
handle, which is not zero. -/
def Visualizer.SingleLoop (v : Visualizer) : Prop :=
  v.pendingFrames = [] ∨
    ∃ handle, handle ≠ 0 ∧ v.pendingFrames = [handle] ∧ v.animationId = some handle

/-! ## React variant: `CHIPApp` -/

/-- A building as returned by `GET /api/buildings`. -/
structure Building where
  id : Nat
  name : String
deriving DecidableEq, Repr

/-- The body of a response of `GET /api/results/{id}`: the status and the
metric groups (kept abstract). -/
structure ResultData where
  status : String
  metrics : Nat
deriving DecidableEq, Repr

/-- The state of `CHIPApp` (its four `useState` cells) and the simulation
runs whose poll loop is still going, each with the building it was requested
for; a poll loop outlives the `SimulationView` that started it. -/
structure AppState where
  currentView : String
  buildings : List Building
  selectedBuilding : Option Building
  simulationResults : Option ResultData
  runs : List Building
deriving DecidableEq, Repr

/-- The state after the first render. -/
def AppState.initial : AppState :=
  { currentView := "upload", buildings := [], selectedBuilding := none,
    simulationResults := none, runs := [] }

/-- The ids of `navItems` in `Navigation`. -/
def navItems : List String :=
  ["upload", "buildings", "simulation", "results", "recommendations", "visualizer"]

/-- The six view components. -/
inductive ViewComponent where
  | UploadView
  | BuildingsView
  | SimulationView
  | ResultsView
  | RecommendationsView
  | Visualizer3D
deriving DecidableEq, Repr

/-- The children of `<main>` that `CHIPApp` renders: one conditional per view,
in the order of the source. -/
def rendered (s : AppState) : List ViewComponent :=
  (if s.currentView = "upload" then [ViewComponent.UploadView] else []) ++
  (if s.currentView = "buildings" then [ViewComponent.BuildingsView] else []) ++
  (if s.currentView = "simulation" ∧ s.selectedBuilding.isSome then
    [ViewComponent.SimulationView] else []) ++
  (if s.currentView = "results" ∧ s.simulationResults.isSome then
    [ViewComponent.ResultsView] else []) ++
  (if s.currentView = "recommendations" ∧ s.selectedBuilding.isSome then
    [ViewComponent.RecommendationsView] else []) ++
  (if s.currentView = "visualizer" ∧ s.selectedBuilding.isSome then
    [ViewComponent.Visualizer3D] else [])

/-- What can happen to `CHIPApp`. -/
inductive AppEvent where
  /-- The list of `GET /api/buildings` arrives. -/
  | buildingsLoaded (bs : List Building)
  /-- A click on the nav button `id`. -/
  | navClick (id : String)
  /-- A click on `Analyze Building` in `BuildingsView`. -/
  | selectBuilding (b : Building)
  /-- A click on a run button of `SimulationView`, the POST succeeding. -/
  | runSimulation
  /-- The poll of run number `i` receives a `completed` response. -/
  | simulationComplete (i : Nat) (data : ResultData)
  /-- The poll of run number `i` ends without a result. -/
  | pollEnded (i : Nat)
deriving DecidableEq, Repr

/-- One event; an event that the rendered page does not offer leaves the
state as it is. -/
def AppState.step (s : AppState) : AppEvent → AppState
  | .buildingsLoaded bs => { s with buildings := bs }
  | .navClick id => if id ∈ navItems then { s with currentView := id } else s
  | .selectBuilding b =>
    if ViewComponent.BuildingsView ∈ rendered s ∧ b ∈ s.buildings then
      { s with selectedBuilding := some b, currentView := "simulation" }
    else s
  | .runSimulation =>
    match s.selectedBuilding with
    | some b =>
      if ViewComponent.SimulationView ∈ rendered s then { s with runs := s.runs ++ [b] }
      else s
    | none => s
  | .simulationComplete i data =>
    if i < s.runs.length ∧ data.status = "completed" then
      { s with simulationResults := some data, runs := s.runs.eraseIdx i }
    else s
  | .pollEnded i => { s with runs := s.runs.eraseIdx i }

/-- A sequence of events from the initial state. -/
def AppState.run (events : List AppEvent) : AppState :=
  events.foldl AppState.step AppState.initial

/-- The presence check of the current view: none for `upload` and
`buildings`, the selected building for `simulation`, `recommendations` and
`visualizer`, the results for `results`. -/
def viewDataPresent (s : AppState) : Bool :=
  s.currentView = "upload" || s.currentView = "buildings" ||
  ((s.currentView = "simulation" || s.currentView = "recommendations" ||
      s.currentView = "visualizer") && s.selectedBuilding.isSome) ||
  (s.currentView = "results" && s.simulationResults.isSome)

/-! ## React variant: `pollForResults` -/

/-- The outcome of one `axios.get` of the poll: a response body, or a
rejected request. -/
inductive PollOutcome where
  | response (data : ResultData)
  | failure
deriving DecidableEq, Repr

/-- What a poll run has done so far: the current `simulationStatus`, the
arguments of the calls of `setSimulationStatus` and of `onSimulationComplete`
(oldest first), the number of requests issued, the total delay handed to
`setTimeout` in milliseconds, and whether a request is still unanswered. -/
structure PollRun where
  simulationStatus : String
  statusWrites : List String
  completions : List ResultData
  requests : Nat
  scheduledDelay : Nat
  awaiting : Bool
deriving DecidableEq, Repr

/-- The call `setSimulationStatus(status)`. -/
def setSimulationStatus (status : String) (r : PollRun) : PollRun :=
  { r with simulationStatus := status, statusWrites := r.statusWrites ++ [status] }

/-- The constant `maxAttempts` of `pollForResults`. -/
def maxAttempts : Nat := 30

/-- The closure `poll` of `pollForResults`, with the counter `attempts` as an
argument; `outcomes` are the outcomes of the requests to come. When they run
out the request just issued stays unanswered. -/
def poll : List PollOutcome → Nat → PollRun → PollRun
  | [], _, r => { r with requests := r.requests + 1, awaiting := true }
  | outcome :: rest, attempts, r =>
    let r1 := { r with requests := r.requests + 1 }
    match outcome with
    | .failure => setSimulationStatus "error" r1
    | .response data =>
      if data.status = "completed" then
        let r2 := setSimulationStatus "completed" r1
        { r2 with completions := r2.completions ++ [data] }
      else if data.status = "failed" then
        setSimulationStatus "failed" r1
      else
        let attempts1 := attempts + 1
        if attempts1 < maxAttempts then
          poll rest attempts1 { r1 with scheduledDelay := r1.scheduledDelay + 10000 }
        else
          setSimulationStatus "timeout" r1

/-- The function `pollForResults` of `SimulationView`. -/
def pollForResults (outcomes : List PollOutcome) (r : PollRun) : PollRun :=
  poll outcomes 0 r

/-- The poll state as `runSimulation` hands it over: status `running`. -/
def PollRun.start : PollRun :=
  { simulationStatus := "running", statusWrites := [], completions := [],
    requests := 0, scheduledDelay := 0, awaiting := false }

/-- An outcome that ends the poll: a `completed` or `failed` response, or a
transport failure. -/
def isTerminalOutcome : PollOutcome → Bool
  | .failure => true
  | .response data => data.status = "completed" || data.status = "failed"

/-- The terminal status that the specification gives a run, from the first
terminal outcome among the first `budget` attempts. -/
def specTerminalStatus (budget : Nat) (outcomes : List PollOutcome) : String :=
  match (outcomes.take budget).find? isTerminalOutcome with
  | some (.response data) => if data.status = "completed" then "completed" else "failed"
  | some .failure => "error"
  | none => "timeout"

/-- The calls of `onSimulationComplete` that the specification gives a run. -/
def specCompletions (budget : Nat) (outcomes : List PollOutcome) : List ResultData :=
  match (outcomes.take budget).find? isTerminalOutcome with
  | some (.response data) => if data.status = "completed" then [data] else []
  | _ => []

/-- The number of requests that the specification gives a run: up to the
first terminal outcome, at most `budget`. -/
def specRequests (budget : Nat) (outcomes : List PollOutcome) : Nat :=
  match (outcomes.take budget).find? isTerminalOutcome with
  | some _ => (outcomes.take budget).findIdx isTerminalOutcome + 1
  | none => budget

/-- Forty `running` responses. -/
def neverDone : List PollOutcome := List.replicate 40 (.response ⟨"running", 0⟩)

/-- Two `running` responses, then a `completed` one, then more. -/
def doneOnThird : List PollOutcome :=
  [.response ⟨"running", 0⟩, .response ⟨"running", 0⟩, .response ⟨"completed", 7⟩] ++
    List.replicate 30 (.response ⟨"running", 0⟩)

/-! ## React variant: `Visualizer3D` -/

/-- One `Visualizer3D` instance and the browser around it: whether
`mountRef.current` is set, the renderer in `rendererRef`, the canvases below
the mount element, and the renderers whose `animate` closure has a frame
requested. Renderers are numbered in creation order. -/
structure ReactVisualizer where
  mountAttached : Bool
  rendererRef : Option Nat
  sceneRef : Option Nat
  canvases : List Nat
  loops : List Nat
  created : Nat
deriving DecidableEq, Repr

/-- Before the component is mounted. -/
def ReactVisualizer.initial : ReactVisualizer :=
  { mountAttached := false, rendererRef := none, sceneRef := none, canvases := [],
    loops := [], created := 0 }

/-- The function `initThreeJS`: new scene and renderer, canvas appended, and
`animate()` started, whose handle is not kept. -/
def initThreeJS (v : ReactVisualizer) : ReactVisualizer :=
  let renderer := v.created + 1
  { v with
    created := renderer
    sceneRef := some renderer
    rendererRef := some renderer
    canvases := v.canvases ++ [renderer]
    loops := v.loops ++ [renderer] }

/-- The body of the effect of `Visualizer3D` (`createBuildingModel` only adds
meshes to the scene). -/
def runEffect (v : ReactVisualizer) : ReactVisualizer :=
  if v.mountAttached then initThreeJS v else v

/-- The cleanup of the effect: the canvas of the current renderer is removed
from the mount element. -/
def cleanupEffect (v : ReactVisualizer) : ReactVisualizer :=
  match v.rendererRef with
  | some renderer =>
    if v.mountAttached then { v with canvases := v.canvases.erase renderer } else v
  | none => v

/-- What can happen to the component. -/
inductive ReactVisualizerEvent where
  /-- The view is entered: the element is attached and the effect runs. -/
  | mount
  /-- The prop `building` changes: cleanup, then the effect again. -/
  | buildingChange
  /-- The view is left: the ref is detached, the cleanup runs and the
  instance with its refs and its element is dropped. -/
  | unmount
  /-- An animation frame: every `animate` closure requests the next one. -/
  | frame
deriving DecidableEq, Repr

/-- One event. -/
def ReactVisualizer.step (v : ReactVisualizer) : ReactVisualizerEvent → ReactVisualizer
  | .mount => if v.mountAttached then v else runEffect { v with mountAttached := true }
  | .buildingChange => runEffect (cleanupEffect v)
  | .unmount =>
    let v1 := cleanupEffect { v with mountAttached := false }
    { v1 with rendererRef := none, sceneRef := none, canvases := [] }
  | .frame =>
    v.loops.foldl (fun w renderer => { w with loops := w.loops ++ [renderer] })
      { v with loops := [] }

/-- A sequence of events from the initial state. -/
def ReactVisualizer.run (events : List ReactVisualizerEvent) : ReactVisualizer :=
  events.foldl ReactVisualizer.step ReactVisualizer.initial

/-! ## React variant: `SimulationProgress` and `UploadView` -/

/-- The function `getStatusInfo` of `SimulationProgress`: message and colour
for a status. -/
def getStatusInfo (status : String) : String × String :=
  if status = "starting" then ("Initializing simulation...", "#ffa500")
  else if status = "running" then ("Simulation in progress...", "#4CAF50")
  else if status = "completed" then ("Simulation completed successfully!", "#4CAF50")
  else if status = "failed" then ("Simulation failed. Please try again.", "#f44336")
  else if status = "timeout" then ("Simulation timed out. Please try again.", "#ff9800")
  else if status = "error" then ("An error occurred during simulation.", "#f44336")
  else ("Unknown status", "#666")

/-- The cell `formData` of `UploadView`; `file` is the name of the chosen
file, if any. -/
structure FormData where
  name : String
  latitude : String
  longitude : String
  building_type : String
  file : Option String
deriving DecidableEq, Repr

/-- The value `formData` starts with and is reset to. -/
def FormData.initial : FormData :=
  { name := "", latitude := "", longitude := "", building_type := "healthcare",
    file := none }

/-- The state of `UploadView` (`formData`, `uploading`, `uploadStatus`) and
what it has done: the upload requests issued, the calls of
`onBuildingUploaded`, and the lines written with `console.error`. -/
structure UploadView where
  formData : FormData
  uploading : Bool
  uploadStatus : String
  requests : Nat
  uploadedCalls : Nat
  consoleErrors : List String
deriving DecidableEq, Repr

/-- The state after the first render. -/
def UploadView.initial : UploadView :=
  { formData := FormData.initial, uploading := false, uploadStatus := "",
    requests := 0, uploadedCalls := 0, consoleErrors := [] }

/-- How `axios.post` of the upload ends: it resolves, or it rejects with an
error that carries `message`. -/
inductive UploadOutcome where
  | success
  | failure (message : String)
deriving DecidableEq, Repr

/-- The function `handleSubmit` of `UploadView`, run to its end for the given
outcome of the request. -/
def handleSubmit (outcome : UploadOutcome) (v : UploadView) : UploadView :=
  match v.formData.file with
  | none => { v with uploadStatus := "Please select a file to upload" }
  | some _ =>
    let v1 := { v with
      uploading := true
      uploadStatus := "Uploading building data..."
      requests := v.requests + 1 }
    let v2 :=
      match outcome with
      | .success =>
        { v1 with
          uploadStatus := "Building uploaded successfully!"
          uploadedCalls := v1.uploadedCalls + 1
          formData := FormData.initial }
      | .failure message =>
        { v1 with uploadStatus := "Error uploading building: " ++ message }
    { v2 with uploading := false }

/-- What the browser answers to `getCurrentPosition`: there is no
`navigator.geolocation`, or the success callback gets the coordinates, or the
error callback gets an error with `message`. -/
inductive GeoOutcome where
  | unsupported
  | position (latitude longitude : ℚ)
  | error (message : String)
deriving DecidableEq, Repr

/-- The function `getLocationFromBrowser` of `UploadView`; `toFixed` is the
method `Number.prototype.toFixed`. -/
def getLocationFromBrowser (toFixed : Nat → ℚ → String) (geo : GeoOutcome)
    (v : UploadView) : UploadView :=
  match geo with
  | .unsupported => v
  | .position latitude longitude =>
    { v with formData :=
        { v.formData with
          latitude := toFixed 6 latitude
          longitude := toFixed 6 longitude } }
  | .error message =>
    { v with consoleErrors := v.consoleErrors ++ ["Error getting location: " ++ message] }

/-- What the user can see of `UploadView`: the form fields, the label of the
submit button (from `uploading`) and the status message. -/
def UploadView.visible (v : UploadView) : FormData × Bool × String :=
  (v.formData, v.uploading, v.uploadStatus)

/-- A form with a file chosen. -/
def sampleForm : UploadView :=
  { UploadView.initial with
    formData := { FormData.initial with name := "Clinic", file := some "plan.pdf" } }

/-- A state of `CHIPApp` in which the results view is shown. -/
def sampleResultsState : AppState :=
  { currentView := "results", buildings := [⟨1, "Clinic"⟩],
    selectedBuilding := some ⟨1, "Clinic"⟩,
    simulationResults := some ⟨"completed", 7⟩, runs := [] }

/-! ## Vanilla variant: buildings, weather and the page state -/

/-- A JavaScript number that is compared with constants: a rational, or
`none` for `NaN`. -/
abbrev JSNumber := Option ℚ

/-- The comparison `x > c`; it is false on `NaN`. -/
def jsGt (x : JSNumber) (c : ℚ) : Bool :=
  match x with
  | some v => decide (v > c)
  | none => false

/-- The comparison `x < c`; it is false on `NaN`. -/
def jsLt (x : JSNumber) (c : ℚ) : Bool :=
  match x with
  | some v => decide (v < c)
  | none => false

/-- The function `determineLocation` of `src/app.js`. -/
def determineLocation (lat lon : JSNumber) : String :=
  if jsGt lat 28 && jsLt lat 29 && jsGt lon 77 && jsLt lon 78 then "newDelhi"
  else if jsGt lat 18 && jsLt lat 20 && jsGt lon 72 && jsLt lon 73 then "mumbai"
  else "newDelhi"

/-- The `location` of a building: a demo building has a `city`, an uploaded
one has only coordinates. -/
structure VanillaLocation where
  lat : JSNumber
  lon : JSNumber
  city : Option String
deriving DecidableEq, Repr

/-- A building of the vanilla variant. -/
structure VanillaBuilding where
  id : String
  name : String
  location : VanillaLocation
  buildingType : String
deriving DecidableEq, Repr

/-- An entry of `demoData.weatherData`. -/
structure WeatherSnapshot where
  temperature : ℚ
  humidity : ℚ
  windSpeed : ℚ
  solarIrradiance : ℚ
  uvIndex : ℚ
  airQuality : String
deriving DecidableEq, Repr

/-- The list `demoData.demoBuildings`. -/
def demoBuildings : List VanillaBuilding :=
  [ { id := "demo-delhi-hospital", name := "Regional Hospital New Delhi",
      location := { lat := some (286139 / 10000), lon := some (772090 / 10000),
                    city := some "New Delhi" },
      buildingType := "hospital" },
    { id := "demo-mumbai-clinic", name := "Community Health Center Mumbai",
      location := { lat := some (190760 / 10000), lon := some (728777 / 10000),
                    city := some "Mumbai" },
      buildingType := "clinic" } ]

/-- The fixture `demoData.weatherData.newDelhi`. -/
def newDelhiWeather : WeatherSnapshot :=
  { temperature := 345 / 10, humidity := 68, windSpeed := 125 / 10,
    solarIrradiance := 850, uvIndex := 9, airQuality := "Moderate" }

/-- The fixture `demoData.weatherData.mumbai`. -/
def mumbaiWeather : WeatherSnapshot :=
  { temperature := 312 / 10, humidity := 78, windSpeed := 183 / 10,
    solarIrradiance := 720, uvIndex := 8, airQuality := "Poor" }

/-- The object `demoData.weatherData`, read at `key`. -/
def weatherData (key : String) : Option WeatherSnapshot :=
  if key = "newDelhi" then some newDelhiWeather
  else if key = "mumbai" then some mumbaiWeather
  else none

/-- The method `toLowerCase`, on the letters `A` to `Z`. -/
def toLowerCase (s : String) : String := ⟨s.data.map Char.toLower⟩

/-- The call `replace(' ', '')`: the first space is taken out. -/
def removeFirstSpace (s : String) : String := ⟨s.data.erase ' '⟩

/-- The module-level state of `src/app.js` next to the 3D state: the page,
`currentBuilding`, `currentLocation`, what was last written into
`#weatherInfo` (title and snapshot), the texts and input values written by id
(latest first), the messages shown with `alert`, and the number of calls of
`renderCharts`. -/
structure VanillaApp where
  doc : Document
  currentBuilding : Option VanillaBuilding
  currentLocation : Option String
  weatherInfo : Option (String × WeatherSnapshot)
  contents : List (String × String)
  alerts : List String
  chartRenders : Nat
deriving DecidableEq, Repr

/-- The state when the script has been loaded on the page `doc`. -/
def VanillaApp.load (doc : Document) : VanillaApp :=
  { doc := doc, currentBuilding := none, currentLocation := none, weatherInfo := none,
    contents := [], alerts := [], chartRenders := 0 }

/-- The call `document.querySelector('nav a[href="..."]')`: the first nav link
with that `href`, or `null`. -/
def querySelectorNavLink (doc : Document) (href : String) : Option Nat :=
  let i := doc.findIdx (fun e => e.navLink && decide (e.href = href))
  if i < doc.length then some i else none

/-- The statement `classList.remove('hidden')` on an element. -/
def unhide (e : Element) : Element :=
  { e with classList := classListRemove e.classList "hidden" }

/-- The pattern `const el = document.getElementById(id); if (el)
el.classList.remove('hidden')`. -/
def unhideById (doc : Document) (id : String) : Document :=
  match getElementById doc id with
  | some i => modifyNth unhide doc i
  | none => doc

/-- The constant `weatherKey` of `setupSimulationDashboard`. -/
def weatherKey (currentLocation : String) : String :=
  if currentLocation = "newdelhi" then "newDelhi" else "mumbai"

/-- The constant `weather` of `setupSimulationDashboard`; there is none when
the function returns at its guard (no building, or no or an empty location). -/
def dashboardWeather (app : VanillaApp) : Option WeatherSnapshot :=
  match app.currentBuilding, app.currentLocation with
  | some _, some location => if location = "" then none else weatherData (weatherKey location)
  | _, _ => none

/-- The function `setupSimulationDashboard` of `src/app.js`: the snapshot is
written into `#weatherInfo`, when there is such an element, under the city of
the building or else its name. -/
def setupSimulationDashboard (app : VanillaApp) : VanillaApp :=
  match app.currentBuilding, dashboardWeather app with
  | some building, some weather =>
    if (getElementById app.doc "weatherInfo").isSome then
      let title :=
        match building.location.city with
        | some city => if city = "" then building.name else city
        | none => building.name
      { app with weatherInfo := some (title, weather) }
    else app
  | _, _ => app

/-- The statements `showSection(target); updateActiveNav(document.querySelector(
'nav a[href="#target"]'))` that the handlers share. -/
def showAndActivate (target : String) (app : VanillaApp) : Except String VanillaApp :=
  let doc1 := showSection app.doc target
  match updateActiveNav doc1 (querySelectorNavLink doc1 ("#" ++ target)) with
  | .ok doc2 => .ok { app with doc := doc2 }
  | .error e => .error e

/-- The function `loadDemoBuilding` of `src/app.js`; reading `toLowerCase` of
a missing city throws. -/
def loadDemoBuilding (building : VanillaBuilding) (app : VanillaApp) :
    Except String VanillaApp :=
  match building.location.city with
  | none => .error "TypeError: Cannot read properties of undefined (reading 'toLowerCase')"
  | some city =>
    let app1 := { app with
      currentBuilding := some building
      currentLocation := some (removeFirstSpace (toLowerCase city)) }
    match showAndActivate "simulation" app1 with
    | .ok app2 => .ok (setupSimulationDashboard app2)
    | .error e => .error e

/-- The exported `window.CHIP.loadDemoBuilding(index)`; an index without a
demo building makes `building.name` throw. -/
def chipLoadDemoBuilding (index : Nat) (app : VanillaApp) : Except String VanillaApp :=
  match demoBuildings[index]? with
  | some building => loadDemoBuilding building app
  | none => .error "TypeError: Cannot read properties of undefined (reading 'name')"

/-- The exported `window.CHIP.getCurrentBuilding()`. -/
def getCurrentBuilding (app : VanillaApp) : Option VanillaBuilding := app.currentBuilding

/-- The click handler of `#ctaStart`. -/
def ctaStartClick (app : VanillaApp) : Except String VanillaApp :=
  showAndActivate "upload" app

/-- The click handler of `#toRetrofit`. -/
def toRetrofitClick (app : VanillaApp) : Except String VanillaApp :=
  showAndActivate "recommendations" app

/-- The function `renderCharts` of `src/app.js`: the four charts are drawn
inside `try`/`catch`, each only when its canvas exists, so the call always
returns. -/
def renderCharts (app : VanillaApp) : VanillaApp :=
  { app with chartRenders := app.chartRenders + 1 }

/-- The object `buildingData` that `handleUpload` reads from the form;
`lat` and `lon` are the results of `parseFloat`. -/
structure BuildingData where
  name : String
  type : String
  lat : JSNumber
  lon : JSNumber
deriving DecidableEq, Repr

/-- The function `showUploadProgress` of `src/app.js`. -/
def showUploadProgress (app : VanillaApp) : VanillaApp :=
  { app with doc := unhideById app.doc "uploadProgress" }

/-- The callback that `handleUpload` passes to `then`, up to the timer of
`showUploadSuccess`: the success element is filled and shown, then
`currentBuilding` and `currentLocation` are set; `now` is `Date.now()`. -/
def uploadThen (data : BuildingData) (now : Nat) (app : VanillaApp) : VanillaApp :=
  let buildingId := "building-" ++ toString now
  let app1 :=
    match getElementById app.doc "uploadSuccess" with
    | some successEl =>
      { app with
        contents :=
          ("uploadSuccess", "Upload successful! Building ID: " ++ buildingId) :: app.contents
        doc := modifyNth unhide app.doc successEl }
    | none => app
  { app1 with
    currentBuilding := some
      { id := buildingId, name := data.name,
        location := { lat := data.lat, lon := data.lon, city := none },
        buildingType := data.type }
    currentLocation := some (determineLocation data.lat data.lon) }

/-- The timer callback of `showUploadSuccess`, run after 2000 ms. -/
def uploadSuccessTimeout (app : VanillaApp) : Except String VanillaApp :=
  match showAndActivate "simulation" app with
  | .ok app1 => .ok (setupSimulationDashboard app1)
  | .error e => .error e

/-- The function `handleUpload` of `src/app.js` with what follows from it when
nothing else happens in between: the progress run on the draws `randoms`; if
it resolves, the `then` callback and, 2000 ms later, the timer callback. -/
def handleUpload (data : BuildingData) (now : Nat) (randoms : List ℚ) (app : VanillaApp) :
    Except String VanillaApp :=
  let app1 := showUploadProgress app
  let progress := simulateUploadProgress (getElementById app1.doc "uploadBar").isSome randoms
  if progress.resolvedAt = [] then .ok app1
  else uploadSuccessTimeout (uploadThen data now app1)

/-- The statements `el.textContent = text; el.className = names` on the
element at `i`. -/
def setStatus (i : Nat) (text : String) (names : List String) (app : VanillaApp) :
    VanillaApp :=
  { app with
    contents := ("simStatus", text) :: app.contents
    doc := modifyNth (fun e => { e with classList := names }) app.doc i }

/-- The value of `document.getElementById('simType')?.value || 'comprehensive'`. -/
def simTypeValue (app : VanillaApp) : String :=
  match getElementById app.doc "simType" with
  | none => "comprehensive"
  | some _ =>
    match app.contents.lookup "simType" with
    | some value => if value = "" then "comprehensive" else value
    | none => "comprehensive"

/-- The function `startSimulation` of `src/app.js` up to the call of
`simulateProgress`. -/
def startSimulationSetup (app : VanillaApp) : VanillaApp :=
  let simType := simTypeValue app
  let statusContainer := getElementById app.doc "simStatus"
  let app1 := { app with doc := unhideById app.doc "simProgress" }
  match statusContainer with
  | some i =>
    setStatus i ("Starting " ++ simType ++ " simulation...") ["status", "status--info", "mt-8"]
      { app1 with doc := modifyNth unhide app1.doc i }
  | none => app1

/-- The callback that `startSimulation` passes to `then`, up to its timer;
`statusContainer` is the element found when the simulation was started. -/
def simulationThen (statusContainer : Option Nat) (app : VanillaApp) : VanillaApp :=
  match statusContainer with
  | some i =>
    setStatus i "Simulation complete! View results below."
      ["status", "status--success", "mt-8"] app
  | none => app

/-- The timer callback of `startSimulation`, run after 1500 ms. -/
def simulationTimeout (app : VanillaApp) : Except String VanillaApp :=
  match showAndActivate "results" app with
  | .ok app1 => .ok (renderCharts app1)
  | .error e => .error e

/-- The function `startSimulation` of `src/app.js` with what follows from it
when nothing else happens in between: the progress run on the draws
`randoms`; if it resolves, the `then` callback and, 1500 ms later, the timer
callback. -/
def startSimulation (randoms : List ℚ) (app : VanillaApp) : Except String VanillaApp :=
  let statusContainer := getElementById app.doc "simStatus"
  let app1 := startSimulationSetup app
  let progress := simulateProgress (getElementById app1.doc "simBar").isSome randoms
  if progress.resolvedAt = [] then .ok app1
  else simulationTimeout (simulationThen statusContainer app1)

/-- The function `getUserLocation` of `src/app.js`; `toFixed` is the method
`Number.prototype.toFixed`. Writing the value of a missing input throws. -/
def getUserLocation (toFixed : Nat → ℚ → String) (geo : GeoOutcome) (app : VanillaApp) :
    Except String VanillaApp :=
  match geo with
  | .unsupported =>
    .ok { app with alerts := app.alerts ++ ["Geolocation is not supported by this browser."] }
  | .error message =>
    .ok { app with alerts := app.alerts ++ ["Could not get location: " ++ message] }
  | .position latitude longitude =>
    match getElementById app.doc "lat", getElementById app.doc "lon" with
    | some _, some _ =>
      .ok { app with contents :=
        ("lon", toFixed 4 longitude) :: ("lat", toFixed 4 latitude) :: app.contents }
    | some _, none =>
      .error "TypeError: Cannot set properties of null (setting 'value')"
    | none, _ => .error "TypeError: Cannot set properties of null (setting 'value')"

/-- What identifies an element for the lookups: id, nav link or not, `href`. -/
def Element.shape (e : Element) : String × Bool × String := (e.id, e.navLink, e.href)

/-- A page with the nav links and sections of the four main views, the
progress bars and the status elements. -/
def fullPage : Document :=
  [ ⟨"", ["active"], true, "#landing"⟩,
    ⟨"", [], true, "#upload"⟩,
    ⟨"", [], true, "#simulation"⟩,
    ⟨"", [], true, "#results"⟩,
    ⟨"landing", ["section"], false, ""⟩,
    ⟨"upload", ["section", "hidden"], false, ""⟩,
    ⟨"simulation", ["section", "hidden"], false, ""⟩,
    ⟨"results", ["section", "hidden"], false, ""⟩,
    ⟨"uploadProgress", ["hidden"], false, ""⟩,
    ⟨"uploadBar", [], false, ""⟩,
    ⟨"uploadSuccess", ["hidden"], false, ""⟩,
    ⟨"weatherInfo", [], false, ""⟩,
    ⟨"simProgress", ["hidden"], false, ""⟩,
    ⟨"simBar", [], false, ""⟩,
    ⟨"simStatus", ["hidden"], false, ""⟩ ]

/-- A page with the sections but without nav links. -/
def pageWithoutNav : Document :=
  [ ⟨"landing", ["section"], false, ""⟩,
    ⟨"upload", ["section", "hidden"], false, ""⟩,
    ⟨"simulation", ["section", "hidden"], false, ""⟩,
    ⟨"weatherInfo", [], false, ""⟩ ]

/-- An upload from the centre of New Delhi. -/
def delhiUpload : BuildingData :=
  { name := "Ward", type := "clinic", lat := some (286139 / 10000),
    lon := some (772090 / 10000) }

/-- The page `doc` has the view `target`: the id names the `.section` element
`s`, and `l` is the nav link with the `href` `#target`. -/
def PageHas (doc : Document) (target : String) (s l : Nat) : Prop :=
  getElementById doc target = some s ∧ doc[s]?.map isSection = some true ∧
    querySelectorNavLink doc ("#" ++ target) = some l

/-- A session of `CHIPApp`: the list arrives, a building is selected, a
simulation is run and completes, and the results view is opened. -/
def sampleSession : List AppEvent :=
  [ .buildingsLoaded [⟨1, "Clinic"⟩, ⟨2, "Hospital"⟩],
    .navClick "buildings",
    .selectBuilding ⟨1, "Clinic"⟩,
    .runSimulation,
    .simulationComplete 0 ⟨"completed", 7⟩,
    .navClick "results" ]

/-! ## React variant: where results come from, and the runs of `SimulationView` -/

/-- The state of `CHIPApp` together with, for each pending run and for the
stored results, the building the run was requested for and the position in
the session of the click that requested it; `clock` counts the events so
far. -/
structure TrackedApp where
  app : AppState
  clock : Nat
  requests : List (Building × Nat)
  resultsFor : Option (Building × Nat)
deriving DecidableEq, Repr

/-- One event of `CHIPApp`; `requests` follows `runs`, and when a poll
completes, the results it stores are those of the request of its run. -/
def TrackedApp.step (t : TrackedApp) (ev : AppEvent) : TrackedApp :=
  { app := t.app.step ev
    clock := t.clock + 1
    requests :=
      match ev with
      | .runSimulation =>
        match t.app.selectedBuilding with
        | some b =>
          if ViewComponent.SimulationView ∈ rendered t.app then t.requests ++ [(b, t.clock)]
          else t.requests
        | none => t.requests
      | .simulationComplete i data =>
        if i < t.app.runs.length ∧ data.status = "completed" then t.requests.eraseIdx i
        else t.requests
      | .pollEnded i => t.requests.eraseIdx i
      | _ => t.requests
    resultsFor :=
      match ev with
      | .simulationComplete i data =>
        if i < t.app.runs.length ∧ data.status = "completed" then t.requests[i]?
        else t.resultsFor
      | _ => t.resultsFor }

/-- A sequence of events from the initial state. -/
def TrackedApp.run (events : List AppEvent) : TrackedApp :=
  events.foldl TrackedApp.step
    { app := AppState.initial, clock := 0, requests := [], resultsFor := none }

/-- From event number `k` on, the session `seen` selects no building other
than `b`: every click on `Analyze Building` that `BuildingsView` offers at that
point (the view is rendered and the building is in the list) is a click on
`b`. -/
def NoOtherSelection (seen : List AppEvent) (k : Nat) (b : Building) : Prop :=
  ∀ (j : Nat) (b' : Building), k ≤ j → seen[j]? = some (AppEvent.selectBuilding b') →
    ViewComponent.BuildingsView ∈ rendered (AppState.run (seen.take j)) →
    b' ∈ (AppState.run (seen.take j)).buildings → b' = b

/-- The request `p = (b, k)` in the session `seen`: event number `k` is a
click on a run button, `b` was the selected building at that click, and `b` is
still the selected building at the end of `seen` unless another building has
been selected since. -/
def RequestedAt (seen : List AppEvent) (p : Building × Nat) : Prop :=
  seen[p.2]? = some AppEvent.runSimulation ∧
  (AppState.run (seen.take p.2)).selectedBuilding = some p.1 ∧
  (NoOtherSelection seen p.2 p.1 → (AppState.run seen).selectedBuilding = some p.1)

/-- What the events seen so far explain of a state: the pending runs and the
stored results each have their request in the session, and stored results come
from a run. -/
def TrackedApp.Explained (seen : List AppEvent) (t : TrackedApp) : Prop :=
  t.app = AppState.run seen ∧
  t.clock = seen.length ∧
  t.app.runs = t.requests.map Prod.fst ∧
  (∀ p ∈ t.requests, RequestedAt seen p) ∧
  (∀ p, t.resultsFor = some p → RequestedAt seen p) ∧
  (t.app.simulationResults.isSome = true → t.resultsFor.isSome = true)

/-- A session in which a run is requested for the clinic, the hospital is
selected while the poll is going, the poll completes, and the results view is
opened. -/
def staleSession : List AppEvent :=
  [ .buildingsLoaded [⟨1, "Clinic"⟩, ⟨2, "Hospital"⟩],
    .navClick "buildings",
    .selectBuilding ⟨1, "Clinic"⟩,
    .runSimulation,
    .navClick "buildings",
    .selectBuilding ⟨2, "Hospital"⟩,
    .simulationComplete 0 ⟨"completed", 7⟩,
    .navClick "results" ]

/-- A session in which the clinic is selected, then the hospital, and only
then a run is requested; it completes and the results view is opened. -/
def reselectSession : List AppEvent :=
  [ .buildingsLoaded [⟨1, "Clinic"⟩, ⟨2, "Hospital"⟩],
    .navClick "buildings",
    .selectBuilding ⟨1, "Clinic"⟩,
    .navClick "buildings",
    .selectBuilding ⟨2, "Hospital"⟩,
    .runSimulation,
    .simulationComplete 0 ⟨"completed", 7⟩,
    .navClick "results" ]

/-- One `SimulationView` instance: `simulationStatus`, `simulationId`, the
POST requests of `runSimulation` that are not answered yet, the counter
`attempts` of every poll loop that is still going, and the arguments of the
calls of `onSimulationComplete`. -/
structure SimulationView where
  simulationStatus : String
  simulationId : Option Nat
  postsInFlight : Nat
  polls : List Nat
  completions : List ResultData
deriving DecidableEq, Repr

/-- The state after the first render. -/
def SimulationView.initial : SimulationView :=
  { simulationStatus := "idle", simulationId := none, postsInFlight := 0, polls := [],
    completions := [] }

/-- The attribute `disabled={simulationStatus === 'running'}` of the four run
buttons, negated. -/
def runButtonsEnabled (v : SimulationView) : Bool :=
  decide (v.simulationStatus ≠ "running")

/-- The simulation runs that exist: POST requests in flight and poll loops
that are going. -/
def activeRuns (v : SimulationView) : Nat := v.postsInFlight + v.polls.length

/-- What can happen to a `SimulationView`. -/
inductive SimulationViewEvent where
  /-- A click on a run button: `runSimulation` up to its `await`. -/
  | click (simulationType : String)
  /-- A POST is answered with `simulation_id`: the rest of the `try` block,
  with the first request of `pollForResults`. -/
  | postResolved (simId : Nat)
  /-- A POST fails: the `catch` block of `runSimulation`. -/
  | postRejected
  /-- The request of poll loop `i` ends with `outcome`: one run of `poll`
  after its `await`. -/
  | pollOutcome (i : Nat) (outcome : PollOutcome)
deriving DecidableEq, Repr

/-- One event; a click on a disabled button and an answer to a request that
does not exist change nothing. -/
def SimulationView.step (v : SimulationView) : SimulationViewEvent → SimulationView
  | .click _ =>
    if runButtonsEnabled v then
      { v with simulationStatus := "starting", postsInFlight := v.postsInFlight + 1 }
    else v
  | .postResolved simId =>
    if 0 < v.postsInFlight then
      { v with
        postsInFlight := v.postsInFlight - 1
        simulationId := some simId
        simulationStatus := "running"
        polls := v.polls ++ [0] }
    else v
  | .postRejected =>
    if 0 < v.postsInFlight then
      { v with postsInFlight := v.postsInFlight - 1, simulationStatus := "error" }
    else v
  | .pollOutcome i outcome =>
    match v.polls[i]? with
    | none => v
    | some attempts =>
      match outcome with
      | .failure => { v with simulationStatus := "error", polls := v.polls.eraseIdx i }
      | .response data =>
        if data.status = "completed" then
          { v with
            simulationStatus := "completed"
            completions := v.completions ++ [data]
            polls := v.polls.eraseIdx i }
        else if data.status = "failed" then
          { v with simulationStatus := "failed", polls := v.polls.eraseIdx i }
        else if attempts + 1 < maxAttempts then
          { v with polls := v.polls.set i (attempts + 1) }
        else
          { v with simulationStatus := "timeout", polls := v.polls.eraseIdx i }

/-- A sequence of events from the initial state. -/
def SimulationView.run (events : List SimulationViewEvent) : SimulationView :=
  events.foldl SimulationView.step SimulationView.initial

/-! ## Lemmas on the document model -/

theorem mem_classListAdd (cls : List String) (c x : String) :
    x ∈ classListAdd cls c ↔ x ∈ cls ∨ x = c := by
  unfold classListAdd
  split
  · constructor
    · intro h; exact Or.inl h
    · rintro (h | h)
      · exact h
      · subst h; assumption
  · simp

theorem mem_classListRemove (cls : List String) (c x : String) :
    x ∈ classListRemove cls c ↔ x ∈ cls ∧ x ≠ c := by
  simp [classListRemove]

theorem length_modifyNth (f : Element → Element) (doc : Document) (i : Nat) :
    (modifyNth f doc i).length = doc.length := by
  induction doc generalizing i with
  | nil => rfl
  | cons e es ih =>
    cases i with
    | zero => rfl
    | succ i => simp [modifyNth, ih]

theorem getElem?_modifyNth (f : Element → Element) (doc : Document) (i j : Nat) :
    (modifyNth f doc i)[j]? = if j = i then doc[j]?.map f else doc[j]? := by
  induction doc generalizing i j with
  | nil => simp [modifyNth]
  | cons e es ih =>
    cases i with
    | zero =>
      cases j with
      | zero => simp [modifyNth]
      | succ j => simp [modifyNth]
    | succ i =>
      cases j with
      | zero => simp [modifyNth]
      | succ j => simp [modifyNth, ih]

theorem filter_range_eq_singleton (p : Nat → Bool) (n s : Nat) (hs : s < n)
    (hp : ∀ j, j < n → (p j = true ↔ j = s)) :
    (List.range n).filter p = [s] := by
  induction n with
  | zero => omega
  | succ n ih =>
    rw [List.range_succ, List.filter_append]
    by_cases hsn : s = n
    · subst hsn
      have h1 : (List.range s).filter p = [] := by
        rw [List.filter_eq_nil_iff]
        intro j hj
        have hj' : j < s := List.mem_range.mp hj
        intro hpj
        have := (hp j (by omega)).mp hpj
        omega
      have h2 : p s = true := (hp s (by omega)).mpr rfl
      simp [h1, h2]
    · have hlt : s < n := by omega
      have h1 := ih hlt (fun j hj => hp j (by omega))
      have h2 : p n = false := by
        cases hpn : p n with
        | false => rfl
        | true =>
          have := (hp n (by omega)).mp hpn
          omega
      simp [h1, h2]

theorem positions_eq_singleton (p : Element → Bool) (doc : Document) (s : Nat)
    (hs : s < doc.length)
    (hp : ∀ j e, doc[j]? = some e → (p e = true ↔ j = s)) :
    positions p doc = [s] := by
  unfold positions
  apply filter_range_eq_singleton _ _ _ hs
  intro j hj
  have hget : doc[j]? = some doc[j] := List.getElem?_eq_getElem hj
  simp only [hget]
  exact hp j _ hget

theorem getElementById_map (f : Element → Element) (hf : ∀ e, (f e).id = e.id)
    (doc : Document) (id : String) :
    getElementById (doc.map f) id = getElementById doc id := by
  have h : (doc.map f).findIdx (fun e => e.id = id) = doc.findIdx (fun e => e.id = id) := by
    induction doc with
    | nil => rfl
    | cons e es ih => simp only [List.map_cons, List.findIdx_cons, hf, ih]
  unfold getElementById
  simp only [h, List.length_map]

theorem getElementById_lt (doc : Document) (id : String) (s : Nat)
    (h : getElementById doc id = some s) : s < doc.length := by
  unfold getElementById at h
  split at h
  · cases h
  · simp only at h
    split at h
    · cases h; assumption
    · cases h

theorem hideSection_id (e : Element) : (hideSection e).id = e.id := by
  unfold hideSection; split <;> rfl

theorem getElem?_showSection (doc : Document) (id : String) (s j : Nat)
    (hid : getElementById doc id = some s) :
    (showSection doc id)[j]? =
      doc[j]?.map (fun e => if j = s then revealSection (hideSection e) else hideSection e) := by
  unfold showSection
  simp only [getElementById_map hideSection hideSection_id, hid, getElem?_modifyNth,
    List.getElem?_map]
  by_cases h : j = s <;> cases doc[j]? <;> simp [h]

theorem length_showSection (doc : Document) (id : String) :
    (showSection doc id).length = doc.length := by
  unfold showSection
  simp only
  split <;> simp [length_modifyNth]

theorem section_visible_after (e : Element) (j s l : Nat) :
    (let e1 := if j = s then revealSection (hideSection e) else hideSection e
     let e2 := if j = l then activateLink (deactivateLink e1) else deactivateLink e1
     (isSection e2 && !decide ("hidden" ∈ e2.classList)) = true ↔
       isSection e = true ∧ j = s) := by
  by_cases hjs : j = s <;> by_cases hjl : j = l <;> by_cases hsec : isSection e = true <;>
    by_cases hn : e.navLink = true <;>
    simp [hjs, hjl, hsec, hn, revealSection, hideSection, activateLink, deactivateLink,
      isSection, mem_classListAdd, mem_classListRemove] <;>
    simp_all [isSection, mem_classListAdd, mem_classListRemove]

theorem link_active_after (e : Element) (j s l : Nat) :
    (let e1 := if j = s then revealSection (hideSection e) else hideSection e
     let e2 := if j = l then activateLink (deactivateLink e1) else deactivateLink e1
     (e2.navLink && decide ("active" ∈ e2.classList)) = true ↔
       e.navLink = true ∧ j = l) := by
  by_cases hjs : j = s <;> by_cases hjl : j = l <;> by_cases hsec : isSection e = true <;>
    by_cases hn : e.navLink = true <;>
    simp [hjs, hjl, hsec, hn, revealSection, hideSection, activateLink, deactivateLink,
      mem_classListAdd, mem_classListRemove] <;>
    simp_all [mem_classListAdd, mem_classListRemove]

/-- C1: for a view id that names a `.section` element `s` and a nav link `l`
whose `href` is `#id`, `showSection id` followed by `updateActiveNav l`, from
any document, succeeds and leaves `s` as the only section without `hidden`
and `l` as the only nav link with `active`. -/
theorem showSection_updateActiveNav_exactly_one (doc : Document) (id : String)
    (s l : Nat) (es el : Element)
    (hid : getElementById doc id = some s)
    (hs : doc[s]? = some es) (hsec : isSection es = true)
    (hl : doc[l]? = some el) (hnav : el.navLink = true)
    (_hhref : el.href.drop 1 = id) :
    ∃ doc', updateActiveNav (showSection doc id) (some l) = .ok doc' ∧
      visibleSections doc' = [s] ∧ activeNavLinks doc' = [l] := by
  have hslt : s < doc.length := getElementById_lt doc id s hid
  have hllt : l < doc.length := by
    rcases Nat.lt_or_ge l doc.length with h | h
    · exact h
    · rw [List.getElem?_eq_none h] at hl; cases hl
  have hget : ∀ j, (modifyNth activateLink ((showSection doc id).map deactivateLink) l)[j]? =
      doc[j]?.map (fun e =>
        let e1 := if j = s then revealSection (hideSection e) else hideSection e
        if j = l then activateLink (deactivateLink e1) else deactivateLink e1) := by
    intro j
    simp only [getElem?_modifyNth, List.getElem?_map, getElem?_showSection doc id s j hid]
    by_cases h : j = l <;> cases doc[j]? <;> simp [h]
  refine ⟨_, rfl, ?_, ?_⟩
  · apply positions_eq_singleton
    · simp [length_modifyNth, length_showSection, hslt]
    · intro j e hj
      rw [hget j] at hj
      cases h0 : doc[j]? with
      | none => rw [h0] at hj; cases hj
      | some e0 =>
        rw [h0] at hj
        simp only [Option.map_some', Option.some.injEq] at hj
        subst hj
        refine Iff.trans (section_visible_after e0 j s l) ?_
        constructor
        · exact fun h => h.2
        · intro h
          subst h
          rw [hs] at h0
          cases h0
          exact ⟨hsec, rfl⟩
  · apply positions_eq_singleton
    · simp [length_modifyNth, length_showSection, hllt]
    · intro j e hj
      rw [hget j] at hj
      cases h0 : doc[j]? with
      | none => rw [h0] at hj; cases hj
      | some e0 =>
        rw [h0] at hj
        simp only [Option.map_some', Option.some.injEq] at hj
        subst hj
        refine Iff.trans (link_active_after e0 j s l) ?_
        constructor
        · exact fun h => h.2
        · intro h
          subst h
          rw [hl] at h0
          cases h0
          exact ⟨hnav, rfl⟩

/-- Witness for C1 on a page with three sections and three nav links. -/
theorem showSection_updateActiveNav_exactly_one_witness :
    ∃ doc', updateActiveNav (showSection samplePage "upload") (some 1) = .ok doc' ∧
      visibleSections doc' = [4] ∧ activeNavLinks doc' = [1] :=
  showSection_updateActiveNav_exactly_one samplePage "upload" 4 1
    ⟨"upload", ["section", "hidden"], false, ""⟩ ⟨"", [], true, "#upload"⟩
    (by decide) (by decide) (by decide) (by decide) (by decide) (by decide)

/-! ## React variant: one view at a time -/

theorem currentView_mem_navItems (events : List AppEvent) :
    (AppState.run events).currentView ∈ navItems := by
  unfold AppState.run
  suffices h : ∀ s : AppState, s.currentView ∈ navItems →
      (events.foldl AppState.step s).currentView ∈ navItems from h _ (by decide)
  induction events with
  | nil => intro s hs; exact hs
  | cons ev evs ih =>
    intro s hs
    apply ih
    cases ev with
    | buildingsLoaded bs => exact hs
    | navClick id =>
      simp only [AppState.step]
      split
      · assumption
      · exact hs
    | selectBuilding b =>
      simp only [AppState.step]
      split
      · simp [navItems]
      · exact hs
    | runSimulation =>
      simp only [AppState.step]
      split
      · split
        · exact hs
        · exact hs
      · exact hs
    | simulationComplete i data =>
      simp only [AppState.step]
      split
      · exact hs
      · exact hs
    | pollEnded i => exact hs

/-- C2, as the code has it: in every state reachable from the initial one the
current view is one of the six nav ids, at most one view component is
rendered, and exactly one is rendered if and only if the presence check of the
current view holds. -/
theorem rendered_at_most_one (events : List AppEvent) :
    (AppState.run events).currentView ∈ navItems ∧
    (rendered (AppState.run events)).length ≤ 1 ∧
    ((rendered (AppState.run events)).length = 1 ↔
      viewDataPresent (AppState.run events) = true) := by
  have h := currentView_mem_navItems events
  refine ⟨h, ?_⟩
  generalize AppState.run events = s at h
  obtain ⟨view, bs, sel, res, runs⟩ := s
  simp only [navItems, List.mem_cons, List.mem_singleton, List.not_mem_nil, or_false] at h
  rcases h with h | h | h | h | h | h <;> subst h <;>
    cases sel <;> cases res <;> simp [rendered, viewDataPresent]

/-- C2 fails as stated: after a click on the nav button `simulation` in the
initial state, no view component is rendered. -/
theorem rendered_none_after_navClick_simulation :
    AppState.run [AppEvent.navClick "simulation"] =
      { AppState.initial with currentView := "simulation" } ∧
    rendered (AppState.run [AppEvent.navClick "simulation"]) = [] := by
  decide

/-! ## Lemmas on binary64 rounding -/

theorem roundHalfEven_eq_of_near (q : ℚ) (n : ℤ) (h : |q - n| < 1 / 2) :
    roundHalfEven q = n := by
  rw [abs_lt] at h
  obtain ⟨h1, h2⟩ := h
  unfold roundHalfEven
  rcases le_or_lt (n : ℚ) q with hq | hq
  · have hf : ⌊q⌋ = n := by
      rw [Int.floor_eq_iff]
      constructor
      · exact hq
      · linarith
    rw [hf, if_pos (by linarith)]
  · have hf : ⌊q⌋ = n - 1 := by
      rw [Int.floor_eq_iff]
      push_cast
      constructor
      · linarith
      · linarith
    rw [hf]
    push_cast
    rw [if_neg (by linarith), if_pos (by linarith)]
    ring

theorem roundHalfEven_intCast (n : ℤ) : roundHalfEven (n : ℚ) = n :=
  roundHalfEven_eq_of_near _ n (by simp)

theorem floor_le_roundHalfEven (q : ℚ) : ⌊q⌋ ≤ roundHalfEven q := by
  unfold roundHalfEven
  split_ifs <;> omega

theorem roundHalfEven_le_floor_succ (q : ℚ) : roundHalfEven q ≤ ⌊q⌋ + 1 := by
  unfold roundHalfEven
  split_ifs <;> omega

theorem roundHalfEven_mono {x y : ℚ} (h : x ≤ y) : roundHalfEven x ≤ roundHalfEven y := by
  have hf : ⌊x⌋ ≤ ⌊y⌋ := Int.floor_mono h
  rcases lt_or_eq_of_le hf with hlt | heq
  · have h1 := roundHalfEven_le_floor_succ x
    have h2 := floor_le_roundHalfEven y
    omega
  · unfold roundHalfEven
    rw [← heq]
    have hx : x - ⌊x⌋ ≤ y - ⌊x⌋ := by linarith
    split_ifs <;> first | omega | (exfalso; linarith)

theorem two_zpow_pos (e : ℤ) : (0 : ℚ) < 2 ^ e := zpow_pos (by norm_num) e

theorem abs_lt_zpow_ulpExponent (x : ℚ) : |x| < 2 ^ (ulpExponent x + 53) := by
  have h1 : |x| < ((2 : ℕ) : ℚ) ^ (Int.log 2 |x| + 1) :=
    Int.lt_zpow_succ_log_self (by norm_num) |x|
  have h2 : Int.log 2 |x| + 1 ≤ ulpExponent x + 53 := by
    have : Int.log 2 |x| - 52 ≤ ulpExponent x := le_max_left _ _
    omega
  have h3 : ((2 : ℕ) : ℚ) ^ (Int.log 2 |x| + 1) ≤ (2 : ℚ) ^ (ulpExponent x + 53) := by
    rw [Nat.cast_ofNat]
    exact zpow_le_zpow_right₀ (by norm_num) h2
  exact lt_of_lt_of_le h1 h3

theorem ulpExponent_ge (x : ℚ) : -1074 ≤ ulpExponent x := le_max_right _ _

theorem ulpExponent_le_of_abs_lt (x : ℚ) (e : ℤ) (he : -1074 ≤ e) (hpos : 0 < |x|)
    (h : |x| < 2 ^ (e + 53)) : ulpExponent x ≤ e := by
  unfold ulpExponent
  apply max_le _ he
  have h1 : |x| < ((2 : ℕ) : ℚ) ^ (e + 53) := by
    rw [Nat.cast_ofNat]
    exact h
  have h2 := (Int.lt_zpow_iff_log_lt (by norm_num : 1 < 2) hpos).1 h1
  omega

theorem roundDouble_zero : roundDouble 0 = 0 := by
  unfold roundDouble
  rw [zero_div]
  have h := roundHalfEven_intCast 0
  rw [Int.cast_zero] at h
  rw [h]
  simp

/-- A number `m * 2 ^ e` with `|m| < 2 ^ 53` and `e ≥ -1074` is its own
rounding. -/
theorem roundDouble_repr (m e : ℤ) (hm : |m| < 2 ^ 53) (he : -1074 ≤ e) :
    roundDouble ((m : ℚ) * 2 ^ e) = (m : ℚ) * 2 ^ e := by
  by_cases hm0 : m = 0
  · rw [hm0, Int.cast_zero, zero_mul]
    exact roundDouble_zero
  have hlt : |(m : ℚ) * 2 ^ e| < 2 ^ (e + 53) := by
    rw [abs_mul, abs_of_pos (two_zpow_pos e), zpow_add₀ (by norm_num : (2 : ℚ) ≠ 0), mul_comm]
    apply mul_lt_mul_of_pos_left _ (two_zpow_pos e)
    have hcast : ((|m| : ℤ) : ℚ) < ((2 ^ 53 : ℤ) : ℚ) := Int.cast_lt.2 hm
    have h53 : (2 : ℚ) ^ (53 : ℤ) = 2 ^ 53 := by norm_cast
    rw [h53]
    push_cast at hcast
    exact hcast
  have hpos : 0 < |(m : ℚ) * 2 ^ e| := by
    rw [abs_pos]
    exact mul_ne_zero (by exact_mod_cast hm0) (ne_of_gt (two_zpow_pos e))
  have hle := ulpExponent_le_of_abs_lt _ e he hpos hlt
  unfold roundDouble
  generalize ulpExponent ((m : ℚ) * 2 ^ e) = e' at hle
  obtain ⟨k, hk⟩ : ∃ k : ℕ, e = e' + k := ⟨(e - e').toNat, by omega⟩
  have hsplit : (2 : ℚ) ^ e = 2 ^ e' * 2 ^ k := by
    rw [hk, zpow_add₀ (by norm_num : (2 : ℚ) ≠ 0), zpow_natCast]
  have hq : (m : ℚ) * 2 ^ e / 2 ^ e' = ((m * 2 ^ k : ℤ) : ℚ) := by
    rw [hsplit]
    push_cast
    field_simp
    ring
  rw [hq, roundHalfEven_intCast, hsplit]
  push_cast
  ring


theorem roundDouble_nonneg {x : ℚ} (hx : 0 ≤ x) : 0 ≤ roundDouble x := by
  unfold roundDouble
  apply mul_nonneg _ (le_of_lt (two_zpow_pos _))
  have h0 : (0 : ℚ) ≤ x / 2 ^ ulpExponent x := div_nonneg hx (le_of_lt (two_zpow_pos _))
  have h1 := roundHalfEven_mono h0
  rw [show ((0 : ℚ)) = ((0 : ℤ) : ℚ) by simp, roundHalfEven_intCast] at h1
  exact_mod_cast h1

theorem ulpExponent_mono {x y : ℚ} (hx : 0 < x) (h : x ≤ y) :
    ulpExponent x ≤ ulpExponent y := by
  unfold ulpExponent
  have hy : 0 < y := lt_of_lt_of_le hx h
  rw [abs_of_pos hx, abs_of_pos hy]
  have := Int.log_mono_right (b := 2) hx h
  exact max_le_max (by omega) le_rfl

/-- Rounding is monotone on the non-negative numbers. -/
theorem roundDouble_mono {x y : ℚ} (hx : 0 ≤ x) (h : x ≤ y) :
    roundDouble x ≤ roundDouble y := by
  rcases eq_or_lt_of_le hx with h0 | hpos
  · rw [← h0, roundDouble_zero]
    exact roundDouble_nonneg (le_trans hx h)
  · have hy : 0 < y := lt_of_lt_of_le hpos h
    have he := ulpExponent_mono hpos h
    rcases eq_or_lt_of_le he with heq | hlt
    · unfold roundDouble
      rw [← heq]
      apply mul_le_mul_of_nonneg_right _ (le_of_lt (two_zpow_pos _))
      have : x / 2 ^ ulpExponent x ≤ y / 2 ^ ulpExponent x :=
        div_le_div_of_nonneg_right h (le_of_lt (two_zpow_pos _))
      exact_mod_cast roundHalfEven_mono this
    · -- the two numbers lie in different binades
      have hxlt := abs_lt_zpow_ulpExponent x
      rw [abs_of_pos hpos] at hxlt
      have hx1 : roundDouble x ≤ 2 ^ (ulpExponent x + 53) := by
        unfold roundDouble
        have hq : x / 2 ^ ulpExponent x ≤ ((2 ^ 53 : ℤ) : ℚ) := by
          rw [div_le_iff₀ (two_zpow_pos _)]
          push_cast
          rw [zpow_add₀ (by norm_num : (2 : ℚ) ≠ 0)] at hxlt
          have : (2 : ℚ) ^ (53 : ℤ) = 2 ^ 53 := by norm_cast
          rw [this] at hxlt
          linarith
        have h1 := roundHalfEven_mono hq
        rw [roundHalfEven_intCast] at h1
        have h2 : ((roundHalfEven (x / 2 ^ ulpExponent x) : ℤ) : ℚ) ≤ ((2 ^ 53 : ℤ) : ℚ) := by
          exact_mod_cast h1
        rw [zpow_add₀ (by norm_num : (2 : ℚ) ≠ 0)]
        have : (2 : ℚ) ^ (53 : ℤ) = 2 ^ 53 := by norm_cast
        rw [this, mul_comm ((2 : ℚ) ^ ulpExponent x)]
        push_cast at h2
        exact mul_le_mul_of_nonneg_right h2 (le_of_lt (two_zpow_pos _))
      have hey : ulpExponent y = Int.log 2 |y| - 52 := by
        have hge := ulpExponent_ge x
        unfold ulpExponent at hlt ⊢
        rcases max_cases (Int.log 2 |y| - 52) (-1074) with ⟨h1, _⟩ | ⟨h1, _⟩
        · exact h1
        · rw [h1] at hlt
          unfold ulpExponent at hge
          omega
      have hylog : (2 : ℚ) ^ (ulpExponent y + 52) ≤ y := by
        have h1 : ((2 : ℕ) : ℚ) ^ Int.log 2 y ≤ y := Int.zpow_log_le_self (by norm_num) hy
        rw [Nat.cast_ofNat] at h1
        rw [hey, abs_of_pos hy]
        have : Int.log 2 y - 52 + 52 = Int.log 2 y := by ring
        rw [this]
        exact h1
      have hy1 : (2 : ℚ) ^ (ulpExponent y + 52) ≤ roundDouble y := by
        unfold roundDouble
        have hq : ((2 ^ 52 : ℤ) : ℚ) ≤ y / 2 ^ ulpExponent y := by
          rw [le_div_iff₀ (two_zpow_pos _)]
          push_cast
          rw [zpow_add₀ (by norm_num : (2 : ℚ) ≠ 0)] at hylog
          have : (2 : ℚ) ^ (52 : ℤ) = 2 ^ 52 := by norm_cast
          rw [this] at hylog
          linarith
        have h1 := roundHalfEven_mono hq
        rw [roundHalfEven_intCast] at h1
        have h2 : ((2 ^ 52 : ℤ) : ℚ) ≤ ((roundHalfEven (y / 2 ^ ulpExponent y) : ℤ) : ℚ) := by
          exact_mod_cast h1
        rw [zpow_add₀ (by norm_num : (2 : ℚ) ≠ 0)]
        have : (2 : ℚ) ^ (52 : ℤ) = 2 ^ 52 := by norm_cast
        rw [this, mul_comm ((2 : ℚ) ^ ulpExponent y)]
        push_cast at h2
        exact mul_le_mul_of_nonneg_right h2 (le_of_lt (two_zpow_pos _))
      have hmid : (2 : ℚ) ^ (ulpExponent x + 53) ≤ 2 ^ (ulpExponent y + 52) :=
        zpow_le_zpow_right₀ (by norm_num) (by omega)
      linarith

/-- The result of a rounding is a double. -/
theorem isDouble_roundDouble (x : ℚ) : IsDouble (roundDouble x) := by
  have hlt := abs_lt_zpow_ulpExponent x
  have hge := ulpExponent_ge x
  unfold IsDouble
  unfold roundDouble
  generalize ulpExponent x = e at hlt hge
  have hq : |x / 2 ^ e| < ((2 ^ 53 : ℤ) : ℚ) := by
    rw [abs_div, abs_of_pos (two_zpow_pos e), div_lt_iff₀ (two_zpow_pos e)]
    push_cast
    rw [zpow_add₀ (by norm_num : (2 : ℚ) ≠ 0)] at hlt
    have : (2 : ℚ) ^ (53 : ℤ) = 2 ^ 53 := by norm_cast
    rw [this] at hlt
    linarith
  rw [abs_lt] at hq
  have h1 := roundHalfEven_mono (le_of_lt hq.2)
  have h2 := roundHalfEven_mono (le_of_lt hq.1)
  rw [roundHalfEven_intCast] at h1
  rw [show -(((2 ^ 53 : ℤ) : ℚ)) = ((-(2 ^ 53) : ℤ) : ℚ) by push_cast; rfl,
    roundHalfEven_intCast] at h2
  generalize roundHalfEven (x / 2 ^ e) = n at h1 h2
  change roundDouble ((n : ℚ) * 2 ^ e) = (n : ℚ) * 2 ^ e
  by_cases hn : |n| < 2 ^ 53
  · exact roundDouble_repr n e hn hge
  · have hcase : n = 2 ^ 53 ∨ n = -(2 ^ 53) := by
      rw [abs_lt] at hn
      omega
    have hsucc : (2 : ℚ) ^ (e + 1) = 2 ^ e * 2 := by
      rw [zpow_add₀ (by norm_num : (2 : ℚ) ≠ 0), zpow_one]
    rcases hcase with hc | hc
    · have h := roundDouble_repr (2 ^ 52) (e + 1) (by norm_num) (by omega)
      have e1 : ((n : ℤ) : ℚ) * 2 ^ e = (((2 ^ 52 : ℤ)) : ℚ) * 2 ^ (e + 1) := by
        rw [hc, hsucc]
        push_cast
        ring
      rw [e1]
      exact h
    · have h := roundDouble_repr (-(2 ^ 52)) (e + 1) (by norm_num) (by omega)
      have e1 : ((n : ℤ) : ℚ) * 2 ^ e = (((-(2 ^ 52) : ℤ)) : ℚ) * 2 ^ (e + 1) := by
        rw [hc, hsucc]
        push_cast
        ring
      rw [e1]
      exact h

theorem log_eq_of_bounds (x : ℚ) (L : ℤ) (h1 : 2 ^ L ≤ x) (h2 : x < 2 ^ (L + 1)) :
    Int.log 2 |x| = L := by
  have hx : 0 < x := lt_of_lt_of_le (two_zpow_pos L) h1
  rw [abs_of_pos hx]
  have a1 : ((2 : ℕ) : ℚ) ^ L ≤ x := by rw [Nat.cast_ofNat]; exact h1
  have a2 : x < ((2 : ℕ) : ℚ) ^ (L + 1) := by rw [Nat.cast_ofNat]; exact h2
  have b1 := (Int.zpow_le_iff_le_log (by norm_num : 1 < 2) hx).1 a1
  have b2 := (Int.lt_zpow_iff_log_lt (by norm_num : 1 < 2) hx).1 a2
  omega

/-- The rounding of a number `x` in `[2 ^ L, 2 ^ (L + 1))` is the multiple of
`2 ^ (L - 52)` that is less than half a unit away. -/
theorem roundDouble_eq_of_near (x c : ℚ) (L k : ℕ) (n : ℤ) (hk : L + k = 52)
    (h1 : 2 ^ L ≤ x) (h2 : x < 2 ^ (L + 1)) (hc : c = n / 2 ^ k)
    (h : |x * 2 ^ k - n| < 1 / 2) : roundDouble x = c := by
  have a1 : (2 : ℚ) ^ (L : ℤ) ≤ x := by rw [zpow_natCast]; exact h1
  have a2 : x < (2 : ℚ) ^ ((L : ℤ) + 1) := by
    have : ((L : ℤ) + 1) = ((L + 1 : ℕ) : ℤ) := by push_cast; rfl
    rw [this, zpow_natCast]
    exact h2
  have hlog := log_eq_of_bounds x L a1 a2
  have hulp : ulpExponent x = -(k : ℤ) := by
    unfold ulpExponent
    rw [hlog]
    have : ((L : ℤ) - 52) = -(k : ℤ) := by omega
    rw [this]
    apply max_eq_left
    omega
  have hpow : (2 : ℚ) ^ (-(k : ℤ)) = 1 / 2 ^ k := by
    rw [zpow_neg, zpow_natCast, one_div]
  unfold roundDouble
  rw [hulp, hpow]
  have hq : x / (1 / 2 ^ k) = x * 2 ^ k := by
    rw [div_div_eq_mul_div, div_one]
  rw [hq, roundHalfEven_eq_of_near _ n h, hc]
  ring

theorem isDouble_of_repr (x : ℚ) (m e : ℤ) (hm : |m| < 2 ^ 53) (he : -1074 ≤ e)
    (hx : x = m * 2 ^ e) : IsDouble x := by
  unfold IsDouble
  rw [hx]
  exact roundDouble_repr m e hm he

theorem isDouble_zero : IsDouble 0 := roundDouble_zero

theorem isDouble_hundred : IsDouble 100 :=
  isDouble_of_repr 100 100 0 (by norm_num) (by norm_num) (by norm_num)

/-- A double below 1 is at most `maxDraw`. -/
theorem le_maxDraw (r : ℚ) (hd : IsDouble r) (h1 : r < 1) : r ≤ maxDraw := by
  by_contra hcon
  have hgt : maxDraw < r := lt_of_not_ge hcon
  unfold maxDraw at hgt
  have a1 : (2 : ℚ) ^ (-1 : ℤ) ≤ r := by
    have : (2 : ℚ) ^ (-1 : ℤ) = 1 / 2 := by norm_num
    rw [this]
    have : (1 : ℚ) / 2 ≤ 1 - 1 / 2 ^ 53 := by norm_num
    linarith
  have a2 : r < (2 : ℚ) ^ ((-1 : ℤ) + 1) := by
    have : (2 : ℚ) ^ ((-1 : ℤ) + 1) = 1 := by norm_num
    rw [this]
    exact h1
  have hlog := log_eq_of_bounds r (-1) a1 a2
  have hulp : ulpExponent r = -53 := by
    unfold ulpExponent
    rw [hlog]
    rfl
  unfold IsDouble roundDouble at hd
  rw [hulp] at hd
  generalize roundHalfEven (r / 2 ^ (-53 : ℤ)) = n at hd
  have hpow : (2 : ℚ) ^ (-53 : ℤ) = 1 / 2 ^ 53 := by
    rw [zpow_neg, one_div]
    norm_cast
  rw [hpow] at hd
  have b1 : ((2 ^ 53 - 1 : ℤ) : ℚ) < (n : ℚ) := by
    push_cast
    have hp : (0 : ℚ) < 2 ^ 53 := by norm_num
    have e1 : (n : ℚ) = r * 2 ^ 53 := by
      rw [← hd]
      field_simp
    rw [e1]
    have := mul_lt_mul_of_pos_right hgt hp
    have e2 : (1 - 1 / 2 ^ 53 : ℚ) * 2 ^ 53 = 9007199254740991 := by norm_num
    rw [e2] at this
    exact this
  have b2 : (n : ℚ) < ((2 ^ 53 : ℤ) : ℚ) := by
    push_cast
    have hp : (0 : ℚ) < 2 ^ 53 := by norm_num
    have e1 : (n : ℚ) = r * 2 ^ 53 := by
      rw [← hd]
      field_simp
    rw [e1]
    have := mul_lt_mul_of_pos_right h1 hp
    rw [one_mul] at this
    exact this
  have c1 : (2 ^ 53 - 1 : ℤ) < n := Int.cast_lt.1 b1
  have c2 : n < (2 ^ 53 : ℤ) := Int.cast_lt.1 b2
  omega

/-! ## Vanilla variant: the progress simulators -/

theorem fmul_nonneg {x y : ℚ} (hx : 0 ≤ x) (hy : 0 ≤ y) : 0 ≤ fmul x y :=
  roundDouble_nonneg (mul_nonneg hx hy)

theorem le_fadd {p i : ℚ} (hd : IsDouble p) (hp : 0 ≤ p) (hi : 0 ≤ i) : p ≤ fadd p i := by
  have h := roundDouble_mono hp (show p ≤ p + i by linarith)
  unfold IsDouble at hd
  rw [hd] at h
  exact h

theorem fadd_le_fadd {p q i j : ℚ} (hp : 0 ≤ p) (hi : 0 ≤ i) (hpq : p ≤ q) (hij : i ≤ j) :
    fadd p i ≤ fadd q j :=
  roundDouble_mono (add_nonneg hp hi) (add_le_add hpq hij)

theorem progressTick_sound (factor random : ℚ) (s : ProgressRun) (hf : 0 ≤ factor)
    (hr : 0 ≤ random) (hs : s.Sound) : (progressTick factor random s).Sound := by
  have hinc : 0 ≤ fmul random factor := fmul_nonneg hr hf
  have hle : s.progress ≤ fadd s.progress (fmul random factor) :=
    le_fadd hs.double hs.nonneg hinc
  unfold progressTick
  by_cases hact : s.intervalActive = true
  · simp only [hact, if_true]
    by_cases hfull : fadd s.progress (fmul random factor) ≥ 100
    · simp only [hfull, if_true]
      refine ⟨?_, ?_, le_refl _, ?_, ?_, by norm_num, isDouble_hundred⟩
      · simp only [List.pairwise_append, List.pairwise_cons, List.mem_singleton]
        refine ⟨hs.sorted, ⟨by simp, List.Pairwise.nil⟩, ?_⟩
        intro a ha b hb
        subst hb
        exact le_trans (hs.below a ha) hs.capped
      · intro w hw
        simp only [List.mem_append, List.mem_singleton] at hw
        rcases hw with hw | hw
        · exact le_trans (hs.below w hw) hs.capped
        · exact le_of_eq hw
      · simp [hs.count]
      · intro n hn hpos
        simp only [List.mem_append, List.mem_singleton] at hn
        rcases hn with hn | hn
        · have h1 := hs.final n hn hpos
          have hlt : n - 1 < s.widths.length := by
            by_contra hge
            rw [List.getElem?_eq_none (by omega)] at h1
            cases h1
          simp only
          rw [List.getElem?_append_left hlt]
          exact h1
        · subst hn
          simp only [Nat.add_sub_cancel]
          rw [← hs.count]
          simp
    · simp only [hfull, if_false]
      have hlt : fadd s.progress (fmul random factor) < 100 := lt_of_not_ge hfull
      refine ⟨?_, ?_, le_of_lt hlt, ?_, ?_, le_trans hs.nonneg hle, isDouble_roundDouble _⟩
      · simp only [List.pairwise_append, List.pairwise_cons, List.mem_singleton]
        refine ⟨hs.sorted, ⟨by simp, List.Pairwise.nil⟩, ?_⟩
        intro a ha b hb
        subst hb
        exact le_trans (hs.below a ha) hle
      · intro w hw
        simp only [List.mem_append, List.mem_singleton] at hw
        rcases hw with hw | hw
        · exact le_trans (hs.below w hw) hle
        · exact le_of_eq hw
      · simp [hs.count]
      · intro n hn hpos
        have h1 := hs.final n hn hpos
        have hlt : n - 1 < s.widths.length := by
          by_contra hge
          rw [List.getElem?_eq_none (by omega)] at h1
          cases h1
        simp only
        rw [List.getElem?_append_left hlt]
        exact h1
  · simp only [hact]
    exact hs

theorem foldl_progressTick_sound (factor : ℚ) (randoms : List ℚ) (s : ProgressRun)
    (hf : 0 ≤ factor) (hr : ∀ r ∈ randoms, 0 ≤ r) (hs : s.Sound) :
    (randoms.foldl (fun s r => progressTick factor r s) s).Sound := by
  induction randoms generalizing s with
  | nil => exact hs
  | cons r rs ih =>
    simp only [List.foldl_cons]
    apply ih
    · intro x hx
      exact hr x (List.mem_cons_of_mem _ hx)
    · exact progressTick_sound factor r s hf (hr r (List.mem_cons_self _ _)) hs

theorem progressRun_sound (factor : ℚ) (progressBar : Bool) (randoms : List ℚ)
    (hf : 0 ≤ factor) (hr : ∀ r ∈ randoms, 0 ≤ r) :
    (progressRun factor progressBar randoms).Sound := by
  unfold progressRun
  cases progressBar with
  | true =>
    simp only [if_true]
    apply foldl_progressTick_sound factor randoms _ hf hr
    exact ⟨List.Pairwise.nil, by simp, by norm_num, rfl, by simp, le_refl _, isDouble_zero⟩
  | false =>
    simp only [Bool.false_eq_true, if_false]
    exact ⟨List.Pairwise.nil, by simp, by norm_num, rfl, by simp, le_refl _, isDouble_zero⟩

/-- C3: for both simulators and all draws of `Math.random()` in `[0, 1)`
(increments in `[0, 15)` and `[0, 8)`), the widths written are non-decreasing,
each is at most 100, and the width written on a completing tick is 100. -/
theorem progress_widths_nondecreasing_capped (progressBar : Bool) (randoms : List ℚ)
    (h : ∀ r ∈ randoms, 0 ≤ r ∧ r < 1) :
    ((simulateUploadProgress progressBar randoms).widths.Pairwise (fun a b => a ≤ b) ∧
      (∀ w ∈ (simulateUploadProgress progressBar randoms).widths, w ≤ 100) ∧
      (∀ n ∈ (simulateUploadProgress progressBar randoms).resolvedAt, 0 < n →
        (simulateUploadProgress progressBar randoms).widths[n - 1]? = some 100)) ∧
    ((simulateProgress progressBar randoms).widths.Pairwise (fun a b => a ≤ b) ∧
      (∀ w ∈ (simulateProgress progressBar randoms).widths, w ≤ 100) ∧
      (∀ n ∈ (simulateProgress progressBar randoms).resolvedAt, 0 < n →
        (simulateProgress progressBar randoms).widths[n - 1]? = some 100)) := by
  have hr : ∀ r ∈ randoms, 0 ≤ r := fun r hr => (h r hr).1
  have hu := progressRun_sound 15 progressBar randoms (by norm_num) hr
  have hp := progressRun_sound 8 progressBar randoms (by norm_num) hr
  exact ⟨⟨hu.sorted, fun w hw => le_trans (hu.below w hw) hu.capped, hu.final⟩,
    ⟨hp.sorted, fun w hw => le_trans (hp.below w hw) hp.capped, hp.final⟩⟩

/-- Witness for C3 on fourteen draws of `0.96875`. -/
theorem progress_widths_nondecreasing_capped_witness :
    (∀ r ∈ sampleDraws, 0 ≤ r ∧ r < 1) ∧
    ((simulateUploadProgress true sampleDraws).widths.Pairwise (fun a b => a ≤ b) ∧
      (∀ w ∈ (simulateUploadProgress true sampleDraws).widths, w ≤ 100) ∧
      (∀ n ∈ (simulateUploadProgress true sampleDraws).resolvedAt, 0 < n →
        (simulateUploadProgress true sampleDraws).widths[n - 1]? = some 100)) ∧
    ((simulateProgress true sampleDraws).widths.Pairwise (fun a b => a ≤ b) ∧
      (∀ w ∈ (simulateProgress true sampleDraws).widths, w ≤ 100) ∧
      (∀ n ∈ (simulateProgress true sampleDraws).resolvedAt, 0 < n →
        (simulateProgress true sampleDraws).widths[n - 1]? = some 100)) :=
  have h : ∀ r ∈ sampleDraws, 0 ≤ r ∧ r < 1 := by
    intro r hr
    simp only [sampleDraws, List.mem_replicate] at hr
    rw [hr.2]
    norm_num
  ⟨h, progress_widths_nondecreasing_capped true sampleDraws h⟩

theorem foldl_progressTick_inactive (factor : ℚ) (randoms : List ℚ) (s : ProgressRun)
    (h : s.intervalActive = false) :
    randoms.foldl (fun s r => progressTick factor r s) s = s := by
  induction randoms with
  | nil => rfl
  | cons r rs ih =>
    simp only [List.foldl_cons]
    have : progressTick factor r s = s := by simp [progressTick, h]
    rw [this, ih]

theorem accumulate_nil (factor p : ℚ) : accumulate factor p [] = p := rfl

theorem accumulate_cons (factor p r : ℚ) (rs : List ℚ) :
    accumulate factor p (r :: rs) = accumulate factor (fadd p (fmul r factor)) rs := rfl

theorem accumulate_append (factor p : ℚ) (l1 l2 : List ℚ) :
    accumulate factor p (l1 ++ l2) = accumulate factor (accumulate factor p l1) l2 := by
  simp [accumulate, List.foldl_append]

theorem foldl_progressTick_complete (factor : ℚ) (randoms : List ℚ) (s : ProgressRun)
    (hact : s.intervalActive = true) (hlow : s.progress < 100) (k : Nat)
    (hk : k ≤ randoms.length)
    (hreach : 100 ≤ accumulate factor s.progress (randoms.take k)) :
    ∃ n, 1 ≤ n ∧ n ≤ randoms.length ∧
      100 ≤ accumulate factor s.progress (randoms.take n) ∧
      (∀ m, m < n → accumulate factor s.progress (randoms.take m) < 100) ∧
      (randoms.foldl (fun s r => progressTick factor r s) s).resolvedAt =
        s.resolvedAt ++ [s.ticks + n] ∧
      (randoms.foldl (fun s r => progressTick factor r s) s).ticks = s.ticks + n ∧
      (randoms.foldl (fun s r => progressTick factor r s) s).intervalActive = false := by
  induction randoms generalizing s k with
  | nil =>
    have hk0 : k = 0 := by simpa using hk
    subst hk0
    simp only [List.take_nil, accumulate_nil] at hreach
    linarith
  | cons r rs ih =>
    simp only [List.foldl_cons]
    by_cases hfull : fadd s.progress (fmul r factor) ≥ 100
    · have htick : progressTick factor r s =
          { s with progress := 100, intervalActive := false, ticks := s.ticks + 1,
                   resolvedAt := s.resolvedAt ++ [s.ticks + 1],
                   widths := s.widths ++ [100] } := by
        simp [progressTick, hact, hfull]
      rw [htick, foldl_progressTick_inactive _ _ _ rfl]
      refine ⟨1, le_refl _, by simp, ?_, ?_, rfl, rfl, rfl⟩
      · simp only [List.take_succ_cons, List.take_zero, accumulate_cons, accumulate_nil]
        exact hfull
      · intro m hm
        have hm0 : m = 0 := by omega
        subst hm0
        simp only [List.take_zero, accumulate_nil]
        exact hlow
    · have hlt : fadd s.progress (fmul r factor) < 100 := lt_of_not_ge hfull
      have htick : progressTick factor r s =
          { s with progress := fadd s.progress (fmul r factor), ticks := s.ticks + 1,
                   widths := s.widths ++ [fadd s.progress (fmul r factor)] } := by
        simp [progressTick, hact, hfull]
      rw [htick]
      cases k with
      | zero =>
        simp only [List.take_zero, accumulate_nil] at hreach
        linarith
      | succ k =>
        simp only [List.take_succ_cons, accumulate_cons] at hreach
        have hk' : k ≤ rs.length := by simpa using hk
        obtain ⟨n, hn1, hn2, hn3, hn4, hn5, hn6, hn7⟩ :=
          ih { s with progress := fadd s.progress (fmul r factor), ticks := s.ticks + 1,
                      widths := s.widths ++ [fadd s.progress (fmul r factor)] }
            hact hlt k hk' hreach
        refine ⟨n + 1, by omega, by simp; omega, ?_, ?_, ?_, ?_, hn7⟩
        · simp only [List.take_succ_cons, accumulate_cons]
          exact hn3
        · intro m hm
          cases m with
          | zero =>
            simp only [List.take_zero, accumulate_nil]
            exact hlow
          | succ m =>
            simp only [List.take_succ_cons, accumulate_cons]
            exact hn4 m (by omega)
        · rw [hn5]; simp only [Nat.add_assoc, Nat.add_comm 1 n]
        · rw [hn6]; simp only [Nat.add_assoc, Nat.add_comm 1 n]

theorem progressRun_complete (factor : ℚ) (randoms : List ℚ)
    (hreach : ∃ k, k ≤ randoms.length ∧ 100 ≤ runningSum factor randoms k) :
    ∃ n, 1 ≤ n ∧ n ≤ randoms.length ∧ 100 ≤ runningSum factor randoms n ∧
      (∀ m, m < n → runningSum factor randoms m < 100) ∧
      (progressRun factor true randoms).resolvedAt = [n] ∧
      (progressRun factor true randoms).ticks = n ∧
      (progressRun factor true randoms).intervalActive = false := by
  obtain ⟨k, hk, hsum⟩ := hreach
  have h := foldl_progressTick_complete factor randoms
    { progress := 0, timerStarted := true, intervalActive := true, ticks := 0,
      resolvedAt := [], widths := [] } rfl (by norm_num) k hk hsum
  simpa [progressRun, runningSum] using h

/-- Equal draws whose increments add up without rounding. -/
theorem accumulate_replicate (factor c p : ℚ) (n : Nat) (hc : IsDouble (c * factor))
    (h : ∀ j : Nat, j ≤ n → IsDouble (p + j * (c * factor))) :
    accumulate factor p (List.replicate n c) = p + n * (c * factor) := by
  induction n generalizing p with
  | zero => simp [accumulate]
  | succ n ih =>
    have hmul : fmul c factor = c * factor := hc
    have h1 := h 1 (by omega)
    have hadd : fadd p (c * factor) = p + c * factor := by
      have : IsDouble (p + c * factor) := by simpa using h1
      exact this
    rw [List.replicate_succ, accumulate_cons, hmul, hadd, ih]
    · push_cast
      ring
    · intro j hj
      have := h (j + 1) (by omega)
      have e : p + c * factor + (j : ℚ) * (c * factor) =
          p + ((j + 1 : ℕ) : ℚ) * (c * factor) := by
        push_cast
        ring
      rw [e]
      exact this

/-- The running sums of the draws `a` times `0` and then `N` times `c`, when
the increments add up without rounding. -/
theorem runningSum_zeros_then (factor c : ℚ) (a N m : Nat) (hc : IsDouble (c * factor))
    (h : ∀ j : Nat, j ≤ N → IsDouble ((j : ℚ) * (c * factor))) :
    runningSum factor (List.replicate a 0 ++ List.replicate N c) m =
      ((min (m - a) N : ℕ) : ℚ) * (c * factor) := by
  unfold runningSum
  rw [List.take_append_eq_append_take, accumulate_append, List.take_replicate,
    List.take_replicate, List.length_replicate]
  have hz : accumulate factor 0 (List.replicate (min m a) 0) = 0 := by
    rw [accumulate_replicate factor 0 0 (min m a)]
    · simp
    · simpa using isDouble_zero
    · intro j _
      simpa using isDouble_zero
  rw [hz, accumulate_replicate factor c 0 (min (m - a) N) hc]
  · simp
  · intro j hj
    have := h j (le_trans hj (min_le_right _ _))
    simpa using this

/-- A run on `n - N` draws `0` and then `N` equal draws, of which `N - 1` stay
below 100 and `N` reach it, completes on tick `n`. -/
theorem progressRun_completes_on (factor c : ℚ) (N n : Nat) (hN : 1 ≤ N) (hn : N ≤ n)
    (hc : IsDouble (c * factor)) (hpos : 0 ≤ c * factor)
    (h : ∀ j : Nat, j ≤ N → IsDouble ((j : ℚ) * (c * factor)))
    (hlow : ((N - 1 : ℕ) : ℚ) * (c * factor) < 100)
    (hhigh : 100 ≤ (N : ℚ) * (c * factor)) :
    (progressRun factor true (List.replicate (n - N) 0 ++ List.replicate N c)).resolvedAt =
      [n] := by
  have hsum := fun m => runningSum_zeros_then factor c (n - N) N m hc h
  have hlen : (List.replicate (n - N) (0 : ℚ) ++ List.replicate N c).length = n := by
    simp
    omega
  obtain ⟨n', _, hn2, hn3, hn4, hn5, _⟩ :=
    progressRun_complete factor (List.replicate (n - N) 0 ++ List.replicate N c)
      ⟨n, by rw [hlen], by
        rw [hsum n]
        have : min (n - (n - N)) N = N := by omega
        rw [this]
        exact hhigh⟩
  have hbelow : ∀ m, m < n →
      runningSum factor (List.replicate (n - N) 0 ++ List.replicate N c) m < 100 := by
    intro m hm
    rw [hsum m]
    have hle : min (m - (n - N)) N ≤ N - 1 := by omega
    have hcast : ((min (m - (n - N)) N : ℕ) : ℚ) ≤ ((N - 1 : ℕ) : ℚ) := by
      exact_mod_cast hle
    have := mul_le_mul_of_nonneg_right hcast hpos
    linarith
  have hge : n ≤ n' := by
    by_contra hlt
    have := hbelow n' (by omega)
    linarith
  have hle : n' ≤ n := by
    rw [hlen] at hn2
    exact hn2
  have e : n' = n := le_antisymm hle hge
  rw [hn5, e]

theorem isDouble_upload_steps (j : Nat) (hj : j ≤ 14) :
    IsDouble ((j : ℚ) * (31 / 32 * 15)) := by
  apply isDouble_of_repr _ (465 * j) (-5)
  · rw [abs_lt]
    constructor <;> omega
  · norm_num
  · push_cast
    have : (2 : ℚ) ^ (-5 : ℤ) = 1 / 32 := by norm_num
    rw [this]
    ring

theorem isDouble_simulation_steps (j : Nat) (hj : j ≤ 14) :
    IsDouble ((j : ℚ) * (31 / 32 * 8)) := by
  apply isDouble_of_repr _ (31 * j) (-2)
  · rw [abs_lt]
    constructor <;> omega
  · norm_num
  · push_cast
    have : (2 : ℚ) ^ (-2 : ℤ) = 1 / 4 := by norm_num
    rw [this]
    ring

theorem isDouble_sampleDraw : IsDouble (31 / 32) :=
  isDouble_of_repr _ 31 (-5) (by norm_num) (by norm_num) (by norm_num)

/-- The run of `simulateUploadProgress` on `lateDraws 7 n` completes on tick
`n`. -/
theorem upload_completes_on (n : Nat) (hn : 7 ≤ n) :
    (simulateUploadProgress true (lateDraws 7 n)).resolvedAt = [n] := by
  have h1 := isDouble_upload_steps 1 (by norm_num)
  exact progressRun_completes_on 15 (31 / 32) 7 n (by norm_num) hn
    (by simpa using h1) (by norm_num) (fun j hj => isDouble_upload_steps j (by omega))
    (by norm_num) (by norm_num)

/-- The run of `simulateProgress` on `lateDraws 13 n` completes on tick
`n`. -/
theorem simulation_completes_on (n : Nat) (hn : 13 ≤ n) :
    (simulateProgress true (lateDraws 13 n)).resolvedAt = [n] := by
  have h1 := isDouble_simulation_steps 1 (by norm_num)
  exact progressRun_completes_on 8 (31 / 32) 13 n (by norm_num) hn
    (by simpa using h1) (by norm_num) (fun j hj => isDouble_simulation_steps j (by omega))
    (by norm_num) (by norm_num)

theorem lateDraws_length (k n : Nat) (h : k ≤ n) : (lateDraws k n).length = n := by
  simp [lateDraws]
  omega

theorem lateDraws_range (k n : Nat) : ∀ r ∈ lateDraws k n, IsDouble r ∧ 0 ≤ r ∧ r < 1 := by
  intro r hr
  simp only [lateDraws, List.mem_append, List.mem_replicate] at hr
  rcases hr with ⟨_, hr⟩ | ⟨_, hr⟩
  · rw [hr]
    exact ⟨isDouble_zero, le_refl _, by norm_num⟩
  · rw [hr]
    exact ⟨isDouble_sampleDraw, by norm_num, by norm_num⟩

theorem runningSum_sampleDraws_upload : runningSum 15 sampleDraws 7 = 3255 / 32 := by
  have h1 := isDouble_upload_steps 1 (by norm_num)
  have h := runningSum_zeros_then 15 (31 / 32) 0 14 7 (by simpa using h1)
    isDouble_upload_steps
  simp only [List.replicate_zero, List.nil_append] at h
  rw [sampleDraws, h]
  norm_num

theorem runningSum_sampleDraws_simulation : runningSum 8 sampleDraws 13 = 403 / 4 := by
  have h1 := isDouble_simulation_steps 1 (by norm_num)
  have h := runningSum_zeros_then 8 (31 / 32) 0 14 13 (by simpa using h1)
    isDouble_simulation_steps
  simp only [List.replicate_zero, List.nil_append] at h
  rw [sampleDraws, h]
  norm_num

/-- On `sampleDraws` the running sum of `simulateUploadProgress` reaches 100. -/
theorem sampleDraws_reach_upload :
    ∃ k, k ≤ sampleDraws.length ∧ 100 ≤ runningSum 15 sampleDraws k :=
  ⟨7, by simp [sampleDraws], by rw [runningSum_sampleDraws_upload]; norm_num⟩

/-- On `sampleDraws` the running sum of `simulateProgress` reaches 100. -/
theorem sampleDraws_reach_simulation :
    ∃ k, k ≤ sampleDraws.length ∧ 100 ≤ runningSum 8 sampleDraws k :=
  ⟨13, by simp [sampleDraws], by rw [runningSum_sampleDraws_simulation]; norm_num⟩

theorem roundHalfEven_tie (f : ℤ) :
    roundHalfEven ((f : ℚ) + 1 / 2) = if f % 2 = 0 then f else f + 1 := by
  have hf : ⌊(f : ℚ) + 1 / 2⌋ = f := by
    rw [Int.floor_eq_iff]
    constructor <;> norm_num
  unfold roundHalfEven
  rw [hf]
  have e : (f : ℚ) + 1 / 2 - f = 1 / 2 := by ring
  rw [e, if_neg (lt_irrefl _), if_neg (lt_irrefl _)]

/-- The rounding of a number `x` in `[2 ^ L, 2 ^ (L + 1))` that lies half way
between two multiples of `2 ^ (L - 52)` is the even one. -/
theorem roundDouble_eq_of_tie (x c : ℚ) (L k : ℕ) (f n : ℤ) (hk : L + k = 52)
    (h1 : 2 ^ L ≤ x) (h2 : x < 2 ^ (L + 1)) (hc : c = n / 2 ^ k)
    (hx : x * 2 ^ k = f + 1 / 2) (hn : n = if f % 2 = 0 then f else f + 1) :
    roundDouble x = c := by
  have a1 : (2 : ℚ) ^ (L : ℤ) ≤ x := by rw [zpow_natCast]; exact h1
  have a2 : x < (2 : ℚ) ^ ((L : ℤ) + 1) := by
    have : ((L : ℤ) + 1) = ((L + 1 : ℕ) : ℤ) := by push_cast; rfl
    rw [this, zpow_natCast]
    exact h2
  have hlog := log_eq_of_bounds x L a1 a2
  have hulp : ulpExponent x = -(k : ℤ) := by
    unfold ulpExponent
    rw [hlog]
    have : ((L : ℤ) - 52) = -(k : ℤ) := by omega
    rw [this]
    apply max_eq_left
    omega
  have hpow : (2 : ℚ) ^ (-(k : ℤ)) = 1 / 2 ^ k := by
    rw [zpow_neg, zpow_natCast, one_div]
  unfold roundDouble
  rw [hulp, hpow]
  have hq : x / (1 / 2 ^ k) = x * 2 ^ k := by
    rw [div_div_eq_mul_div, div_one]
  rw [hq, hx, roundHalfEven_tie, ← hn, hc]
  ring

theorem runningSum_zero (factor : ℚ) (randoms : List ℚ) : runningSum factor randoms 0 = 0 := by
  simp [runningSum, accumulate]

theorem runningSum_succ (factor : ℚ) (randoms : List ℚ) (m : Nat) (r : ℚ)
    (h : randoms[m]? = some r) :
    runningSum factor randoms (m + 1) = fadd (runningSum factor randoms m) (fmul r factor) := by
  unfold runningSum
  rw [List.take_succ, accumulate_append, h]
  rfl

/-- A run completes on the first tick at which the running sum is at least
100. -/
theorem resolvedAt_of_runningSum (factor : ℚ) (randoms : List ℚ) (n : Nat)
    (hn : n ≤ randoms.length) (hreach : 100 ≤ runningSum factor randoms n)
    (hbelow : ∀ m, m < n → runningSum factor randoms m < 100) :
    (progressRun factor true randoms).resolvedAt = [n] := by
  obtain ⟨n', _, _, hn3, hn4, hn5, _⟩ := progressRun_complete factor randoms ⟨n, hn, hreach⟩
  have hge : n ≤ n' := by
    by_contra hlt
    have := hbelow n' (by omega)
    linarith
  have hle : n' ≤ n := by
    by_contra hlt
    have := hn4 n (by omega)
    linarith
  rw [hn5, le_antisymm hle hge]

theorem fmul_roundedUpDraws : fmul (4330384257087015 / 2 ^ 52) 8 = 8660768514174030 / 2 ^ 50 := by
  unfold fmul
  exact roundDouble_eq_of_near _ _ 2 50 8660768514174030 rfl (by norm_num) (by norm_num) (by norm_num)
    (by rw [abs_lt]; constructor <;> norm_num)

theorem runningSum_roundedUpDraws_1 : runningSum 8 roundedUpDraws 1 = 8660768514174030 / 2 ^ 50 := by
  rw [runningSum_succ 8 roundedUpDraws 0 (4330384257087015 / 2 ^ 52) (by simp [roundedUpDraws]), runningSum_zero 8 roundedUpDraws,
    fmul_roundedUpDraws]
  unfold fadd
  exact roundDouble_eq_of_near _ _ 2 50 8660768514174030 rfl (by norm_num) (by norm_num) (by norm_num)
    (by rw [abs_lt]; constructor <;> norm_num)

theorem runningSum_roundedUpDraws_2 : runningSum 8 roundedUpDraws 2 = 8660768514174030 / 2 ^ 49 := by
  rw [runningSum_succ 8 roundedUpDraws 1 (4330384257087015 / 2 ^ 52) (by simp [roundedUpDraws]), runningSum_roundedUpDraws_1,
    fmul_roundedUpDraws]
  unfold fadd
  exact roundDouble_eq_of_near _ _ 3 49 8660768514174030 rfl (by norm_num) (by norm_num) (by norm_num)
    (by rw [abs_lt]; constructor <;> norm_num)

theorem runningSum_roundedUpDraws_3 : runningSum 8 roundedUpDraws 3 = 6495576385630522 / 2 ^ 48 := by
  rw [runningSum_succ 8 roundedUpDraws 2 (4330384257087015 / 2 ^ 52) (by simp [roundedUpDraws]), runningSum_roundedUpDraws_2,
    fmul_roundedUpDraws]
  unfold fadd
  exact roundDouble_eq_of_tie _ _ 4 48 6495576385630522 6495576385630522 rfl (by norm_num) (by norm_num)
    (by norm_num) (by norm_num) (by decide)

theorem runningSum_roundedUpDraws_4 : runningSum 8 roundedUpDraws 4 = 8660768514174030 / 2 ^ 48 := by
  rw [runningSum_succ 8 roundedUpDraws 3 (4330384257087015 / 2 ^ 52) (by simp [roundedUpDraws]), runningSum_roundedUpDraws_3,
    fmul_roundedUpDraws]
  unfold fadd
  exact roundDouble_eq_of_tie _ _ 4 48 8660768514174029 8660768514174030 rfl (by norm_num) (by norm_num)
    (by norm_num) (by norm_num) (by decide)

theorem runningSum_roundedUpDraws_5 : runningSum 8 roundedUpDraws 5 = 5412980321358769 / 2 ^ 47 := by
  rw [runningSum_succ 8 roundedUpDraws 4 (4330384257087015 / 2 ^ 52) (by simp [roundedUpDraws]), runningSum_roundedUpDraws_4,
    fmul_roundedUpDraws]
  unfold fadd
  exact roundDouble_eq_of_near _ _ 5 47 5412980321358769 rfl (by norm_num) (by norm_num) (by norm_num)
    (by rw [abs_lt]; constructor <;> norm_num)

theorem runningSum_roundedUpDraws_6 : runningSum 8 roundedUpDraws 6 = 6495576385630523 / 2 ^ 47 := by
  rw [runningSum_succ 8 roundedUpDraws 5 (4330384257087015 / 2 ^ 52) (by simp [roundedUpDraws]), runningSum_roundedUpDraws_5,
    fmul_roundedUpDraws]
  unfold fadd
  exact roundDouble_eq_of_near _ _ 5 47 6495576385630523 rfl (by norm_num) (by norm_num) (by norm_num)
    (by rw [abs_lt]; constructor <;> norm_num)

theorem runningSum_roundedUpDraws_7 : runningSum 8 roundedUpDraws 7 = 7578172449902277 / 2 ^ 47 := by
  rw [runningSum_succ 8 roundedUpDraws 6 (4330384257087015 / 2 ^ 52) (by simp [roundedUpDraws]), runningSum_roundedUpDraws_6,
    fmul_roundedUpDraws]
  unfold fadd
  exact roundDouble_eq_of_near _ _ 5 47 7578172449902277 rfl (by norm_num) (by norm_num) (by norm_num)
    (by rw [abs_lt]; constructor <;> norm_num)

theorem runningSum_roundedUpDraws_8 : runningSum 8 roundedUpDraws 8 = 8660768514174031 / 2 ^ 47 := by
  rw [runningSum_succ 8 roundedUpDraws 7 (4330384257087015 / 2 ^ 52) (by simp [roundedUpDraws]), runningSum_roundedUpDraws_7,
    fmul_roundedUpDraws]
  unfold fadd
  exact roundDouble_eq_of_near _ _ 5 47 8660768514174031 rfl (by norm_num) (by norm_num) (by norm_num)
    (by rw [abs_lt]; constructor <;> norm_num)

theorem runningSum_roundedUpDraws_9 : runningSum 8 roundedUpDraws 9 = 4871682289222892 / 2 ^ 46 := by
  rw [runningSum_succ 8 roundedUpDraws 8 (4330384257087015 / 2 ^ 52) (by simp [roundedUpDraws]), runningSum_roundedUpDraws_8,
    fmul_roundedUpDraws]
  unfold fadd
  exact roundDouble_eq_of_near _ _ 6 46 4871682289222892 rfl (by norm_num) (by norm_num) (by norm_num)
    (by rw [abs_lt]; constructor <;> norm_num)

theorem runningSum_roundedUpDraws_10 : runningSum 8 roundedUpDraws 10 = 5412980321358769 / 2 ^ 46 := by
  rw [runningSum_succ 8 roundedUpDraws 9 (4330384257087015 / 2 ^ 52) (by simp [roundedUpDraws]), runningSum_roundedUpDraws_9,
    fmul_roundedUpDraws]
  unfold fadd
  exact roundDouble_eq_of_near _ _ 6 46 5412980321358769 rfl (by norm_num) (by norm_num) (by norm_num)
    (by rw [abs_lt]; constructor <;> norm_num)

theorem runningSum_roundedUpDraws_11 : runningSum 8 roundedUpDraws 11 = 5954278353494646 / 2 ^ 46 := by
  rw [runningSum_succ 8 roundedUpDraws 10 (4330384257087015 / 2 ^ 52) (by simp [roundedUpDraws]), runningSum_roundedUpDraws_10,
    fmul_roundedUpDraws]
  unfold fadd
  exact roundDouble_eq_of_near _ _ 6 46 5954278353494646 rfl (by norm_num) (by norm_num) (by norm_num)
    (by rw [abs_lt]; constructor <;> norm_num)

theorem runningSum_roundedUpDraws_12 : runningSum 8 roundedUpDraws 12 = 6495576385630523 / 2 ^ 46 := by
  rw [runningSum_succ 8 roundedUpDraws 11 (4330384257087015 / 2 ^ 52) (by simp [roundedUpDraws]), runningSum_roundedUpDraws_11,
    fmul_roundedUpDraws]
  unfold fadd
  exact roundDouble_eq_of_near _ _ 6 46 6495576385630523 rfl (by norm_num) (by norm_num) (by norm_num)
    (by rw [abs_lt]; constructor <;> norm_num)

theorem runningSum_roundedUpDraws_13 : runningSum 8 roundedUpDraws 13 = 7036874417766400 / 2 ^ 46 := by
  rw [runningSum_succ 8 roundedUpDraws 12 (4330384257087015 / 2 ^ 52) (by simp [roundedUpDraws]), runningSum_roundedUpDraws_12,
    fmul_roundedUpDraws]
  unfold fadd
  exact roundDouble_eq_of_near _ _ 6 46 7036874417766400 rfl (by norm_num) (by norm_num) (by norm_num)
    (by rw [abs_lt]; constructor <;> norm_num)

/-- On `roundedUpDraws` the run of `simulateProgress` completes on tick 13, one
tick before the exact sum of the increments reaches 100. -/
theorem simulateProgress_roundedUpDraws :
    (simulateProgress true roundedUpDraws).resolvedAt = [13] ∧
    ((13 : ℚ) * (4330384257087015 / 2 ^ 52 * 8) < 100 ∧
      100 ≤ (14 : ℚ) * (4330384257087015 / 2 ^ 52 * 8)) := by
  refine ⟨?_, by norm_num, by norm_num⟩
  apply resolvedAt_of_runningSum 8 roundedUpDraws 13 (by simp [roundedUpDraws])
  · rw [runningSum_roundedUpDraws_13]
    norm_num
  · intro m hm
    interval_cases m
    · rw [runningSum_zero]
      norm_num
    · rw [runningSum_roundedUpDraws_1]
      norm_num
    · rw [runningSum_roundedUpDraws_2]
      norm_num
    · rw [runningSum_roundedUpDraws_3]
      norm_num
    · rw [runningSum_roundedUpDraws_4]
      norm_num
    · rw [runningSum_roundedUpDraws_5]
      norm_num
    · rw [runningSum_roundedUpDraws_6]
      norm_num
    · rw [runningSum_roundedUpDraws_7]
      norm_num
    · rw [runningSum_roundedUpDraws_8]
      norm_num
    · rw [runningSum_roundedUpDraws_9]
      norm_num
    · rw [runningSum_roundedUpDraws_10]
      norm_num
    · rw [runningSum_roundedUpDraws_11]
      norm_num
    · rw [runningSum_roundedUpDraws_12]
      norm_num

theorem fmul_roundedDownDraws : fmul (8042142191733029 / 2 ^ 53) 8 = 8042142191733029 / 2 ^ 50 := by
  unfold fmul
  exact roundDouble_eq_of_near _ _ 2 50 8042142191733029 rfl (by norm_num) (by norm_num) (by norm_num)
    (by rw [abs_lt]; constructor <;> norm_num)

theorem runningSum_roundedDownDraws_1 : runningSum 8 roundedDownDraws 1 = 8042142191733029 / 2 ^ 50 := by
  rw [runningSum_succ 8 roundedDownDraws 0 (8042142191733029 / 2 ^ 53) (by simp [roundedDownDraws]), runningSum_zero 8 roundedDownDraws,
    fmul_roundedDownDraws]
  unfold fadd
  exact roundDouble_eq_of_near _ _ 2 50 8042142191733029 rfl (by norm_num) (by norm_num) (by norm_num)
    (by rw [abs_lt]; constructor <;> norm_num)

theorem runningSum_roundedDownDraws_2 : runningSum 8 roundedDownDraws 2 = 8042142191733029 / 2 ^ 49 := by
  rw [runningSum_succ 8 roundedDownDraws 1 (8042142191733029 / 2 ^ 53) (by simp [roundedDownDraws]), runningSum_roundedDownDraws_1,
    fmul_roundedDownDraws]
  unfold fadd
  exact roundDouble_eq_of_near _ _ 3 49 8042142191733029 rfl (by norm_num) (by norm_num) (by norm_num)
    (by rw [abs_lt]; constructor <;> norm_num)

theorem runningSum_roundedDownDraws_3 : runningSum 8 roundedDownDraws 3 = 6031606643799772 / 2 ^ 48 := by
  rw [runningSum_succ 8 roundedDownDraws 2 (8042142191733029 / 2 ^ 53) (by simp [roundedDownDraws]), runningSum_roundedDownDraws_2,
    fmul_roundedDownDraws]
  unfold fadd
  exact roundDouble_eq_of_near _ _ 4 48 6031606643799772 rfl (by norm_num) (by norm_num) (by norm_num)
    (by rw [abs_lt]; constructor <;> norm_num)

theorem runningSum_roundedDownDraws_4 : runningSum 8 roundedDownDraws 4 = 8042142191733029 / 2 ^ 48 := by
  rw [runningSum_succ 8 roundedDownDraws 3 (8042142191733029 / 2 ^ 53) (by simp [roundedDownDraws]), runningSum_roundedDownDraws_3,
    fmul_roundedDownDraws]
  unfold fadd
  exact roundDouble_eq_of_near _ _ 4 48 8042142191733029 rfl (by norm_num) (by norm_num) (by norm_num)
    (by rw [abs_lt]; constructor <;> norm_num)

theorem runningSum_roundedDownDraws_5 : runningSum 8 roundedDownDraws 5 = 5026338869833143 / 2 ^ 47 := by
  rw [runningSum_succ 8 roundedDownDraws 4 (8042142191733029 / 2 ^ 53) (by simp [roundedDownDraws]), runningSum_roundedDownDraws_4,
    fmul_roundedDownDraws]
  unfold fadd
  exact roundDouble_eq_of_near _ _ 5 47 5026338869833143 rfl (by norm_num) (by norm_num) (by norm_num)
    (by rw [abs_lt]; constructor <;> norm_num)

theorem runningSum_roundedDownDraws_6 : runningSum 8 roundedDownDraws 6 = 6031606643799772 / 2 ^ 47 := by
  rw [runningSum_succ 8 roundedDownDraws 5 (8042142191733029 / 2 ^ 53) (by simp [roundedDownDraws]), runningSum_roundedDownDraws_5,
    fmul_roundedDownDraws]
  unfold fadd
  exact roundDouble_eq_of_near _ _ 5 47 6031606643799772 rfl (by norm_num) (by norm_num) (by norm_num)
    (by rw [abs_lt]; constructor <;> norm_num)

theorem runningSum_roundedDownDraws_7 : runningSum 8 roundedDownDraws 7 = 7036874417766401 / 2 ^ 47 := by
  rw [runningSum_succ 8 roundedDownDraws 6 (8042142191733029 / 2 ^ 53) (by simp [roundedDownDraws]), runningSum_roundedDownDraws_6,
    fmul_roundedDownDraws]
  unfold fadd
  exact roundDouble_eq_of_near _ _ 5 47 7036874417766401 rfl (by norm_num) (by norm_num) (by norm_num)
    (by rw [abs_lt]; constructor <;> norm_num)

theorem runningSum_roundedDownDraws_8 : runningSum 8 roundedDownDraws 8 = 8042142191733030 / 2 ^ 47 := by
  rw [runningSum_succ 8 roundedDownDraws 7 (8042142191733029 / 2 ^ 53) (by simp [roundedDownDraws]), runningSum_roundedDownDraws_7,
    fmul_roundedDownDraws]
  unfold fadd
  exact roundDouble_eq_of_near _ _ 5 47 8042142191733030 rfl (by norm_num) (by norm_num) (by norm_num)
    (by rw [abs_lt]; constructor <;> norm_num)

theorem runningSum_roundedDownDraws_9 : runningSum 8 roundedDownDraws 9 = 4523704982849829 / 2 ^ 46 := by
  rw [runningSum_succ 8 roundedDownDraws 8 (8042142191733029 / 2 ^ 53) (by simp [roundedDownDraws]), runningSum_roundedDownDraws_8,
    fmul_roundedDownDraws]
  unfold fadd
  exact roundDouble_eq_of_near _ _ 6 46 4523704982849829 rfl (by norm_num) (by norm_num) (by norm_num)
    (by rw [abs_lt]; constructor <;> norm_num)

theorem runningSum_roundedDownDraws_10 : runningSum 8 roundedDownDraws 10 = 5026338869833143 / 2 ^ 46 := by
  rw [runningSum_succ 8 roundedDownDraws 9 (8042142191733029 / 2 ^ 53) (by simp [roundedDownDraws]), runningSum_roundedDownDraws_9,
    fmul_roundedDownDraws]
  unfold fadd
  exact roundDouble_eq_of_near _ _ 6 46 5026338869833143 rfl (by norm_num) (by norm_num) (by norm_num)
    (by rw [abs_lt]; constructor <;> norm_num)

theorem runningSum_roundedDownDraws_11 : runningSum 8 roundedDownDraws 11 = 5528972756816457 / 2 ^ 46 := by
  rw [runningSum_succ 8 roundedDownDraws 10 (8042142191733029 / 2 ^ 53) (by simp [roundedDownDraws]), runningSum_roundedDownDraws_10,
    fmul_roundedDownDraws]
  unfold fadd
  exact roundDouble_eq_of_near _ _ 6 46 5528972756816457 rfl (by norm_num) (by norm_num) (by norm_num)
    (by rw [abs_lt]; constructor <;> norm_num)

theorem runningSum_roundedDownDraws_12 : runningSum 8 roundedDownDraws 12 = 6031606643799771 / 2 ^ 46 := by
  rw [runningSum_succ 8 roundedDownDraws 11 (8042142191733029 / 2 ^ 53) (by simp [roundedDownDraws]), runningSum_roundedDownDraws_11,
    fmul_roundedDownDraws]
  unfold fadd
  exact roundDouble_eq_of_near _ _ 6 46 6031606643799771 rfl (by norm_num) (by norm_num) (by norm_num)
    (by rw [abs_lt]; constructor <;> norm_num)

theorem runningSum_roundedDownDraws_13 : runningSum 8 roundedDownDraws 13 = 6534240530783085 / 2 ^ 46 := by
  rw [runningSum_succ 8 roundedDownDraws 12 (8042142191733029 / 2 ^ 53) (by simp [roundedDownDraws]), runningSum_roundedDownDraws_12,
    fmul_roundedDownDraws]
  unfold fadd
  exact roundDouble_eq_of_near _ _ 6 46 6534240530783085 rfl (by norm_num) (by norm_num) (by norm_num)
    (by rw [abs_lt]; constructor <;> norm_num)

theorem runningSum_roundedDownDraws_14 : runningSum 8 roundedDownDraws 14 = 7036874417766399 / 2 ^ 46 := by
  rw [runningSum_succ 8 roundedDownDraws 13 (8042142191733029 / 2 ^ 53) (by simp [roundedDownDraws]), runningSum_roundedDownDraws_13,
    fmul_roundedDownDraws]
  unfold fadd
  exact roundDouble_eq_of_near _ _ 6 46 7036874417766399 rfl (by norm_num) (by norm_num) (by norm_num)
    (by rw [abs_lt]; constructor <;> norm_num)

theorem runningSum_roundedDownDraws_15 : runningSum 8 roundedDownDraws 15 = 7539508304749713 / 2 ^ 46 := by
  rw [runningSum_succ 8 roundedDownDraws 14 (8042142191733029 / 2 ^ 53) (by simp [roundedDownDraws]), runningSum_roundedDownDraws_14,
    fmul_roundedDownDraws]
  unfold fadd
  exact roundDouble_eq_of_near _ _ 6 46 7539508304749713 rfl (by norm_num) (by norm_num) (by norm_num)
    (by rw [abs_lt]; constructor <;> norm_num)

/-- On `roundedDownDraws` the run of `simulateProgress` completes on tick 15, one
tick after the exact sum of the increments reaches 100. -/
theorem simulateProgress_roundedDownDraws :
    (simulateProgress true roundedDownDraws).resolvedAt = [15] ∧
    ((13 : ℚ) * (8042142191733029 / 2 ^ 53 * 8) < 100 ∧
      100 ≤ (14 : ℚ) * (8042142191733029 / 2 ^ 53 * 8)) := by
  refine ⟨?_, by norm_num, by norm_num⟩
  apply resolvedAt_of_runningSum 8 roundedDownDraws 15 (by simp [roundedDownDraws])
  · rw [runningSum_roundedDownDraws_15]
    norm_num
  · intro m hm
    interval_cases m
    · rw [runningSum_zero]
      norm_num
    · rw [runningSum_roundedDownDraws_1]
      norm_num
    · rw [runningSum_roundedDownDraws_2]
      norm_num
    · rw [runningSum_roundedDownDraws_3]
      norm_num
    · rw [runningSum_roundedDownDraws_4]
      norm_num
    · rw [runningSum_roundedDownDraws_5]
      norm_num
    · rw [runningSum_roundedDownDraws_6]
      norm_num
    · rw [runningSum_roundedDownDraws_7]
      norm_num
    · rw [runningSum_roundedDownDraws_8]
      norm_num
    · rw [runningSum_roundedDownDraws_9]
      norm_num
    · rw [runningSum_roundedDownDraws_10]
      norm_num
    · rw [runningSum_roundedDownDraws_11]
      norm_num
    · rw [runningSum_roundedDownDraws_12]
      norm_num
    · rw [runningSum_roundedDownDraws_13]
      norm_num
    · rw [runningSum_roundedDownDraws_14]
      norm_num

/-- C4: when the running sum of the increments, added up in double
arithmetic as the program adds them, reaches 100, each simulator invokes
`resolve` exactly once, on the first tick `n` at which the accumulated
progress is at least 100, exactly `n` ticks run and the interval is then
cleared; without the bar element `resolve` is invoked once at once, no timer
is started and no tick runs. -/
theorem progress_resolves_exactly_once (randoms : List ℚ) :
    ((∃ k, k ≤ randoms.length ∧ 100 ≤ runningSum 15 randoms k) →
      ∃ n, 1 ≤ n ∧ n ≤ randoms.length ∧ 100 ≤ runningSum 15 randoms n ∧
        (∀ m, m < n → runningSum 15 randoms m < 100) ∧
        (simulateUploadProgress true randoms).resolvedAt = [n] ∧
        (simulateUploadProgress true randoms).ticks = n ∧
        (simulateUploadProgress true randoms).intervalActive = false) ∧
    ((∃ k, k ≤ randoms.length ∧ 100 ≤ runningSum 8 randoms k) →
      ∃ n, 1 ≤ n ∧ n ≤ randoms.length ∧ 100 ≤ runningSum 8 randoms n ∧
        (∀ m, m < n → runningSum 8 randoms m < 100) ∧
        (simulateProgress true randoms).resolvedAt = [n] ∧
        (simulateProgress true randoms).ticks = n ∧
        (simulateProgress true randoms).intervalActive = false) ∧
    ((simulateUploadProgress false randoms).resolvedAt = [0] ∧
      (simulateUploadProgress false randoms).timerStarted = false ∧
      (simulateUploadProgress false randoms).ticks = 0) ∧
    ((simulateProgress false randoms).resolvedAt = [0] ∧
      (simulateProgress false randoms).timerStarted = false ∧
      (simulateProgress false randoms).ticks = 0) :=
  ⟨progressRun_complete 15 randoms, progressRun_complete 8 randoms,
    ⟨rfl, rfl, rfl⟩, ⟨rfl, rfl, rfl⟩⟩

/-- Witness for C4 on fourteen draws of `0.96875`: the upload sum reaches 100
on tick 7, the simulation sum on tick 13. -/
theorem progress_resolves_exactly_once_witness :
    (∃ k, k ≤ sampleDraws.length ∧ 100 ≤ runningSum 15 sampleDraws k) ∧
    (∃ k, k ≤ sampleDraws.length ∧ 100 ≤ runningSum 8 sampleDraws k) ∧
    (∃ n, 1 ≤ n ∧ n ≤ sampleDraws.length ∧ 100 ≤ runningSum 15 sampleDraws n ∧
      (∀ m, m < n → runningSum 15 sampleDraws m < 100) ∧
      (simulateUploadProgress true sampleDraws).resolvedAt = [n] ∧
      (simulateUploadProgress true sampleDraws).ticks = n ∧
      (simulateUploadProgress true sampleDraws).intervalActive = false) ∧
    (∃ n, 1 ≤ n ∧ n ≤ sampleDraws.length ∧ 100 ≤ runningSum 8 sampleDraws n ∧
      (∀ m, m < n → runningSum 8 sampleDraws m < 100) ∧
      (simulateProgress true sampleDraws).resolvedAt = [n] ∧
      (simulateProgress true sampleDraws).ticks = n ∧
      (simulateProgress true sampleDraws).intervalActive = false) :=
  have h15 : ∃ k, k ≤ sampleDraws.length ∧ 100 ≤ runningSum 15 sampleDraws k :=
    sampleDraws_reach_upload
  have h8 : ∃ k, k ≤ sampleDraws.length ∧ 100 ≤ runningSum 8 sampleDraws k :=
    sampleDraws_reach_simulation
  ⟨h15, h8, (progress_resolves_exactly_once sampleDraws).1 h15,
    (progress_resolves_exactly_once sampleDraws).2.1 h8⟩

/-! ## React variant: `pollForResults` -/

theorem poll_eq_spec (outcomes : List PollOutcome) (attempts : Nat) (r : PollRun)
    (ha : attempts < maxAttempts) (hlen : maxAttempts - attempts ≤ outcomes.length) :
    (poll outcomes attempts r).simulationStatus =
        specTerminalStatus (maxAttempts - attempts) outcomes ∧
    (poll outcomes attempts r).statusWrites =
        r.statusWrites ++ [specTerminalStatus (maxAttempts - attempts) outcomes] ∧
    (poll outcomes attempts r).completions =
        r.completions ++ specCompletions (maxAttempts - attempts) outcomes ∧
    (poll outcomes attempts r).requests =
        r.requests + specRequests (maxAttempts - attempts) outcomes ∧
    (poll outcomes attempts r).awaiting = r.awaiting := by
  induction outcomes generalizing attempts r with
  | nil =>
    simp only [List.length_nil] at hlen
    omega
  | cons o rest ih =>
    obtain ⟨b, hb⟩ : ∃ b, maxAttempts - attempts = b + 1 := ⟨maxAttempts - attempts - 1, by omega⟩
    rw [hb]
    cases o with
    | failure =>
      simp [poll, setSimulationStatus, specTerminalStatus, specCompletions, specRequests,
          List.findIdx_cons,
        isTerminalOutcome]
    | response data =>
      by_cases hc : data.status = "completed"
      · simp [poll, setSimulationStatus, specTerminalStatus, specCompletions, specRequests,
          List.findIdx_cons,
          isTerminalOutcome, hc]
      · by_cases hf : data.status = "failed"
        · simp [poll, setSimulationStatus, specTerminalStatus, specCompletions, specRequests,
          List.findIdx_cons,
            isTerminalOutcome, hf]
        · by_cases hlast : attempts + 1 < maxAttempts
          · have hb' : maxAttempts - (attempts + 1) = b := by omega
            have hlen' : maxAttempts - (attempts + 1) ≤ rest.length := by
              simp only [List.length_cons] at hlen
              omega
            have h := ih (attempts + 1)
              { r with requests := r.requests + 1, scheduledDelay := r.scheduledDelay + 10000 }
              hlast hlen'
            rw [hb'] at h
            obtain ⟨h1, h2, h3, h4, h5⟩ := h
            have hp : poll (PollOutcome.response data :: rest) attempts r =
                poll rest (attempts + 1)
                  { r with requests := r.requests + 1,
                           scheduledDelay := r.scheduledDelay + 10000 } := by
              simp [poll, hc, hf, hlast]
            rw [hp, h1, h2, h3, h4, h5]
            have hnt : isTerminalOutcome (PollOutcome.response data) = false := by
              simp [isTerminalOutcome, hc, hf]
            simp only [specTerminalStatus, specCompletions, specRequests, List.take_succ_cons,
              List.find?_cons, hnt, List.findIdx_cons, cond_false]
            refine ⟨trivial, trivial, trivial, ?_, trivial⟩
            cases hfind : List.find? isTerminalOutcome (List.take b rest) <;> simp <;> omega
          · have hb0 : b = 0 := by omega
            subst hb0
            have hnt : isTerminalOutcome (PollOutcome.response data) = false := by
              simp [isTerminalOutcome, hc, hf]
            simp [poll, setSimulationStatus, specTerminalStatus, specCompletions, specRequests,
              List.findIdx_cons, hc, hf, hlast, hnt]

/-- C6: when at least 30 outcomes are at hand, the poll sets exactly one
status, the one of the first terminal outcome among the first 30 attempts
(`completed`, `failed`, `error`) or `timeout` when there is none; it invokes
`onSimulationComplete` once with the `completed` response and otherwise not at
all, and it issues no request after the terminal one. -/
theorem pollForResults_one_terminal_status (outcomes : List PollOutcome) (r : PollRun)
    (hlen : maxAttempts ≤ outcomes.length) :
    (pollForResults outcomes r).simulationStatus = specTerminalStatus maxAttempts outcomes ∧
    (pollForResults outcomes r).statusWrites =
      r.statusWrites ++ [specTerminalStatus maxAttempts outcomes] ∧
    (pollForResults outcomes r).completions =
      r.completions ++ specCompletions maxAttempts outcomes ∧
    (pollForResults outcomes r).requests = r.requests + specRequests maxAttempts outcomes ∧
    (pollForResults outcomes r).awaiting = r.awaiting ∧
    specTerminalStatus maxAttempts outcomes ∈ ["completed", "failed", "error", "timeout"] ∧
    specRequests maxAttempts outcomes ≤ maxAttempts := by
  have h := poll_eq_spec outcomes 0 r (by decide) (by simpa using hlen)
  simp only [Nat.sub_zero] at h
  obtain ⟨h1, h2, h3, h4, h5⟩ := h
  refine ⟨h1, h2, h3, h4, h5, ?_, ?_⟩
  · unfold specTerminalStatus
    split
    · split <;> simp
    · simp
    · simp
  · unfold specRequests
    split
    · rename_i x hx
      have hlt : (outcomes.take maxAttempts).findIdx isTerminalOutcome <
          (outcomes.take maxAttempts).length :=
        List.findIdx_lt_length.mpr ⟨x, List.mem_of_find?_eq_some hx, List.find?_some hx⟩
      have := List.length_take_le maxAttempts outcomes
      omega
    · exact le_refl _

/-- Witness for C6: two `running` responses, then a `completed` one. -/
theorem pollForResults_one_terminal_status_witness :
    maxAttempts ≤ doneOnThird.length ∧
    (pollForResults doneOnThird PollRun.start).simulationStatus = "completed" ∧
    (pollForResults doneOnThird PollRun.start).statusWrites = ["completed"] ∧
    (pollForResults doneOnThird PollRun.start).completions = [⟨"completed", 7⟩] ∧
    (pollForResults doneOnThird PollRun.start).requests = 3 :=
  have h := pollForResults_one_terminal_status doneOnThird PollRun.start (by decide)
  ⟨by decide, h.1.trans (by decide), h.2.1.trans (by decide), h.2.2.1.trans (by decide),
    h.2.2.2.1.trans (by decide)⟩

/-- C5: when the first 30 outcomes are delivered responses whose status is
neither `completed` nor `failed`, the poll started by `runSimulation` issues
exactly 30 requests, ends with the status `timeout` (its only status write),
and never invokes `onSimulationComplete`. -/
theorem pollForResults_timeout (outcomes : List PollOutcome)
    (hlen : maxAttempts ≤ outcomes.length)
    (hnon : ∀ o ∈ outcomes.take maxAttempts,
      ∃ data, o = PollOutcome.response data ∧ data.status ≠ "completed" ∧
        data.status ≠ "failed") :
    (pollForResults outcomes PollRun.start).requests = 30 ∧
    (pollForResults outcomes PollRun.start).simulationStatus = "timeout" ∧
    (pollForResults outcomes PollRun.start).simulationStatus ≠ "running" ∧
    (pollForResults outcomes PollRun.start).statusWrites = ["timeout"] ∧
    (pollForResults outcomes PollRun.start).completions = [] := by
  have hfind : (outcomes.take maxAttempts).find? isTerminalOutcome = none := by
    rw [List.find?_eq_none]
    intro o ho
    obtain ⟨data, rfl, hc, hf⟩ := hnon o ho
    simp [isTerminalOutcome, hc, hf]
  have h := poll_eq_spec outcomes 0 PollRun.start (by decide) (by simpa using hlen)
  simp only [Nat.sub_zero, specTerminalStatus, specCompletions, specRequests, hfind] at h
  obtain ⟨h1, h2, h3, h4, _⟩ := h
  unfold pollForResults
  rw [h1, h2, h3, h4]
  simp [PollRun.start, maxAttempts]

/-- Witness for C5 on forty `running` responses. -/
theorem pollForResults_timeout_witness :
    maxAttempts ≤ neverDone.length ∧
    (pollForResults neverDone PollRun.start).requests = 30 ∧
    (pollForResults neverDone PollRun.start).simulationStatus = "timeout" :=
  have h := pollForResults_timeout neverDone (by decide) (by
    intro o ho
    have hmem : o ∈ neverDone := List.mem_of_mem_take ho
    simp only [neverDone, List.mem_replicate] at hmem
    exact ⟨⟨"running", 0⟩, hmem.2, by decide, by decide⟩)
  ⟨by decide, h.1, h.2.1⟩

/-! ## Vanilla variant: the scene toggles -/

theorem toggleHeatOverlay_freshScene :
    toggleHeatOverlay (some freshScene) = .ok (some heatedScene) := by
  rfl

theorem toggleHeatOverlay_heatedScene :
    toggleHeatOverlay (some heatedScene) = .ok (some freshScene) := by
  rfl

theorem toggleHeatOverlayTimes_freshScene (n : Nat) :
    toggleHeatOverlayTimes n (some freshScene) =
      .ok (some (if n % 2 = 0 then freshScene else heatedScene)) := by
  induction n with
  | zero => rfl
  | succ n ih =>
    simp only [toggleHeatOverlayTimes, ih]
    rcases Nat.mod_two_eq_zero_or_one n with h | h
    · have h' : (n + 1) % 2 = 1 := by omega
      simp only [h, h', if_true]
      exact toggleHeatOverlay_freshScene
    · have h' : (n + 1) % 2 = 0 := by omega
      simp only [h, h', if_true]
      exact toggleHeatOverlay_heatedScene

/-- C7: on the scene built by `createBuilding` the main building has colour
`0x87CEEB`; one toggle of the heat overlay gives `0xFF6B6B`, a second one gives
back the scene as built; and from every scene reached by toggling, two more
toggles give back that scene. -/
theorem toggleHeatOverlay_twice_restores :
    mainBuildingColor (some freshScene) = some 0x87CEEB ∧
    (∃ heated, toggleHeatOverlay (some freshScene) = .ok (some heated) ∧
      mainBuildingColor (some heated) = some 0xFF6B6B ∧
      toggleHeatOverlay (some heated) = .ok (some freshScene)) ∧
    (∀ n, ∃ sc, toggleHeatOverlayTimes n (some freshScene) = .ok (some sc) ∧
      toggleHeatOverlayTimes 2 (some sc) = .ok (some sc) ∧
      (mainBuildingColor (some sc) = some 0x87CEEB ∨
        mainBuildingColor (some sc) = some 0xFF6B6B)) := by
  refine ⟨rfl, ⟨heatedScene, rfl, rfl, rfl⟩, ?_⟩
  intro n
  refine ⟨_, toggleHeatOverlayTimes_freshScene n, ?_⟩
  split
  · exact ⟨rfl, Or.inl rfl⟩
  · exact ⟨rfl, Or.inr rfl⟩

theorem getObjectByName_eq_none (sc : Scene) (name : String)
    (h : getObjectByName sc name = none) : ∀ o ∈ sc, o.name ≠ name := by
  unfold getObjectByName at h
  simp only at h
  split at h
  · cases h
  · rename_i hlt
    have hlen : sc.findIdx (fun o => decide (o.name = name)) = sc.length :=
      Nat.le_antisymm (List.findIdx_le_length _) (Nat.le_of_not_lt hlt)
    rw [List.findIdx_eq_length] at hlen
    intro o ho
    simpa using hlen o ho

theorem getObjectByName_append_new (sc : Scene) (o : Object3D)
    (h : ∀ x ∈ sc, x.name ≠ o.name) :
    getObjectByName (sc ++ [o]) o.name = some sc.length := by
  have hlen : sc.findIdx (fun x => decide (x.name = o.name)) = sc.length := by
    rw [List.findIdx_eq_length]
    intro x hx
    simpa using h x hx
  unfold getObjectByName
  simp [List.findIdx_append, hlen, List.findIdx_cons]

/-- C8, as the code has it: on a scene without an object named `sunPath`
(or with no scene at all) one toggle adds the sun, when there is a scene, and
a second toggle gives back the scene as it was, without a `sunPath` object. -/
theorem toggleSunPath_twice_without_sun (scene : Option Scene)
    (h : hasSunPath scene = false) :
    toggleSunPath (toggleSunPath scene) = scene ∧
    hasSunPath (toggleSunPath (toggleSunPath scene)) = false ∧
    hasSunPath (toggleSunPath scene) = scene.isSome := by
  cases scene with
  | none => exact ⟨rfl, rfl, rfl⟩
  | some sc =>
    have hnone : getObjectByName sc "sunPath" = none := by
      simp only [hasSunPath] at h
      cases hg : getObjectByName sc "sunPath" with
      | none => rfl
      | some i => rw [hg] at h; cases h
    have hnew := getObjectByName_append_new sc ⟨"sunPath", some 0xFFD700⟩
      (getObjectByName_eq_none sc "sunPath" hnone)
    have h1 : toggleSunPath (some sc) = some (sc ++ [⟨"sunPath", some 0xFFD700⟩]) := by
      simp only [toggleSunPath, hnone]
    have h2 : toggleSunPath (some (sc ++ [⟨"sunPath", some 0xFFD700⟩])) = some sc := by
      simp only [toggleSunPath, hnew]
      rw [List.eraseIdx_append_of_length_le (le_refl _)]
      simp
    rw [h1, h2]
    refine ⟨rfl, h, ?_⟩
    simp [hasSunPath, hnew]

/-- Witness for C8 on the scene that `init3DVisualizer` builds. -/
theorem toggleSunPath_twice_without_sun_witness :
    hasSunPath (some freshScene) = false ∧
    toggleSunPath (toggleSunPath (some freshScene)) = some freshScene ∧
    hasSunPath (toggleSunPath (toggleSunPath (some freshScene))) = false :=
  have h := toggleSunPath_twice_without_sun (some freshScene) (by decide)
  ⟨by decide, h.1, h.2.1⟩

/-- C8 fails as stated: on the scene with the sun on, which one toggle of the
fresh scene gives, two toggles leave a scene that has a `sunPath` object. -/
theorem toggleSunPath_twice_keeps_sun :
    toggleSunPath (some freshScene) = some sunnyScene ∧
    hasSunPath (toggleSunPath (toggleSunPath (some sunnyScene))) = true := by
  decide

/-! ## Vanilla variant: one render loop -/

theorem animate_pending_nil (v : Visualizer) (h : v.pendingFrames = []) :
    (animate v).pendingFrames = [v.frameCounter + 1] ∧
    (animate v).animationId = some (v.frameCounter + 1) := by
  simp [animate, h]

theorem cancel_singleLoop (v : Visualizer) (h : v.SingleLoop) :
    (cancelExistingLoop v).pendingFrames = [] := by
  unfold cancelExistingLoop
  rcases h with h | ⟨handle, h0, hp, hid⟩
  · cases hv : v.animationId with
    | none => simpa using h
    | some x =>
      simp only
      split <;> simp [cancelAnimationFrame, h]
  · simp [hid, h0, cancelAnimationFrame, hp]

theorem init3DVisualizer_singleLoop (env : VisualizerEnv) (v : Visualizer)
    (h : v.SingleLoop) : (init3DVisualizer env v).SingleLoop := by
  have hc := cancel_singleLoop v h
  unfold init3DVisualizer
  by_cases hcont : env.container = true
  · by_cases hthree : env.three = true
    · by_cases hgl : env.webgl = true
      · simp only [hcont, hthree, hgl, Bool.not_true, Bool.false_eq_true, if_false]
        right
        refine ⟨(cancelExistingLoop v).frameCounter + 1, Nat.succ_ne_zero _, ?_, ?_⟩
        · simp only [animate, hc, List.nil_append]
        · simp only [animate]
      · simp only [hcont, hthree, hgl, Bool.not_true, Bool.not_false, Bool.false_eq_true,
          if_false, if_true]
        left
        exact hc
    · simp only [hcont, hthree, Bool.not_true, Bool.not_false, Bool.false_eq_true,
        if_false, if_true]
      left
      exact hc
  · simp only [hcont, Bool.not_false, if_true]
    exact h

theorem fireFrame_singleLoop (v : Visualizer) (h : v.SingleLoop) :
    (fireFrame v).SingleLoop := by
  unfold fireFrame
  rcases h with h | ⟨handle, _, hp, _⟩
  · left
    simp [h]
  · right
    refine ⟨v.frameCounter + 1, Nat.succ_ne_zero _, ?_, ?_⟩
    · simp [hp, animate]
    · simp [hp, animate]

theorem foldl_step_singleLoop (events : List VisualizerEvent) (v : Visualizer)
    (h : v.SingleLoop) : (events.foldl Visualizer.step v).SingleLoop := by
  induction events generalizing v with
  | nil => exact h
  | cons ev evs ih =>
    apply ih
    cases ev with
    | init env => exact init3DVisualizer_singleLoop env v h
    | frame => exact fireFrame_singleLoop v h

theorem run_singleLoop (events : List VisualizerEvent) :
    (Visualizer.run events).SingleLoop :=
  foldl_step_singleLoop events Visualizer.initial (Or.inl rfl)

/-- C9: after any sequence of `init3DVisualizer` calls and animation frames
at most one `animate` callback is pending; and when the sequence ends with two
calls of `init3DVisualizer` on a page with the container, `THREE` and WebGL,
exactly one is pending. -/
theorem at_most_one_animate_pending (events : List VisualizerEvent) :
    (Visualizer.run events).pendingFrames.length ≤ 1 ∧
    (∀ oc1 oc2 : Bool,
      (Visualizer.run (events ++
        [VisualizerEvent.init ⟨true, true, true, oc1⟩,
         VisualizerEvent.init ⟨true, true, true, oc2⟩])).pendingFrames.length = 1) := by
  constructor
  · rcases run_singleLoop events with h | ⟨handle, _, hp, _⟩
    · simp [h]
    · simp [hp]
  · intro oc1 oc2
    have h1 := run_singleLoop (events ++ [VisualizerEvent.init ⟨true, true, true, oc1⟩])
    have hc := cancel_singleLoop _ h1
    have hrun : Visualizer.run (events ++
        [VisualizerEvent.init ⟨true, true, true, oc1⟩,
         VisualizerEvent.init ⟨true, true, true, oc2⟩]) =
        init3DVisualizer ⟨true, true, true, oc2⟩
          (Visualizer.run (events ++ [VisualizerEvent.init ⟨true, true, true, oc1⟩])) := by
      simp [Visualizer.run, List.foldl_append, Visualizer.step]
    rw [hrun]
    generalize Visualizer.run (events ++ [VisualizerEvent.init ⟨true, true, true, oc1⟩]) = w
      at hc
    simp only [init3DVisualizer, Bool.not_true, Bool.false_eq_true, if_false, animate, hc,
      List.nil_append, List.length_singleton]

/-! ## React variant: the render loops of `Visualizer3D` -/

theorem frame_loops (v : ReactVisualizer) (acc rest : List Nat) :
    rest.foldl (fun w renderer => { w with loops := w.loops ++ [renderer] })
      { v with loops := acc } = { v with loops := acc ++ rest } := by
  induction rest generalizing acc with
  | nil => simp
  | cons r rs ih =>
    simp only [List.foldl_cons]
    rw [ih (acc ++ [r])]
    simp

theorem step_frame (v : ReactVisualizer) : v.step ReactVisualizerEvent.frame = v := by
  simp only [ReactVisualizer.step]
  rw [frame_loops v [] v.loops]
  simp

theorem step_loops_length (v : ReactVisualizer) (ev : ReactVisualizerEvent)
    (h : v.loops.length = v.created) : (v.step ev).loops.length = (v.step ev).created := by
  cases ev with
  | frame => rw [step_frame]; exact h
  | mount =>
    obtain ⟨m, rr, sr, cs, ls, c⟩ := v
    cases m <;> cases rr <;>
      simp_all [ReactVisualizer.step, runEffect, initThreeJS, cleanupEffect]
  | buildingChange =>
    obtain ⟨m, rr, sr, cs, ls, c⟩ := v
    cases m <;> cases rr <;>
      simp_all [ReactVisualizer.step, runEffect, initThreeJS, cleanupEffect]
  | unmount =>
    obtain ⟨m, rr, sr, cs, ls, c⟩ := v
    cases m <;> cases rr <;>
      simp_all [ReactVisualizer.step, runEffect, initThreeJS, cleanupEffect]

theorem run_loops_length (events : List ReactVisualizerEvent) :
    (ReactVisualizer.run events).loops.length = (ReactVisualizer.run events).created := by
  unfold ReactVisualizer.run
  suffices h : ∀ v : ReactVisualizer, v.loops.length = v.created →
      (events.foldl ReactVisualizer.step v).loops.length =
        (events.foldl ReactVisualizer.step v).created from h _ rfl
  induction events with
  | nil => intro v hv; exact hv
  | cons ev evs ih =>
    intro v hv
    exact ih _ (step_loops_length v ev hv)

/-- C10 fails on the code: the view is entered and the building then changes.
The cleanup takes the old canvas away, yet the `animate` loop of the first
renderer goes on beside the new one, also after a frame has run; leaving and
entering the view again gives two loops as well. -/
theorem visualizer3D_two_loops_after_reentry :
    (ReactVisualizer.run [.mount, .buildingChange]).loops = [1, 2] ∧
    (ReactVisualizer.run [.mount, .buildingChange]).canvases = [2] ∧
    (ReactVisualizer.run [.mount, .frame, .buildingChange, .frame]).loops = [1, 2] ∧
    (ReactVisualizer.run [.mount, .unmount, .mount]).loops = [1, 2] := by
  decide

/-! ## React variant: presence checks, status messages, upload form -/

/-- C11: in every state of `CHIPApp`, `ResultsView` is rendered only if
`simulationResults` is not null, and `RecommendationsView` only if
`selectedBuilding` is not null. -/
theorem results_and_recommendations_guarded (s : AppState) :
    (ViewComponent.ResultsView ∈ rendered s → s.simulationResults.isSome = true) ∧
    (ViewComponent.RecommendationsView ∈ rendered s → s.selectedBuilding.isSome = true) := by
  obtain ⟨view, bs, sel, res, runs⟩ := s
  constructor
  · intro h
    simp only [rendered, List.mem_append] at h
    rcases h with ((((h | h) | h) | h) | h) | h
    all_goals
      split at h
      · first
        | (rename_i hc; simp only [List.mem_singleton] at h; exact hc.2)
        | (simp at h)
      · simp at h
  · intro h
    simp only [rendered, List.mem_append] at h
    rcases h with ((((h | h) | h) | h) | h) | h
    all_goals
      split at h
      · first
        | (rename_i hc; simp only [List.mem_singleton] at h; exact hc.2)
        | (simp at h)
      · simp at h

/-- Witness for C11: a state that shows the results view. -/
theorem results_and_recommendations_guarded_witness :
    ViewComponent.ResultsView ∈ rendered sampleResultsState ∧
    sampleResultsState.simulationResults.isSome = true :=
  ⟨by decide, (results_and_recommendations_guarded sampleResultsState).1 (by decide)⟩

/-- C12: the messages of `failed`, `timeout` and `error` are pairwise distinct,
and each differs from the messages of `starting`, `running`, `completed` and
from the default message `Unknown status`, which every other status gets. -/
theorem terminal_status_messages_distinct :
    ((getStatusInfo "failed").1 :: (getStatusInfo "timeout").1 :: (getStatusInfo "error").1 ::
      (getStatusInfo "starting").1 :: (getStatusInfo "running").1 ::
      (getStatusInfo "completed").1 :: ["Unknown status"]).Nodup ∧
    (getStatusInfo "failed").1 = "Simulation failed. Please try again." ∧
    (getStatusInfo "timeout").1 = "Simulation timed out. Please try again." ∧
    (getStatusInfo "error").1 = "An error occurred during simulation." ∧
    (∀ status, status ∉ ["starting", "running", "completed", "failed", "timeout", "error"] →
      (getStatusInfo status).1 = "Unknown status") := by
  refine ⟨by decide, by decide, by decide, by decide, ?_⟩
  intro status h
  simp only [List.mem_cons, List.mem_singleton, List.not_mem_nil, or_false, not_or] at h
  obtain ⟨h1, h2, h3, h4, h5, h6⟩ := h
  simp [getStatusInfo, h1, h2, h3, h4, h5, h6]

/-- Witness for C12: the status `paused` gets the default message. -/
theorem terminal_status_messages_distinct_witness :
    "paused" ∉ ["starting", "running", "completed", "failed", "timeout", "error"] ∧
    (getStatusInfo "paused").1 = "Unknown status" :=
  ⟨by decide, terminal_status_messages_distinct.2.2.2.2 "paused" (by decide)⟩

theorem error_status_ne_empty (message : String) :
    "Error uploading building: " ++ message ≠ "" := by
  intro h
  have h2 := congrArg String.length h
  rw [String.length_append] at h2
  have h3 : "Error uploading building: ".length = 26 := by decide
  rw [h3] at h2
  simp at h2

/-- C16: a submit that starts while no upload is running (the submit button is
disabled otherwise) ends with `uploading = false` and a status that is not
empty: without a file the file request message, no request and the form as it
was; on success the success message, the form reset and one call of
`onBuildingUploaded`; on failure the error message with the message of the
error, and the form as it was. -/
theorem handleSubmit_reports_outcome (outcome : UploadOutcome) (v : UploadView)
    (h : v.uploading = false) :
    (handleSubmit outcome v).uploading = false ∧
    (handleSubmit outcome v).uploadStatus ≠ "" ∧
    (v.formData.file = none →
      (handleSubmit outcome v).uploadStatus = "Please select a file to upload" ∧
      (handleSubmit outcome v).requests = v.requests ∧
      (handleSubmit outcome v).uploadedCalls = v.uploadedCalls ∧
      (handleSubmit outcome v).formData = v.formData) ∧
    (v.formData.file ≠ none → outcome = UploadOutcome.success →
      (handleSubmit outcome v).uploadStatus = "Building uploaded successfully!" ∧
      (handleSubmit outcome v).requests = v.requests + 1 ∧
      (handleSubmit outcome v).uploadedCalls = v.uploadedCalls + 1 ∧
      (handleSubmit outcome v).formData = FormData.initial) ∧
    (∀ message, v.formData.file ≠ none → outcome = UploadOutcome.failure message →
      (handleSubmit outcome v).uploadStatus = "Error uploading building: " ++ message ∧
      (handleSubmit outcome v).requests = v.requests + 1 ∧
      (handleSubmit outcome v).uploadedCalls = v.uploadedCalls ∧
      (handleSubmit outcome v).formData = v.formData) := by
  cases hfile : v.formData.file with
  | none =>
    have hr : handleSubmit outcome v =
        { v with uploadStatus := "Please select a file to upload" } := by
      simp only [handleSubmit, hfile]
    rw [hr]
    refine ⟨h, by simp, fun _ => ⟨rfl, rfl, rfl, rfl⟩, ?_, ?_⟩
    · intro hne; exact absurd rfl hne
    · intro _ hne; exact absurd rfl hne
  | some file =>
    cases outcome with
    | success =>
      have hr : handleSubmit UploadOutcome.success v =
          { v with uploading := false, uploadStatus := "Building uploaded successfully!",
                   requests := v.requests + 1, uploadedCalls := v.uploadedCalls + 1,
                   formData := FormData.initial } := by
        simp only [handleSubmit, hfile]
      rw [hr]
      refine ⟨rfl, by simp, ?_, fun _ _ => ⟨rfl, rfl, rfl, rfl⟩, ?_⟩
      · intro hn; cases hn
      · intro _ _ hne; cases hne
    | failure message =>
      have hr : handleSubmit (UploadOutcome.failure message) v =
          { v with uploading := false,
                   uploadStatus := "Error uploading building: " ++ message,
                   requests := v.requests + 1 } := by
        simp only [handleSubmit, hfile]
      rw [hr]
      refine ⟨rfl, error_status_ne_empty message, ?_, ?_, ?_⟩
      · intro hn; cases hn
      · intro _ hne; cases hne
      · intro m _ hm
        cases hm
        exact ⟨rfl, rfl, rfl, rfl⟩

/-- Witness for C16: a form with a file, and a request that fails. -/
theorem handleSubmit_reports_outcome_witness :
    sampleForm.uploading = false ∧
    (handleSubmit (UploadOutcome.failure "Network Error") sampleForm).uploading = false ∧
    (handleSubmit (UploadOutcome.failure "Network Error") sampleForm).uploadStatus =
      "Error uploading building: Network Error" ∧
    (handleSubmit (UploadOutcome.failure "Network Error") sampleForm).formData =
      sampleForm.formData :=
  have h := handleSubmit_reports_outcome (UploadOutcome.failure "Network Error") sampleForm rfl
  have h5 := h.2.2.2.2 "Network Error" (by decide) rfl
  ⟨rfl, h.1, h5.1.trans (by decide), h5.2.2.2⟩

/-- C15 fails on the React code: when the error callback of the geolocation
request fires, `getLocationFromBrowser` only writes to the console, and
without geolocation support it does nothing; form, button and status message
stay as they were, so from the first render the status stays empty. The
vanilla `getUserLocation` shows an alert in both cases. -/
theorem getLocationFromBrowser_failure_not_shown (toFixed : Nat → ℚ → String)
    (message : String) (v : UploadView) (app : VanillaApp) :
    (getLocationFromBrowser toFixed (GeoOutcome.error message) v).visible = v.visible ∧
    getLocationFromBrowser toFixed GeoOutcome.unsupported v = v ∧
    (getLocationFromBrowser toFixed (GeoOutcome.error message)
      UploadView.initial).uploadStatus = "" ∧
    getUserLocation toFixed (GeoOutcome.error message) app =
      .ok { app with alerts := app.alerts ++ ["Could not get location: " ++ message] } ∧
    getUserLocation toFixed GeoOutcome.unsupported app =
      .ok { app with
        alerts := app.alerts ++ ["Geolocation is not supported by this browser."] } :=
  ⟨rfl, rfl, rfl, rfl, rfl⟩

theorem poll_requests (outcomes : List PollOutcome) (attempts : Nat) (r : PollRun)
    (ha : attempts < maxAttempts) :
    (poll outcomes attempts r).requests =
      r.requests + min (outcomes.findIdx isTerminalOutcome + 1) (maxAttempts - attempts) ∧
    (poll outcomes attempts r).scheduledDelay =
      r.scheduledDelay +
        10000 * (min (outcomes.findIdx isTerminalOutcome + 1) (maxAttempts - attempts) - 1) := by
  induction outcomes generalizing attempts r with
  | nil =>
    have h1 : min (0 + 1) (maxAttempts - attempts) = 1 := by omega
    simp [poll, h1]
  | cons o rest ih =>
    cases o with
    | failure =>
      have h1 : min (0 + 1) (maxAttempts - attempts) = 1 := by omega
      simp [poll, setSimulationStatus, List.findIdx_cons, isTerminalOutcome, h1]
    | response data =>
      by_cases hc : data.status = "completed"
      · have h1 : min (0 + 1) (maxAttempts - attempts) = 1 := by omega
        simp [poll, setSimulationStatus, List.findIdx_cons, isTerminalOutcome, hc, h1]
      · by_cases hf : data.status = "failed"
        · have h1 : min (0 + 1) (maxAttempts - attempts) = 1 := by omega
          simp [poll, setSimulationStatus, List.findIdx_cons, isTerminalOutcome, hf, h1]
        · have hnt : isTerminalOutcome (PollOutcome.response data) = false := by
            simp [isTerminalOutcome, hc, hf]
          by_cases hlast : attempts + 1 < maxAttempts
          · have hp : poll (PollOutcome.response data :: rest) attempts r =
                poll rest (attempts + 1)
                  { r with requests := r.requests + 1,
                           scheduledDelay := r.scheduledDelay + 10000 } := by
              simp [poll, hc, hf, hlast]
            obtain ⟨h1, h2⟩ := ih (attempts + 1)
              { r with requests := r.requests + 1, scheduledDelay := r.scheduledDelay + 10000 }
              hlast
            rw [hp, h1, h2]
            simp only [List.findIdx_cons, hnt, cond_false]
            constructor
            · omega
            · have hmin : min (List.findIdx isTerminalOutcome rest + 1 + 1)
                  (maxAttempts - attempts) =
                  min (List.findIdx isTerminalOutcome rest + 1)
                    (maxAttempts - (attempts + 1)) + 1 := by omega
              rw [hmin]
              have hpos : 1 ≤ min (List.findIdx isTerminalOutcome rest + 1)
                  (maxAttempts - (attempts + 1)) := by omega
              omega
          · have h1 : min (List.findIdx isTerminalOutcome rest + 1 + 1)
                (maxAttempts - attempts) = 1 := by omega
            simp [poll, setSimulationStatus, List.findIdx_cons, hnt, hc, hf, hlast, h1]

/-- C20: for every sequence of outcomes, of any length, the poll stops: it
issues one request more than there are outcomes before the first terminal
one, and never more than 30; it schedules one further poll less than it
issues requests, so none after a terminal outcome or after the 30th
request. -/
theorem pollForResults_bounded (outcomes : List PollOutcome) (r : PollRun) :
    (pollForResults outcomes r).requests =
      r.requests + min (outcomes.findIdx isTerminalOutcome + 1) maxAttempts ∧
    (pollForResults outcomes r).requests ≤ r.requests + 30 ∧
    (pollForResults outcomes r).scheduledDelay + 10000 =
      r.scheduledDelay +
        10000 * ((pollForResults outcomes r).requests - r.requests) := by
  obtain ⟨h1, h2⟩ := poll_requests outcomes 0 r (by decide)
  simp only [Nat.sub_zero] at h1 h2
  unfold pollForResults
  refine ⟨h1, ?_, ?_⟩
  · rw [h1]
    have : maxAttempts = 30 := rfl
    omega
  · rw [h1, h2]
    have : maxAttempts = 30 := rfl
    omega

/-! ## Vanilla variant: missing nav links and the weather of uploads -/

/-- C13 fails on the code: on a page that has the sections but no nav link,
`updateActiveNav` is handed `null` and throws a `TypeError`, in
`loadDemoBuilding`, in the timer callbacks of `showUploadSuccess` and
`startSimulation`, and in the handlers of the buttons. -/
theorem updateActiveNav_throws_on_missing_link :
    updateActiveNav pageWithoutNav none =
      .error "TypeError: Cannot read properties of null (reading 'classList')" ∧
    querySelectorNavLink (showSection pageWithoutNav "simulation") "#simulation" = none ∧
    chipLoadDemoBuilding 0 (VanillaApp.load pageWithoutNav) =
      .error "TypeError: Cannot read properties of null (reading 'classList')" ∧
    uploadSuccessTimeout (VanillaApp.load pageWithoutNav) =
      .error "TypeError: Cannot read properties of null (reading 'classList')" ∧
    simulationTimeout (VanillaApp.load pageWithoutNav) =
      .error "TypeError: Cannot read properties of null (reading 'classList')" ∧
    ctaStartClick (VanillaApp.load pageWithoutNav) =
      .error "TypeError: Cannot read properties of null (reading 'classList')" ∧
    toRetrofitClick (VanillaApp.load pageWithoutNav) =
      .error "TypeError: Cannot read properties of null (reading 'classList')" :=
  ⟨rfl, rfl, rfl, rfl, rfl, rfl, rfl⟩

theorem determineLocation_values (lat lon : JSNumber) :
    determineLocation lat lon = "newDelhi" ∨ determineLocation lat lon = "mumbai" := by
  unfold determineLocation
  split
  · exact Or.inl rfl
  · split
    · exact Or.inr rfl
    · exact Or.inl rfl

/-- C14 fails on the code: an upload at (28.6139, 77.2090) is classified as
`newDelhi`, and the fixture of that bucket differs from the one of `mumbai`;
yet for every uploaded building the dashboard selects the `mumbai` fixture,
because `setupSimulationDashboard` only knows the spelling `newdelhi`. For
the two demo buildings the keys are `newDelhi` and `mumbai`. -/
theorem uploaded_building_gets_mumbai_weather (data : BuildingData) (now : Nat)
    (app : VanillaApp) :
    dashboardWeather (uploadThen data now app) = some mumbaiWeather ∧
    determineLocation delhiUpload.lat delhiUpload.lon = "newDelhi" ∧
    weatherData "newDelhi" = some newDelhiWeather ∧
    newDelhiWeather ≠ mumbaiWeather ∧
    weatherKey (removeFirstSpace (toLowerCase "New Delhi")) = "newDelhi" ∧
    weatherKey (removeFirstSpace (toLowerCase "Mumbai")) = "mumbai" := by
  refine ⟨?_, ?_, by simp [weatherData], ?_, by decide, by decide⟩
  · have hk : weatherKey (determineLocation data.lat data.lon) = "mumbai" := by
      rcases determineLocation_values data.lat data.lon with h | h <;> rw [h] <;> decide
    have hne : determineLocation data.lat data.lon ≠ "" := by
      rcases determineLocation_values data.lat data.lon with h | h <;> rw [h] <;> decide
    have hw : weatherData "mumbai" = some mumbaiWeather := by simp [weatherData]
    unfold uploadThen dashboardWeather
    simp only [hk, hne, if_false, hw]
  · norm_num [determineLocation, delhiUpload, jsGt, jsLt]
  · intro h
    have := congrArg WeatherSnapshot.airQuality h
    simp [newDelhiWeather, mumbaiWeather] at this

/-! ## Vanilla variant: what `showSection` leaves visible -/

theorem positions_eq_nil (p : Element → Bool) (doc : Document)
    (hp : ∀ (j : Nat) (e : Element), doc[j]? = some e → p e = false) :
    positions p doc = [] := by
  unfold positions
  rw [List.filter_eq_nil_iff]
  intro j hj
  have hlt : j < doc.length := List.mem_range.mp hj
  have hget : doc[j]? = some doc[j] := List.getElem?_eq_getElem hlt
  simp only [hget]
  rw [hp j _ hget]
  simp

theorem visible_after_show (e : Element) (j s : Nat) :
    (let e1 := if j = s then revealSection (hideSection e) else hideSection e
     (isSection e1 && !decide ("hidden" ∈ e1.classList)) = true ↔
       isSection e = true ∧ j = s) := by
  by_cases hjs : j = s <;> by_cases hsec : isSection e = true <;>
    simp [hjs, hsec, revealSection, hideSection, isSection, mem_classListAdd,
      mem_classListRemove] <;>
    simp_all [isSection, mem_classListAdd, mem_classListRemove]

theorem hidden_after_hide (e : Element) :
    (isSection (hideSection e) && !decide ("hidden" ∈ (hideSection e).classList)) = false := by
  by_cases hsec : isSection e = true <;>
    simp [hsec, hideSection, isSection, mem_classListAdd] <;>
    simp_all [isSection, mem_classListAdd]

theorem visibleSections_showSection (doc : Document) (id : String) :
    visibleSections (showSection doc id) =
      match getElementById doc id with
      | some s => if doc[s]?.map isSection = some true then [s] else []
      | none => [] := by
  cases hid : getElementById doc id with
  | none =>
    have hshow : showSection doc id = doc.map hideSection := by
      simp only [showSection, getElementById_map hideSection hideSection_id, hid]
    rw [hshow]
    apply positions_eq_nil
    intro j e hj
    rw [List.getElem?_map] at hj
    cases h0 : doc[j]? with
    | none => rw [h0] at hj; cases hj
    | some e0 =>
      rw [h0] at hj
      simp only [Option.map_some', Option.some.injEq] at hj
      subst hj
      exact hidden_after_hide e0
  | some s =>
    have hslt : s < doc.length := getElementById_lt doc id s hid
    have hget : doc[s]? = some doc[s] := List.getElem?_eq_getElem hslt
    simp only [hget, Option.map_some', Option.some.injEq]
    by_cases hsec : isSection doc[s] = true
    · simp only [hsec, if_true]
      apply positions_eq_singleton
      · rw [length_showSection]; exact hslt
      · intro j e hj
        rw [getElem?_showSection doc id s j hid] at hj
        cases h0 : doc[j]? with
        | none => rw [h0] at hj; cases hj
        | some e0 =>
          rw [h0] at hj
          simp only [Option.map_some', Option.some.injEq] at hj
          subst hj
          refine Iff.trans (visible_after_show e0 j s) ?_
          constructor
          · exact fun h => h.2
          · intro h
            subst h
            rw [hget] at h0
            cases h0
            exact ⟨hsec, rfl⟩
    · simp only [hsec, if_false]
      apply positions_eq_nil
      intro j e hj
      rw [getElem?_showSection doc id s j hid] at hj
      cases h0 : doc[j]? with
      | none => rw [h0] at hj; cases hj
      | some e0 =>
        rw [h0] at hj
        simp only [Option.map_some', Option.some.injEq] at hj
        subst hj
        cases hv : (isSection (if j = s then revealSection (hideSection e0) else hideSection e0) &&
            !decide ("hidden" ∈
              (if j = s then revealSection (hideSection e0) else hideSection e0).classList)) with
        | false => rfl
        | true =>
          have h := (visible_after_show e0 j s).mp hv
          obtain ⟨h1, h2⟩ := h
          subst h2
          rw [hget] at h0
          cases h0
          exact absurd h1 hsec

/-- C18, as the code has it: after the exported `showSection(id)`, from any
page and for any string, at most one `.section` is without `hidden`: exactly
one, the target, when `id` names a `.section` element, and none when `id`
names no element or an element that is not a `.section`. -/
theorem exported_showSection_at_most_one (doc : Document) (id : String) :
    (visibleSections (showSection doc id)).length ≤ 1 ∧
    visibleSections (showSection doc id) =
      (match getElementById doc id with
      | some s => if doc[s]?.map isSection = some true then [s] else []
      | none => []) := by
  have h := visibleSections_showSection doc id
  refine ⟨?_, h⟩
  rw [h]
  split
  · split <;> simp
  · simp

/-- C18 fails as stated: on the sample page `showSection('nope')` hides every
section and shows none. -/
theorem exported_showSection_unknown_id_hides_all :
    getElementById samplePage "nope" = none ∧
    visibleSections samplePage = [3] ∧
    visibleSections (showSection samplePage "nope") = [] := by
  decide

/-! ## Vanilla variant: edits that keep the views of a page -/

theorem findIdx_of_map_eq {α β : Type} (g : α → β) (q : β → Bool) (xs ys : List α)
    (h : xs.map g = ys.map g) :
    xs.findIdx (fun a => q (g a)) = ys.findIdx (fun a => q (g a)) := by
  induction xs generalizing ys with
  | nil =>
    cases ys with
    | nil => rfl
    | cons y ys => simp at h
  | cons x xs ih =>
    cases ys with
    | nil => simp at h
    | cons y ys =>
      simp only [List.map_cons, List.cons.injEq] at h
      simp only [List.findIdx_cons, h.1, ih ys h.2]

theorem length_of_map_eq {α β : Type} (g : α → β) (xs ys : List α)
    (h : xs.map g = ys.map g) : xs.length = ys.length := by
  have := congrArg List.length h
  simpa using this

theorem getElementById_of_shape (doc doc' : Document) (id : String)
    (h : doc'.map Element.shape = doc.map Element.shape) :
    getElementById doc' id = getElementById doc id := by
  have h1 := findIdx_of_map_eq Element.shape (fun k => decide (k.1 = id)) doc' doc h
  have h2 := length_of_map_eq Element.shape doc' doc h
  unfold getElementById
  simp only [Element.shape] at h1
  simp only [h1, h2]

theorem querySelectorNavLink_of_shape (doc doc' : Document) (href : String)
    (h : doc'.map Element.shape = doc.map Element.shape) :
    querySelectorNavLink doc' href = querySelectorNavLink doc href := by
  have h1 := findIdx_of_map_eq Element.shape
    (fun k => k.2.1 && decide (k.2.2 = href)) doc' doc h
  have h2 := length_of_map_eq Element.shape doc' doc h
  unfold querySelectorNavLink
  simp only [Element.shape] at h1
  simp only [h1, h2]

theorem shape_modifyNth (f : Element → Element) (hf : ∀ e, (f e).shape = e.shape)
    (doc : Document) (i : Nat) :
    (modifyNth f doc i).map Element.shape = doc.map Element.shape := by
  induction doc generalizing i with
  | nil => rfl
  | cons e es ih =>
    cases i with
    | zero => simp [modifyNth, hf]
    | succ i => simp [modifyNth, ih]

theorem shape_map (f : Element → Element) (hf : ∀ e, (f e).shape = e.shape)
    (doc : Document) : (doc.map f).map Element.shape = doc.map Element.shape := by
  simp [List.map_map, Function.comp_def, hf]

theorem shape_unhide (e : Element) : (unhide e).shape = e.shape := rfl

theorem shape_hideSection (e : Element) : (hideSection e).shape = e.shape := by
  unfold hideSection; split <;> rfl

theorem shape_revealSection (e : Element) : (revealSection e).shape = e.shape := rfl

theorem shape_deactivateLink (e : Element) : (deactivateLink e).shape = e.shape := by
  unfold deactivateLink; split <;> rfl

theorem shape_activateLink (e : Element) : (activateLink e).shape = e.shape := rfl

theorem isSection_unhide (e : Element) : isSection (unhide e) = isSection e := by
  simp [isSection, unhide, mem_classListRemove]

theorem shape_showSection (doc : Document) (id : String) :
    (showSection doc id).map Element.shape = doc.map Element.shape := by
  unfold showSection
  simp only
  split
  · rw [shape_modifyNth revealSection shape_revealSection, shape_map hideSection shape_hideSection]
  · rw [shape_map hideSection shape_hideSection]

theorem shape_unhideById (doc : Document) (id : String) :
    (unhideById doc id).map Element.shape = doc.map Element.shape := by
  unfold unhideById
  split
  · exact shape_modifyNth unhide shape_unhide doc _
  · rfl

theorem isSection_modifyNth (f : Element → Element) (doc : Document) (i s : Nat)
    (h : i ≠ s ∨ ∀ e, isSection (f e) = isSection e) :
    (modifyNth f doc i)[s]?.map isSection = doc[s]?.map isSection := by
  rw [getElem?_modifyNth]
  by_cases hsi : s = i
  · rcases h with h | h
    · exact absurd hsi.symm h
    · simp only [hsi, if_true]
      cases doc[i]? with
      | none => rfl
      | some e => simp [h e]
  · simp only [hsi, if_false]

theorem isSection_unhideById (doc : Document) (id : String) (s : Nat) :
    (unhideById doc id)[s]?.map isSection = doc[s]?.map isSection := by
  unfold unhideById
  split
  · exact isSection_modifyNth unhide doc _ s (Or.inr isSection_unhide)
  · rfl

theorem PageHas.of_edit (doc doc' : Document) (target : String) (s l : Nat)
    (hshape : doc'.map Element.shape = doc.map Element.shape)
    (hsec : doc'[s]?.map isSection = doc[s]?.map isSection)
    (h : PageHas doc target s l) : PageHas doc' target s l := by
  obtain ⟨h1, h2, h3⟩ := h
  exact ⟨(getElementById_of_shape doc doc' target hshape).trans h1, hsec.trans h2,
    (querySelectorNavLink_of_shape doc doc' _ hshape).trans h3⟩

theorem positions_congr (p : Element → Bool) (doc doc' : Document)
    (hlen : doc'.length = doc.length)
    (h : ∀ j : Nat, doc'[j]?.map p = doc[j]?.map p) :
    positions p doc' = positions p doc := by
  unfold positions
  rw [hlen]
  apply List.filter_congr
  intro j _
  have hj := h j
  cases h1 : doc'[j]? <;> cases h2 : doc[j]? <;> simp_all

theorem visible_after_nav (e : Element) (j l : Nat) :
    (let e2 := if j = l then activateLink (deactivateLink e) else deactivateLink e
     (isSection e2 && !decide ("hidden" ∈ e2.classList)) =
       (isSection e && !decide ("hidden" ∈ e.classList))) := by
  by_cases hjl : j = l <;> by_cases hn : e.navLink = true <;>
    simp [hjl, hn, activateLink, deactivateLink, isSection, mem_classListAdd,
      mem_classListRemove]

theorem active_after_nav (e : Element) (j l : Nat) :
    (let e2 := if j = l then activateLink (deactivateLink e) else deactivateLink e
     (e2.navLink && decide ("active" ∈ e2.classList)) = true ↔
       e.navLink = true ∧ j = l) := by
  by_cases hjl : j = l <;> by_cases hn : e.navLink = true <;>
    simp [hjl, hn, activateLink, deactivateLink, mem_classListAdd, mem_classListRemove]

theorem getElem?_activated (doc : Document) (l j : Nat) :
    (modifyNth activateLink (doc.map deactivateLink) l)[j]? =
      doc[j]?.map (fun e =>
        if j = l then activateLink (deactivateLink e) else deactivateLink e) := by
  simp only [getElem?_modifyNth, List.getElem?_map]
  by_cases h : j = l <;> cases doc[j]? <;> simp [h]

theorem visibleSections_activated (doc : Document) (l : Nat) :
    visibleSections (modifyNth activateLink (doc.map deactivateLink) l) =
      visibleSections doc := by
  apply positions_congr
  · simp [length_modifyNth]
  · intro j
    rw [getElem?_activated]
    cases doc[j]? with
    | none => rfl
    | some e =>
      simp only [Option.map_some', Option.some.injEq]
      exact visible_after_nav e j l

theorem activeNavLinks_activated (doc : Document) (l : Nat) (el : Element)
    (hl : doc[l]? = some el) (hnav : el.navLink = true) :
    activeNavLinks (modifyNth activateLink (doc.map deactivateLink) l) = [l] := by
  have hllt : l < doc.length := by
    rcases Nat.lt_or_ge l doc.length with h | h
    · exact h
    · rw [List.getElem?_eq_none h] at hl; cases hl
  apply positions_eq_singleton
  · simp [length_modifyNth, hllt]
  · intro j e hj
    rw [getElem?_activated] at hj
    cases h0 : doc[j]? with
    | none => rw [h0] at hj; cases hj
    | some e0 =>
      rw [h0] at hj
      simp only [Option.map_some', Option.some.injEq] at hj
      subst hj
      refine Iff.trans (active_after_nav e0 j l) ?_
      constructor
      · exact fun h => h.2
      · intro h
        subst h
        rw [hl] at h0
        cases h0
        exact ⟨hnav, rfl⟩

theorem querySelectorNavLink_some (doc : Document) (href : String) (l : Nat)
    (h : querySelectorNavLink doc href = some l) :
    ∃ e, doc[l]? = some e ∧ e.navLink = true := by
  unfold querySelectorNavLink at h
  simp only at h
  split at h
  · rename_i hlt
    cases h
    refine ⟨doc[doc.findIdx (fun e => e.navLink && decide (e.href = href))],
      List.getElem?_eq_getElem hlt, ?_⟩
    have hp := List.findIdx_getElem (w := hlt)
    simp only [Bool.and_eq_true] at hp
    exact hp.1
  · cases h

theorem showAndActivate_of_pageHas (target : String) (app : VanillaApp) (s l : Nat)
    (h : PageHas app.doc target s l) :
    ∃ doc', showAndActivate target app = .ok { app with doc := doc' } ∧
      visibleSections doc' = [s] ∧ activeNavLinks doc' = [l] ∧
      doc'.map Element.shape = app.doc.map Element.shape := by
  obtain ⟨h1, h2, h3⟩ := h
  have hq : querySelectorNavLink (showSection app.doc target) ("#" ++ target) = some l :=
    (querySelectorNavLink_of_shape app.doc _ _ (shape_showSection app.doc target)).trans h3
  obtain ⟨el, hel, hnav⟩ := querySelectorNavLink_some _ _ _ hq
  refine ⟨modifyNth activateLink ((showSection app.doc target).map deactivateLink) l,
    ?_, ?_, ?_, ?_⟩
  · simp only [showAndActivate, hq, updateActiveNav]
  · rw [visibleSections_activated, visibleSections_showSection, h1]
    simp only [h2, if_true]
  · exact activeNavLinks_activated _ l el hel hnav
  · rw [shape_modifyNth activateLink shape_activateLink,
      shape_map deactivateLink shape_deactivateLink, shape_showSection]

theorem setupSimulationDashboard_keeps (app : VanillaApp) :
    (setupSimulationDashboard app).doc = app.doc ∧
    (setupSimulationDashboard app).currentBuilding = app.currentBuilding ∧
    (setupSimulationDashboard app).currentLocation = app.currentLocation ∧
    (setupSimulationDashboard app).chartRenders = app.chartRenders := by
  unfold setupSimulationDashboard
  split
  · split
    · exact ⟨rfl, rfl, rfl, rfl⟩
    · exact ⟨rfl, rfl, rfl, rfl⟩
  · exact ⟨rfl, rfl, rfl, rfl⟩

theorem loadDemoBuilding_of_pageHas (building : VanillaBuilding) (city : String)
    (app : VanillaApp) (s l : Nat) (hcity : building.location.city = some city)
    (h : PageHas app.doc "simulation" s l) :
    ∃ app', loadDemoBuilding building app = .ok app' ∧
      app'.currentBuilding = some building ∧
      app'.currentLocation = some (removeFirstSpace (toLowerCase city)) ∧
      visibleSections app'.doc = [s] ∧ activeNavLinks app'.doc = [l] := by
  obtain ⟨doc', hok, hvis, hact, _⟩ := showAndActivate_of_pageHas "simulation"
    { app with currentBuilding := some building,
               currentLocation := some (removeFirstSpace (toLowerCase city)) } s l h
  have hk := setupSimulationDashboard_keeps
    { app with currentBuilding := some building,
               currentLocation := some (removeFirstSpace (toLowerCase city)),
               doc := doc' }
  refine ⟨_, ?_, hk.2.1, hk.2.2.1, ?_, ?_⟩
  · simp only [loadDemoBuilding, hcity, hok]
  · rw [hk.1]; exact hvis
  · rw [hk.1]; exact hact

/-- C19: on a page that has the view `simulation` (its section `s` and its
nav link `l`), after the exported `loadDemoBuilding(index)` with index 0 or 1
the current building is `demoBuildings[index]`, `currentLocation` is its city
in lower case without the first space (`newdelhi`, `mumbai`), and `s` is the
only visible section; before any load `getCurrentBuilding()` is `null`. -/
theorem chipLoadDemoBuilding_sets_current (app : VanillaApp) (index s l : Nat)
    (hidx : index = 0 ∨ index = 1) (h : PageHas app.doc "simulation" s l) :
    (∃ app', chipLoadDemoBuilding index app = .ok app' ∧
      getCurrentBuilding app' = demoBuildings[index]? ∧
      app'.currentLocation =
        (demoBuildings[index]?).bind (fun b =>
          b.location.city.map (fun city => removeFirstSpace (toLowerCase city))) ∧
      app'.currentLocation = some (if index = 0 then "newdelhi" else "mumbai") ∧
      visibleSections app'.doc = [s] ∧ activeNavLinks app'.doc = [l]) ∧
    (∀ doc, getCurrentBuilding (VanillaApp.load doc) = none) := by
  refine ⟨?_, fun _ => rfl⟩
  rcases hidx with h0 | h1
  · subst h0
    obtain ⟨app', hok, hb, hloc, hvis, hact⟩ :=
      loadDemoBuilding_of_pageHas
        { id := "demo-delhi-hospital", name := "Regional Hospital New Delhi",
          location := { lat := some (286139 / 10000), lon := some (772090 / 10000),
                        city := some "New Delhi" },
          buildingType := "hospital" } "New Delhi" app s l rfl h
    refine ⟨app', hok, hb, hloc, ?_, hvis, hact⟩
    rw [hloc]
    decide
  · subst h1
    obtain ⟨app', hok, hb, hloc, hvis, hact⟩ :=
      loadDemoBuilding_of_pageHas
        { id := "demo-mumbai-clinic", name := "Community Health Center Mumbai",
          location := { lat := some (190760 / 10000), lon := some (728777 / 10000),
                        city := some "Mumbai" },
          buildingType := "clinic" } "Mumbai" app s l rfl h
    refine ⟨app', hok, hb, hloc, ?_, hvis, hact⟩
    rw [hloc]
    decide

/-- Witness for C19 on the full page, with the first demo building. -/
theorem chipLoadDemoBuilding_sets_current_witness :
    PageHas (VanillaApp.load fullPage).doc "simulation" 6 2 ∧
    ∃ app', chipLoadDemoBuilding 0 (VanillaApp.load fullPage) = .ok app' ∧
      getCurrentBuilding app' = demoBuildings[0]? ∧
      app'.currentLocation = some "newdelhi" ∧
      visibleSections app'.doc = [6] :=
  have hp : PageHas (VanillaApp.load fullPage).doc "simulation" 6 2 :=
    ⟨by decide, by decide, by decide⟩
  have h := (chipLoadDemoBuilding_sets_current (VanillaApp.load fullPage) 0 6 2
    (Or.inl rfl) hp).1
  ⟨hp, h.elim fun app' ha => ⟨app', ha.1, ha.2.1, ha.2.2.2.1, ha.2.2.2.2.1⟩⟩

/-! ## Vanilla variant: completion callbacks -/

theorem progressRun_resolves (factor : ℚ) (progressBar : Bool) (randoms : List ℚ)
    (hreach : ∃ k, k ≤ randoms.length ∧ 100 ≤ runningSum factor randoms k) :
    (progressRun factor progressBar randoms).resolvedAt ≠ [] := by
  cases progressBar with
  | true =>
    obtain ⟨n, _, _, _, _, h, _⟩ := progressRun_complete factor randoms hreach
    rw [h]
    simp
  | false => simp [progressRun]

theorem uploadThen_doc (data : BuildingData) (now : Nat) (app : VanillaApp) (s : Nat) :
    (uploadThen data now app).doc.map Element.shape = app.doc.map Element.shape ∧
    (uploadThen data now app).doc[s]?.map isSection = app.doc[s]?.map isSection ∧
    (uploadThen data now app).currentBuilding = some
      { id := "building-" ++ toString now, name := data.name,
        location := { lat := data.lat, lon := data.lon, city := none },
        buildingType := data.type } ∧
    (uploadThen data now app).currentLocation =
      some (determineLocation data.lat data.lon) := by
  unfold uploadThen
  cases getElementById app.doc "uploadSuccess" with
  | some i =>
    exact ⟨shape_modifyNth unhide shape_unhide _ _,
      isSection_modifyNth unhide _ _ s (Or.inr isSection_unhide), rfl, rfl⟩
  | none => exact ⟨rfl, rfl, rfl, rfl⟩

theorem handleUpload_of_pageHas (data : BuildingData) (now : Nat) (randoms : List ℚ)
    (app : VanillaApp) (s l : Nat) (h : PageHas app.doc "simulation" s l)
    (hreach : ∃ k, k ≤ randoms.length ∧ 100 ≤ runningSum 15 randoms k) :
    ∃ app', handleUpload data now randoms app = .ok app' ∧
      visibleSections app'.doc = [s] ∧ activeNavLinks app'.doc = [l] ∧
      app'.currentBuilding = some
        { id := "building-" ++ toString now, name := data.name,
          location := { lat := data.lat, lon := data.lon, city := none },
          buildingType := data.type } := by
  have h1 : PageHas (showUploadProgress app).doc "simulation" s l :=
    PageHas.of_edit app.doc _ "simulation" s l (shape_unhideById app.doc "uploadProgress")
      (isSection_unhideById app.doc "uploadProgress" s) h
  obtain ⟨hshape, hsec, hb, _⟩ := uploadThen_doc data now (showUploadProgress app) s
  have h2 : PageHas (uploadThen data now (showUploadProgress app)).doc "simulation" s l :=
    PageHas.of_edit _ _ "simulation" s l hshape hsec h1
  obtain ⟨doc', hok, hvis, hact, _⟩ := showAndActivate_of_pageHas "simulation"
    (uploadThen data now (showUploadProgress app)) s l h2
  have hk := setupSimulationDashboard_keeps
    { uploadThen data now (showUploadProgress app) with doc := doc' }
  have hres := progressRun_resolves 15
    (getElementById (showUploadProgress app).doc "uploadBar").isSome randoms hreach
  refine ⟨setupSimulationDashboard
    { uploadThen data now (showUploadProgress app) with doc := doc' }, ?_, ?_, ?_, ?_⟩
  · simp only [handleUpload, simulateUploadProgress, hres, if_false, uploadSuccessTimeout, hok]
  · rw [hk.1]; exact hvis
  · rw [hk.1]; exact hact
  · rw [hk.2.1]; exact hb

theorem getElementById_id (doc : Document) (id : String) (s : Nat)
    (h : getElementById doc id = some s) : ∃ e, doc[s]? = some e ∧ e.id = id := by
  unfold getElementById at h
  split at h
  · cases h
  · simp only at h
    split at h
    · rename_i hlt
      cases h
      refine ⟨doc[doc.findIdx (fun e => decide (e.id = id))], List.getElem?_eq_getElem hlt, ?_⟩
      have hp := List.findIdx_getElem (w := hlt)
      simpa using hp
    · cases h

theorem setStatus_doc (i : Nat) (text : String) (names : List String) (app : VanillaApp)
    (s : Nat) (his : i ≠ s) :
    (setStatus i text names app).doc.map Element.shape = app.doc.map Element.shape ∧
    (setStatus i text names app).doc[s]?.map isSection = app.doc[s]?.map isSection ∧
    (setStatus i text names app).chartRenders = app.chartRenders :=
  ⟨shape_modifyNth (fun e => { e with classList := names }) (fun _ => rfl) app.doc i,
    isSection_modifyNth (fun e => { e with classList := names }) app.doc i s (Or.inl his),
    rfl⟩

theorem startSimulationSetup_doc (app : VanillaApp) (s : Nat)
    (his : ∀ i, getElementById app.doc "simStatus" = some i → i ≠ s) :
    (startSimulationSetup app).doc.map Element.shape = app.doc.map Element.shape ∧
    (startSimulationSetup app).doc[s]?.map isSection = app.doc[s]?.map isSection ∧
    (startSimulationSetup app).chartRenders = app.chartRenders := by
  unfold startSimulationSetup
  cases hst : getElementById app.doc "simStatus" with
  | none =>
    exact ⟨shape_unhideById _ _, isSection_unhideById _ _ s, rfl⟩
  | some i =>
    have hne := his i hst
    obtain ⟨h1, h2, h3⟩ := setStatus_doc i
      ("Starting " ++ simTypeValue app ++ " simulation...") ["status", "status--info", "mt-8"]
      { app with doc := modifyNth unhide (unhideById app.doc "simProgress") i } s hne
    refine ⟨?_, ?_, h3⟩
    · exact h1.trans ((shape_modifyNth unhide shape_unhide _ _).trans (shape_unhideById _ _))
    · exact h2.trans ((isSection_modifyNth unhide _ _ s (Or.inr isSection_unhide)).trans
        (isSection_unhideById _ _ s))

theorem simulationThen_doc (statusContainer : Option Nat) (app : VanillaApp) (s : Nat)
    (his : ∀ i, statusContainer = some i → i ≠ s) :
    (simulationThen statusContainer app).doc.map Element.shape = app.doc.map Element.shape ∧
    (simulationThen statusContainer app).doc[s]?.map isSection =
      app.doc[s]?.map isSection ∧
    (simulationThen statusContainer app).chartRenders = app.chartRenders := by
  unfold simulationThen
  cases statusContainer with
  | none => exact ⟨rfl, rfl, rfl⟩
  | some i => exact setStatus_doc i _ _ app s (his i rfl)

theorem startSimulation_of_pageHas (randoms : List ℚ) (app : VanillaApp) (s l : Nat)
    (h : PageHas app.doc "results" s l)
    (hreach : ∃ k, k ≤ randoms.length ∧ 100 ≤ runningSum 8 randoms k) :
    ∃ app', startSimulation randoms app = .ok app' ∧
      visibleSections app'.doc = [s] ∧ activeNavLinks app'.doc = [l] ∧
      app'.chartRenders = app.chartRenders + 1 := by
  have his : ∀ i, getElementById app.doc "simStatus" = some i → i ≠ s := by
    intro i hi hEq
    subst hEq
    obtain ⟨e1, he1, hid1⟩ := getElementById_id _ _ _ hi
    obtain ⟨e2, he2, hid2⟩ := getElementById_id _ _ _ h.1
    rw [he1] at he2
    cases he2
    rw [hid1] at hid2
    exact absurd hid2 (by decide)
  obtain ⟨a1, a2, a3⟩ := startSimulationSetup_doc app s his
  have h1 : PageHas (startSimulationSetup app).doc "results" s l :=
    PageHas.of_edit _ _ "results" s l a1 a2 h
  obtain ⟨b1, b2, b3⟩ := simulationThen_doc (getElementById app.doc "simStatus")
    (startSimulationSetup app) s his
  have h2 : PageHas (simulationThen (getElementById app.doc "simStatus")
      (startSimulationSetup app)).doc "results" s l :=
    PageHas.of_edit _ _ "results" s l b1 b2 h1
  obtain ⟨doc', hok, hvis, hact, _⟩ := showAndActivate_of_pageHas "results" _ s l h2
  have hres := progressRun_resolves 8
    (getElementById (startSimulationSetup app).doc "simBar").isSome randoms hreach
  refine ⟨renderCharts { simulationThen (getElementById app.doc "simStatus")
      (startSimulationSetup app) with doc := doc' }, ?_, hvis, hact, ?_⟩
  · simp only [startSimulation, simulateProgress, hres, if_false, simulationTimeout, hok]
  · simp only [renderCharts, b3, a3]

/-- C17: on a page that has the views `simulation` and `results`, when the
upload progress run completes, `handleUpload` ends with `simulation` as the
only visible section, its nav link active, and `currentBuilding` the uploaded
building with the id `building-` followed by the time stamp; when the
simulation progress run completes, `startSimulation` ends with `results` as
the only visible section, its nav link active, and one more call of
`renderCharts`. -/
theorem completion_callbacks_switch_view (app : VanillaApp) (data : BuildingData)
    (now : Nat) (uploadDraws simDraws : List ℚ) (s l s2 l2 : Nat)
    (hsim : PageHas app.doc "simulation" s l) (hres : PageHas app.doc "results" s2 l2)
    (hup : ∃ k, k ≤ uploadDraws.length ∧ 100 ≤ runningSum 15 uploadDraws k)
    (hrun : ∃ k, k ≤ simDraws.length ∧ 100 ≤ runningSum 8 simDraws k) :
    (∃ app', handleUpload data now uploadDraws app = .ok app' ∧
      visibleSections app'.doc = [s] ∧ activeNavLinks app'.doc = [l] ∧
      app'.currentBuilding = some
        { id := "building-" ++ toString now, name := data.name,
          location := { lat := data.lat, lon := data.lon, city := none },
          buildingType := data.type }) ∧
    (∃ app', startSimulation simDraws app = .ok app' ∧
      visibleSections app'.doc = [s2] ∧ activeNavLinks app'.doc = [l2] ∧
      app'.chartRenders = app.chartRenders + 1) :=
  ⟨handleUpload_of_pageHas data now uploadDraws app s l hsim hup,
    startSimulation_of_pageHas simDraws app s2 l2 hres hrun⟩

/-- Witness for C17 on the full page with fourteen draws of `0.96875`. -/
theorem completion_callbacks_switch_view_witness :
    PageHas (VanillaApp.load fullPage).doc "simulation" 6 2 ∧
    PageHas (VanillaApp.load fullPage).doc "results" 7 3 ∧
    (∃ app', handleUpload delhiUpload 1700 sampleDraws (VanillaApp.load fullPage) = .ok app' ∧
      visibleSections app'.doc = [6]) ∧
    (∃ app', startSimulation sampleDraws (VanillaApp.load fullPage) = .ok app' ∧
      visibleSections app'.doc = [7] ∧ app'.chartRenders = 1) :=
  have hsim : PageHas (VanillaApp.load fullPage).doc "simulation" 6 2 :=
    ⟨by decide, by decide, by decide⟩
  have hres : PageHas (VanillaApp.load fullPage).doc "results" 7 3 :=
    ⟨by decide, by decide, by decide⟩
  have h15 : ∃ k, k ≤ sampleDraws.length ∧ 100 ≤ runningSum 15 sampleDraws k :=
    sampleDraws_reach_upload
  have h8 : ∃ k, k ≤ sampleDraws.length ∧ 100 ≤ runningSum 8 sampleDraws k :=
    sampleDraws_reach_simulation
  have h := completion_callbacks_switch_view (VanillaApp.load fullPage) delhiUpload 1700
    sampleDraws sampleDraws 6 2 7 3 hsim hres h15 h8
  ⟨hsim, hres, h.1.elim fun app' ha => ⟨app', ha.1, ha.2.1⟩,
    h.2.elim fun app' ha => ⟨app', ha.1, ha.2.1, ha.2.2.2⟩⟩

/-! ## React variant: the poll budget -/

/-- C21 fails on the code: with forty `running` responses the poll issues 30
requests and ends in `timeout`, and the delays it has handed to `setTimeout`
add up to 29 x 10 s = 290 s, not to the 300 s of its comment, because the
first request is issued at once and no delay follows the 30th. -/
theorem poll_budget_is_290_seconds :
    (pollForResults neverDone PollRun.start).requests = 30 ∧
    (pollForResults neverDone PollRun.start).simulationStatus = "timeout" ∧
    (pollForResults neverDone PollRun.start).scheduledDelay = 290000 ∧
    (pollForResults neverDone PollRun.start).scheduledDelay ≠ 30 * 10000 := by
  decide

/-! ## Vanilla variant: the scene of `init3DVisualizer` and the location buckets -/

/-- C23: when `init3DVisualizer` runs its body to the end (container present,
`THREE` available, no exception from the renderer), then whatever the 3D
state was before, the scene is the freshly built one: 16 objects, exactly one
of them named `mainBuilding`, with colour `0x87CEEB`, none named `sunPath`,
two lights and fourteen meshes. -/
theorem init3DVisualizer_builds_fresh_scene (env : VisualizerEnv) (v : Visualizer)
    (hc : env.container = true) (ht : env.three = true) (hw : env.webgl = true) :
    (init3DVisualizer env v).scene = some freshScene ∧
    freshScene.length = 16 ∧
    (freshScene.filter (fun o => o.name = "mainBuilding")).length = 1 ∧
    mainBuildingColor (init3DVisualizer env v).scene = some 0x87CEEB ∧
    hasSunPath (init3DVisualizer env v).scene = false ∧
    (freshScene.filter (fun o => o.material.isNone)).length = 2 ∧
    freshScene.map (fun o => o.material) =
      [none, none, some 0x90EE90, some 0x87CEEB, some 0x8B4513,
       some 0x4169E1, some 0x4169E1, some 0x4169E1, some 0x4169E1, some 0x4169E1,
       some 0x4169E1, some 0x8B4513,
       some 0x228B22, some 0x228B22, some 0x228B22, some 0x228B22] := by
  have hs : (init3DVisualizer env v).scene = some freshScene := by
    simp [init3DVisualizer, hc, ht, hw, animate, freshScene]
  rw [hs]
  exact ⟨rfl, by decide, by decide, by decide, by decide, by decide, by decide⟩

/-- Witness for C23: a second call, after the sun was added to the scene. -/
theorem init3DVisualizer_builds_fresh_scene_witness :
    fullEnv.container = true ∧ fullEnv.three = true ∧ fullEnv.webgl = true ∧
    (init3DVisualizer fullEnv
      { Visualizer.run [VisualizerEvent.init fullEnv] with
        scene := some sunnyScene }).scene = some freshScene :=
  ⟨rfl, rfl, rfl,
    (init3DVisualizer_builds_fresh_scene fullEnv
      { Visualizer.run [VisualizerEvent.init fullEnv] with scene := some sunnyScene }
      rfl rfl rfl).1⟩

theorem determineLocation_some (x y : ℚ) :
    determineLocation (some x) (some y) =
      if 28 < x ∧ x < 29 ∧ 77 < y ∧ y < 78 then "newDelhi"
      else if 18 < x ∧ x < 20 ∧ 72 < y ∧ y < 73 then "mumbai"
      else "newDelhi" := by
  simp only [determineLocation, jsGt, jsLt, Bool.and_eq_true, decide_eq_true_eq, gt_iff_lt,
    and_assoc]

/-- C24: `determineLocation` answers `mumbai` exactly when both coordinates
are numbers with 18 < lat < 20 and 72 < lon < 73, and `newDelhi` in every
other case, `NaN` included; the coordinates of the two demo buildings give
`newDelhi` and `mumbai`; and the answer is always a key of
`demoData.weatherData`. -/
theorem determineLocation_buckets (lat lon : JSNumber) :
    (determineLocation lat lon = "mumbai" ↔
      ∃ x y, lat = some x ∧ lon = some y ∧ 18 < x ∧ x < 20 ∧ 72 < y ∧ y < 73) ∧
    (determineLocation lat lon = "newDelhi" ↔
      ¬ ∃ x y, lat = some x ∧ lon = some y ∧ 18 < x ∧ x < 20 ∧ 72 < y ∧ y < 73) ∧
    determineLocation none lon = "newDelhi" ∧
    determineLocation lat none = "newDelhi" ∧
    determineLocation (some (286139 / 10000)) (some (772090 / 10000)) = "newDelhi" ∧
    determineLocation (some (190760 / 10000)) (some (728777 / 10000)) = "mumbai" ∧
    (weatherData (determineLocation lat lon)).isSome = true := by
  have hnan1 : ∀ l : JSNumber, determineLocation none l = "newDelhi" := by
    intro l; simp [determineLocation, jsGt, jsLt]
  have hnan2 : ∀ l : JSNumber, determineLocation l none = "newDelhi" := by
    intro l; simp [determineLocation, jsGt, jsLt]
  have hkey : (weatherData (determineLocation lat lon)).isSome = true := by
    rcases determineLocation_values lat lon with h | h <;> rw [h] <;> simp [weatherData]
  refine ⟨?_, ?_, hnan1 lon, hnan2 lat, ?_, ?_, hkey⟩
  · cases lat with
    | none => rw [hnan1]; simp
    | some x =>
      cases lon with
      | none => rw [hnan2]; simp
      | some y =>
        rw [determineLocation_some]
        constructor
        · intro h
          by_cases h1 : 28 < x ∧ x < 29 ∧ 77 < y ∧ y < 78
          · rw [if_pos h1] at h
            exact absurd h (by decide)
          · rw [if_neg h1] at h
            by_cases h2 : 18 < x ∧ x < 20 ∧ 72 < y ∧ y < 73
            · exact ⟨x, y, rfl, rfl, h2⟩
            · rw [if_neg h2] at h
              exact absurd h (by decide)
        · rintro ⟨x', y', hx, hy, h⟩
          cases hx
          cases hy
          have h1 : ¬ (28 < x ∧ x < 29 ∧ 77 < y ∧ y < 78) := by
            intro hd
            linarith [hd.1, h.2.1]
          rw [if_neg h1, if_pos h]
  · cases lat with
    | none => rw [hnan1]; simp
    | some x =>
      cases lon with
      | none => rw [hnan2]; simp
      | some y =>
        rw [determineLocation_some]
        constructor
        · intro h
          rintro ⟨x', y', hx, hy, hm⟩
          cases hx
          cases hy
          have h1 : ¬ (28 < x ∧ x < 29 ∧ 77 < y ∧ y < 78) := by
            intro hd
            linarith [hd.1, hm.2.1]
          rw [if_neg h1, if_pos hm] at h
          exact absurd h (by decide)
        · intro h
          have hm : ¬ (18 < x ∧ x < 20 ∧ 72 < y ∧ y < 73) := by
            intro hm
            exact h ⟨x, y, rfl, rfl, hm⟩
          rw [if_neg hm]
          simp
  · rw [determineLocation_some]
    norm_num
  · rw [determineLocation_some]
    norm_num

/-! ## React variant: results never come without a building -/

theorem ne_nil_of_eraseIdx_ne_nil {α : Type} (l : List α) (i : Nat)
    (h : l.eraseIdx i ≠ []) : l ≠ [] := by
  intro hl
  subst hl
  simp at h

/-- What every event keeps true: a pending run or a stored result means that a
building is selected. -/
theorem step_keeps_building (s : AppState) (ev : AppEvent)
    (h : (s.runs ≠ [] → s.selectedBuilding.isSome = true) ∧
      (s.simulationResults.isSome = true → s.selectedBuilding.isSome = true)) :
    ((s.step ev).runs ≠ [] → (s.step ev).selectedBuilding.isSome = true) ∧
    ((s.step ev).simulationResults.isSome = true →
      (s.step ev).selectedBuilding.isSome = true) := by
  obtain ⟨h1, h2⟩ := h
  cases ev with
  | buildingsLoaded bs => exact ⟨h1, h2⟩
  | navClick id =>
    simp only [AppState.step]
    split
    · exact ⟨h1, h2⟩
    · exact ⟨h1, h2⟩
  | selectBuilding b =>
    simp only [AppState.step]
    split
    · exact ⟨fun _ => rfl, fun _ => rfl⟩
    · exact ⟨h1, h2⟩
  | runSimulation =>
    simp only [AppState.step]
    split
    · rename_i b hb
      split
      · exact ⟨fun _ => by rw [hb]; rfl, h2⟩
      · exact ⟨h1, h2⟩
    · exact ⟨h1, h2⟩
  | simulationComplete i data =>
    simp only [AppState.step]
    split
    · rename_i hc
      have hne : s.runs ≠ [] := by
        intro hnil
        rw [hnil] at hc
        simp at hc
      exact ⟨fun _ => h1 hne, fun _ => h1 hne⟩
    · exact ⟨h1, h2⟩
  | pollEnded i =>
    simp only [AppState.step]
    exact ⟨fun hne => h1 (ne_nil_of_eraseIdx_ne_nil _ _ hne), h2⟩

theorem run_keeps_building (events : List AppEvent) :
    ((AppState.run events).runs ≠ [] → (AppState.run events).selectedBuilding.isSome = true) ∧
    ((AppState.run events).simulationResults.isSome = true →
      (AppState.run events).selectedBuilding.isSome = true) := by
  unfold AppState.run
  suffices h : ∀ s : AppState,
      ((s.runs ≠ [] → s.selectedBuilding.isSome = true) ∧
        (s.simulationResults.isSome = true → s.selectedBuilding.isSome = true)) →
      (((events.foldl AppState.step s).runs ≠ [] →
          (events.foldl AppState.step s).selectedBuilding.isSome = true) ∧
        ((events.foldl AppState.step s).simulationResults.isSome = true →
          (events.foldl AppState.step s).selectedBuilding.isSome = true)) from
    h _ ⟨fun hne => absurd rfl hne, fun hs => by cases hs⟩
  induction events with
  | nil => intro s hs; exact hs
  | cons ev evs ih =>
    intro s hs
    exact ih _ (step_keeps_building s ev hs)

/-- C25: in every state of `CHIPApp` reachable from the initial state, results
that are not null come with a selected building that is not null; so whenever
`ResultsView` is rendered, the building it reads the name of is there. -/
theorem results_imply_building (events : List AppEvent) :
    ((AppState.run events).simulationResults.isSome = true →
      (AppState.run events).selectedBuilding.isSome = true) ∧
    (ViewComponent.ResultsView ∈ rendered (AppState.run events) →
      (AppState.run events).selectedBuilding.isSome = true) := by
  have h := (run_keeps_building events).2
  refine ⟨h, ?_⟩
  intro hr
  apply h
  generalize AppState.run events = s at hr
  obtain ⟨view, bs, sel, res, runs⟩ := s
  simp only [rendered, List.mem_append] at hr
  rcases hr with ((((hr | hr) | hr) | hr) | hr) | hr
  all_goals
    split at hr
    · first
      | (rename_i hc; simp only [List.mem_singleton] at hr; exact hc.2)
      | (simp at hr)
    · simp at hr

/-- Witness for C25: a session that ends on the results view. -/
theorem results_imply_building_witness :
    (AppState.run sampleSession).simulationResults.isSome = true ∧
    (AppState.run sampleSession).selectedBuilding.isSome = true :=
  ⟨by decide, (results_imply_building sampleSession).1 (by decide)⟩

/-! ## Vanilla variant: the earliest completing tick -/

theorem fmul_le_fmul_maxDraw (factor r : ℚ) (hf : 0 ≤ factor)
    (hr : IsDouble r ∧ 0 ≤ r ∧ r < 1) : fmul r factor ≤ fmul maxDraw factor :=
  roundDouble_mono (mul_nonneg hr.2.1 hf)
    (mul_le_mul_of_nonneg_right (le_maxDraw r hr.1 hr.2.2) hf)

theorem progressTick_paced (factor random : ℚ) (s : ProgressRun) (hf : 0 ≤ factor)
    (hr : IsDouble random ∧ 0 ≤ random ∧ random < 1) (hs : s.Paced factor) :
    (progressTick factor random s).Paced factor := by
  obtain ⟨h0, h1, h2⟩ := hs
  have hinc : 0 ≤ fmul random factor := fmul_nonneg hr.2.1 hf
  have hle : fadd s.progress (fmul random factor) ≤ paceBound factor (s.ticks + 1) :=
    fadd_le_fadd h0 hinc h1 (fmul_le_fmul_maxDraw factor random hf hr)
  have hnn : 0 ≤ fadd s.progress (fmul random factor) :=
    roundDouble_nonneg (add_nonneg h0 hinc)
  unfold progressTick
  by_cases hact : s.intervalActive = true
  · simp only [hact, if_true]
    by_cases hfull : fadd s.progress (fmul random factor) ≥ 100
    · simp only [hfull, if_true]
      refine ⟨by norm_num, le_trans hfull hle, ?_⟩
      intro n hn
      simp only [List.mem_append, List.mem_singleton] at hn
      rcases hn with hn | hn
      · exact h2 n hn
      · rw [hn]
        exact le_trans hfull hle
    · simp only [hfull, if_false]
      exact ⟨hnn, hle, h2⟩
  · simp only [hact]
    exact ⟨h0, h1, h2⟩

theorem progressRun_paced (factor : ℚ) (randoms : List ℚ) (hf : 0 ≤ factor)
    (hr : ∀ r ∈ randoms, IsDouble r ∧ 0 ≤ r ∧ r < 1) :
    (progressRun factor true randoms).Paced factor := by
  unfold progressRun
  simp only [if_true]
  suffices h : ∀ s : ProgressRun, s.Paced factor →
      (randoms.foldl (fun s r => progressTick factor r s) s).Paced factor from
    h _ ⟨le_refl _, le_refl _, by simp⟩
  induction randoms with
  | nil => intro s hs; exact hs
  | cons r rs ih =>
    intro s hs
    simp only [List.foldl_cons]
    apply ih (fun x hx => hr x (List.mem_cons_of_mem _ hx))
    exact progressTick_paced factor r s hf (hr r (List.mem_cons_self _ _)) hs

theorem fmul_maxDraw_upload : fmul maxDraw 15 = 15 - 1 / 2 ^ 49 := by
  unfold fmul maxDraw
  exact roundDouble_eq_of_near _ _ 3 49 8444249301319679 rfl (by norm_num) (by norm_num) (by norm_num)
    (by rw [abs_lt]; constructor <;> norm_num)

theorem paceBound_upload_1 : paceBound 15 1 = 15 - 1 / 2 ^ 49 := by
  show fadd 0 (fmul maxDraw 15) = _
  rw [fmul_maxDraw_upload]
  unfold fadd
  exact roundDouble_eq_of_near _ _ 3 49 8444249301319679 rfl (by norm_num) (by norm_num) (by norm_num)
    (by rw [abs_lt]; constructor <;> norm_num)

theorem paceBound_upload_2 : paceBound 15 2 = 30 - 1 / 2 ^ 48 := by
  show fadd (paceBound 15 1) (fmul maxDraw 15) = _
  rw [paceBound_upload_1, fmul_maxDraw_upload]
  unfold fadd
  exact roundDouble_eq_of_near _ _ 4 48 8444249301319679 rfl (by norm_num) (by norm_num) (by norm_num)
    (by rw [abs_lt]; constructor <;> norm_num)

theorem paceBound_upload_3 : paceBound 15 3 = 45 - 1 / 2 ^ 47 := by
  show fadd (paceBound 15 2) (fmul maxDraw 15) = _
  rw [paceBound_upload_2, fmul_maxDraw_upload]
  unfold fadd
  exact roundDouble_eq_of_near _ _ 5 47 6333186975989759 rfl (by norm_num) (by norm_num) (by norm_num)
    (by rw [abs_lt]; constructor <;> norm_num)

theorem paceBound_upload_4 : paceBound 15 4 = 60 - 1 / 2 ^ 47 := by
  show fadd (paceBound 15 3) (fmul maxDraw 15) = _
  rw [paceBound_upload_3, fmul_maxDraw_upload]
  unfold fadd
  exact roundDouble_eq_of_near _ _ 5 47 8444249301319679 rfl (by norm_num) (by norm_num) (by norm_num)
    (by rw [abs_lt]; constructor <;> norm_num)

theorem paceBound_upload_5 : paceBound 15 5 = 75 - 1 / 2 ^ 46 := by
  show fadd (paceBound 15 4) (fmul maxDraw 15) = _
  rw [paceBound_upload_4, fmul_maxDraw_upload]
  unfold fadd
  exact roundDouble_eq_of_near _ _ 6 46 5277655813324799 rfl (by norm_num) (by norm_num) (by norm_num)
    (by rw [abs_lt]; constructor <;> norm_num)

theorem paceBound_upload_6 : paceBound 15 6 = 90 - 1 / 2 ^ 46 := by
  show fadd (paceBound 15 5) (fmul maxDraw 15) = _
  rw [paceBound_upload_5, fmul_maxDraw_upload]
  unfold fadd
  exact roundDouble_eq_of_near _ _ 6 46 6333186975989759 rfl (by norm_num) (by norm_num) (by norm_num)
    (by rw [abs_lt]; constructor <;> norm_num)

theorem paceBound_upload_lt (t : Nat) (ht : t ≤ 6) : paceBound 15 t < 90 := by
  interval_cases t
  · show (0 : ℚ) < 90
    norm_num
  · rw [paceBound_upload_1]
    norm_num
  · rw [paceBound_upload_2]
    norm_num
  · rw [paceBound_upload_3]
    norm_num
  · rw [paceBound_upload_4]
    norm_num
  · rw [paceBound_upload_5]
    norm_num
  · rw [paceBound_upload_6]
    norm_num

theorem fmul_maxDraw_simulation : fmul maxDraw 8 = 8 - 1 / 2 ^ 50 := by
  unfold fmul maxDraw
  exact roundDouble_eq_of_near _ _ 2 50 9007199254740991 rfl (by norm_num) (by norm_num) (by norm_num)
    (by rw [abs_lt]; constructor <;> norm_num)

theorem paceBound_simulation_1 : paceBound 8 1 = 8 - 1 / 2 ^ 50 := by
  show fadd 0 (fmul maxDraw 8) = _
  rw [fmul_maxDraw_simulation]
  unfold fadd
  exact roundDouble_eq_of_near _ _ 2 50 9007199254740991 rfl (by norm_num) (by norm_num) (by norm_num)
    (by rw [abs_lt]; constructor <;> norm_num)

theorem paceBound_simulation_2 : paceBound 8 2 = 16 - 1 / 2 ^ 49 := by
  show fadd (paceBound 8 1) (fmul maxDraw 8) = _
  rw [paceBound_simulation_1, fmul_maxDraw_simulation]
  unfold fadd
  exact roundDouble_eq_of_near _ _ 3 49 9007199254740991 rfl (by norm_num) (by norm_num) (by norm_num)
    (by rw [abs_lt]; constructor <;> norm_num)

theorem paceBound_simulation_3 : paceBound 8 3 = 24 - 1 / 2 ^ 48 := by
  show fadd (paceBound 8 2) (fmul maxDraw 8) = _
  rw [paceBound_simulation_2, fmul_maxDraw_simulation]
  unfold fadd
  exact roundDouble_eq_of_near _ _ 4 48 6755399441055743 rfl (by norm_num) (by norm_num) (by norm_num)
    (by rw [abs_lt]; constructor <;> norm_num)

theorem paceBound_simulation_4 : paceBound 8 4 = 32 - 1 / 2 ^ 48 := by
  show fadd (paceBound 8 3) (fmul maxDraw 8) = _
  rw [paceBound_simulation_3, fmul_maxDraw_simulation]
  unfold fadd
  exact roundDouble_eq_of_near _ _ 4 48 9007199254740991 rfl (by norm_num) (by norm_num) (by norm_num)
    (by rw [abs_lt]; constructor <;> norm_num)

theorem paceBound_simulation_5 : paceBound 8 5 = 40 - 1 / 2 ^ 47 := by
  show fadd (paceBound 8 4) (fmul maxDraw 8) = _
  rw [paceBound_simulation_4, fmul_maxDraw_simulation]
  unfold fadd
  exact roundDouble_eq_of_near _ _ 5 47 5629499534213119 rfl (by norm_num) (by norm_num) (by norm_num)
    (by rw [abs_lt]; constructor <;> norm_num)

theorem paceBound_simulation_6 : paceBound 8 6 = 48 - 1 / 2 ^ 47 := by
  show fadd (paceBound 8 5) (fmul maxDraw 8) = _
  rw [paceBound_simulation_5, fmul_maxDraw_simulation]
  unfold fadd
  exact roundDouble_eq_of_near _ _ 5 47 6755399441055743 rfl (by norm_num) (by norm_num) (by norm_num)
    (by rw [abs_lt]; constructor <;> norm_num)

theorem paceBound_simulation_7 : paceBound 8 7 = 56 - 1 / 2 ^ 47 := by
  show fadd (paceBound 8 6) (fmul maxDraw 8) = _
  rw [paceBound_simulation_6, fmul_maxDraw_simulation]
  unfold fadd
  exact roundDouble_eq_of_near _ _ 5 47 7881299347898367 rfl (by norm_num) (by norm_num) (by norm_num)
    (by rw [abs_lt]; constructor <;> norm_num)

theorem paceBound_simulation_8 : paceBound 8 8 = 64 - 1 / 2 ^ 47 := by
  show fadd (paceBound 8 7) (fmul maxDraw 8) = _
  rw [paceBound_simulation_7, fmul_maxDraw_simulation]
  unfold fadd
  exact roundDouble_eq_of_near _ _ 5 47 9007199254740991 rfl (by norm_num) (by norm_num) (by norm_num)
    (by rw [abs_lt]; constructor <;> norm_num)

theorem paceBound_simulation_9 : paceBound 8 9 = 72 - 1 / 2 ^ 46 := by
  show fadd (paceBound 8 8) (fmul maxDraw 8) = _
  rw [paceBound_simulation_8, fmul_maxDraw_simulation]
  unfold fadd
  exact roundDouble_eq_of_near _ _ 6 46 5066549580791807 rfl (by norm_num) (by norm_num) (by norm_num)
    (by rw [abs_lt]; constructor <;> norm_num)

theorem paceBound_simulation_10 : paceBound 8 10 = 80 - 1 / 2 ^ 46 := by
  show fadd (paceBound 8 9) (fmul maxDraw 8) = _
  rw [paceBound_simulation_9, fmul_maxDraw_simulation]
  unfold fadd
  exact roundDouble_eq_of_near _ _ 6 46 5629499534213119 rfl (by norm_num) (by norm_num) (by norm_num)
    (by rw [abs_lt]; constructor <;> norm_num)

theorem paceBound_simulation_11 : paceBound 8 11 = 88 - 1 / 2 ^ 46 := by
  show fadd (paceBound 8 10) (fmul maxDraw 8) = _
  rw [paceBound_simulation_10, fmul_maxDraw_simulation]
  unfold fadd
  exact roundDouble_eq_of_near _ _ 6 46 6192449487634431 rfl (by norm_num) (by norm_num) (by norm_num)
    (by rw [abs_lt]; constructor <;> norm_num)

theorem paceBound_simulation_12 : paceBound 8 12 = 96 - 1 / 2 ^ 46 := by
  show fadd (paceBound 8 11) (fmul maxDraw 8) = _
  rw [paceBound_simulation_11, fmul_maxDraw_simulation]
  unfold fadd
  exact roundDouble_eq_of_near _ _ 6 46 6755399441055743 rfl (by norm_num) (by norm_num) (by norm_num)
    (by rw [abs_lt]; constructor <;> norm_num)

theorem paceBound_simulation_lt (t : Nat) (ht : t ≤ 12) : paceBound 8 t < 96 := by
  interval_cases t
  · show (0 : ℚ) < 96
    norm_num
  · rw [paceBound_simulation_1]
    norm_num
  · rw [paceBound_simulation_2]
    norm_num
  · rw [paceBound_simulation_3]
    norm_num
  · rw [paceBound_simulation_4]
    norm_num
  · rw [paceBound_simulation_5]
    norm_num
  · rw [paceBound_simulation_6]
    norm_num
  · rw [paceBound_simulation_7]
    norm_num
  · rw [paceBound_simulation_8]
    norm_num
  · rw [paceBound_simulation_9]
    norm_num
  · rw [paceBound_simulation_10]
    norm_num
  · rw [paceBound_simulation_11]
    norm_num
  · rw [paceBound_simulation_12]
    norm_num

/-- C27: with draws of `Math.random()`, doubles in `[0, 1)`, each increment is
below its bound (15 for `simulateUploadProgress`, 8 for `simulateProgress`);
`resolve` is not invoked before tick 7 of `simulateUploadProgress` nor before
tick 13 of `simulateProgress`; as long as at most 6 (12) ticks have run,
`progress` is below 90 (96); and for every `n ≥ 7` (`n ≥ 13`) there are `n`
such draws on which the run completes exactly on tick `n`. -/
theorem earliest_completing_tick (randoms : List ℚ)
    (hr : ∀ r ∈ randoms, IsDouble r ∧ 0 ≤ r ∧ r < 1) :
    (∀ r ∈ randoms, fmul r 15 < 15 ∧ fmul r 8 < 8) ∧
    (∀ n ∈ (simulateUploadProgress true randoms).resolvedAt, 7 ≤ n) ∧
    (∀ n ∈ (simulateProgress true randoms).resolvedAt, 13 ≤ n) ∧
    ((simulateUploadProgress true randoms).ticks ≤ 6 →
      (simulateUploadProgress true randoms).progress < 90) ∧
    ((simulateProgress true randoms).ticks ≤ 12 →
      (simulateProgress true randoms).progress < 96) ∧
    (∀ n, 7 ≤ n → ∃ draws : List ℚ, draws.length = n ∧
      (∀ r ∈ draws, IsDouble r ∧ 0 ≤ r ∧ r < 1) ∧
      (simulateUploadProgress true draws).resolvedAt = [n]) ∧
    (∀ n, 13 ≤ n → ∃ draws : List ℚ, draws.length = n ∧
      (∀ r ∈ draws, IsDouble r ∧ 0 ≤ r ∧ r < 1) ∧
      (simulateProgress true draws).resolvedAt = [n]) := by
  obtain ⟨_, u1, u2⟩ := progressRun_paced 15 randoms (by norm_num) hr
  obtain ⟨_, p1, p2⟩ := progressRun_paced 8 randoms (by norm_num) hr
  refine ⟨?_, ?_, ?_, ?_, ?_, ?_, ?_⟩
  · intro r hmem
    have a := fmul_le_fmul_maxDraw 15 r (by norm_num) (hr r hmem)
    have b := fmul_le_fmul_maxDraw 8 r (by norm_num) (hr r hmem)
    rw [fmul_maxDraw_upload] at a
    rw [fmul_maxDraw_simulation] at b
    constructor
    · have : (15 : ℚ) - 1 / 2 ^ 49 < 15 := by norm_num
      linarith
    · have : (8 : ℚ) - 1 / 2 ^ 50 < 8 := by norm_num
      linarith
  · intro n hn
    by_contra hlt
    have h1 := paceBound_upload_lt n (by omega)
    have h2 := u2 n hn
    linarith
  · intro n hn
    by_contra hlt
    have h1 := paceBound_simulation_lt n (by omega)
    have h2 := p2 n hn
    linarith
  · intro ht
    exact lt_of_le_of_lt u1 (paceBound_upload_lt _ ht)
  · intro ht
    exact lt_of_le_of_lt p1 (paceBound_simulation_lt _ ht)
  · intro n hn
    exact ⟨lateDraws 7 n, lateDraws_length 7 n hn, lateDraws_range 7 n,
      upload_completes_on n hn⟩
  · intro n hn
    exact ⟨lateDraws 13 n, lateDraws_length 13 n hn, lateDraws_range 13 n,
      simulation_completes_on n hn⟩

/-- Witness for C27 on fourteen draws of `0.96875`. -/
theorem earliest_completing_tick_witness :
    (∀ r ∈ sampleDraws, IsDouble r ∧ 0 ≤ r ∧ r < 1) ∧
    (∀ r ∈ sampleDraws, fmul r 15 < 15 ∧ fmul r 8 < 8) ∧
    (∀ n ∈ (simulateUploadProgress true sampleDraws).resolvedAt, 7 ≤ n) ∧
    (∀ n ∈ (simulateProgress true sampleDraws).resolvedAt, 13 ≤ n) ∧
    (∃ draws : List ℚ, draws.length = 7 ∧ (∀ r ∈ draws, IsDouble r ∧ 0 ≤ r ∧ r < 1) ∧
      (simulateUploadProgress true draws).resolvedAt = [7]) ∧
    (∃ draws : List ℚ, draws.length = 13 ∧ (∀ r ∈ draws, IsDouble r ∧ 0 ≤ r ∧ r < 1) ∧
      (simulateProgress true draws).resolvedAt = [13]) :=
  have h : ∀ r ∈ sampleDraws, IsDouble r ∧ 0 ≤ r ∧ r < 1 := by
    intro r hr
    simp only [sampleDraws, List.mem_replicate] at hr
    rw [hr.2]
    exact ⟨isDouble_sampleDraw, by norm_num, by norm_num⟩
  have t := earliest_completing_tick sampleDraws h
  ⟨h, t.1, t.2.1, t.2.2.1, t.2.2.2.2.2.1 7 (le_refl _), t.2.2.2.2.2.2 13 (le_refl _)⟩

/-! ## React variant: concurrent runs of `SimulationView` -/

/-- C26 fails on the code: after a first click the status is `starting`, so
the run buttons are still enabled; a second click puts a second POST in
flight, and when both are answered two poll loops are going at once. -/
theorem two_runs_after_click_while_starting :
    runButtonsEnabled (SimulationView.run [.click "energy_analysis"]) = true ∧
    activeRuns (SimulationView.run [.click "energy_analysis", .click "comprehensive"]) = 2 ∧
    (SimulationView.run [.click "energy_analysis", .click "comprehensive"]).postsInFlight = 2 ∧
    (SimulationView.run [.click "energy_analysis", .click "comprehensive", .postResolved 1,
      .postResolved 2]).polls = [0, 0] ∧
    activeRuns (SimulationView.run [.click "energy_analysis", .click "comprehensive",
      .postResolved 1, .postResolved 2]) = 2 ∧
    runButtonsEnabled (SimulationView.run [.click "energy_analysis", .postResolved 1]) =
      false := by
  decide

/-! ## React variant: whose results are shown -/

theorem map_fst_eraseIdx {α β : Type} (l : List (α × β)) (i : Nat) :
    (l.eraseIdx i).map Prod.fst = (l.map Prod.fst).eraseIdx i := by
  induction l generalizing i with
  | nil => rfl
  | cons x xs ih =>
    cases i with
    | zero => rfl
    | succ j => simp only [List.eraseIdx_cons_succ, List.map_cons, ih]

theorem run_snoc (seen : List AppEvent) (ev : AppEvent) :
    AppState.run (seen ++ [ev]) = (AppState.run seen).step ev := by
  simp [AppState.run, List.foldl_append]

/-- An event either leaves the selected building as it is, or is a click on
`Analyze Building` that `BuildingsView` offers, and the selected building is
the one it names. -/
theorem step_selectedBuilding (s : AppState) (ev : AppEvent) :
    (s.step ev).selectedBuilding = s.selectedBuilding ∨
    ∃ b, ev = AppEvent.selectBuilding b ∧ ViewComponent.BuildingsView ∈ rendered s ∧
      b ∈ s.buildings ∧ (s.step ev).selectedBuilding = some b := by
  cases ev with
  | buildingsLoaded bs => exact Or.inl rfl
  | navClick id =>
    simp only [AppState.step]
    split
    · exact Or.inl rfl
    · exact Or.inl rfl
  | selectBuilding b =>
    simp only [AppState.step]
    split
    · rename_i hc
      exact Or.inr ⟨b, rfl, hc.1, hc.2, rfl⟩
    · exact Or.inl rfl
  | runSimulation =>
    simp only [AppState.step]
    split
    · split
      · exact Or.inl rfl
      · exact Or.inl rfl
    · exact Or.inl rfl
  | simulationComplete i data =>
    simp only [AppState.step]
    split
    · exact Or.inl rfl
    · exact Or.inl rfl
  | pollEnded i => exact Or.inl rfl

theorem noOtherSelection_of_snoc (seen : List AppEvent) (ev : AppEvent) (k : Nat)
    (b : Building) (h : NoOtherSelection (seen ++ [ev]) k b) : NoOtherSelection seen k b := by
  intro j b' hkj hget hview hmem
  have hj : j < seen.length := by
    by_contra hge
    rw [List.getElem?_eq_none (Nat.le_of_not_lt hge)] at hget
    cases hget
  apply h j b' hkj
  · rw [List.getElem?_append_left hj]
    exact hget
  · rw [List.take_append_of_le_length (Nat.le_of_lt hj)]
    exact hview
  · rw [List.take_append_of_le_length (Nat.le_of_lt hj)]
    exact hmem

theorem requestedAt_snoc (seen : List AppEvent) (ev : AppEvent) (p : Building × Nat)
    (h : RequestedAt seen p) : RequestedAt (seen ++ [ev]) p := by
  obtain ⟨h1, h2, h3⟩ := h
  have hk : p.2 < seen.length := by
    by_contra hge
    rw [List.getElem?_eq_none (Nat.le_of_not_lt hge)] at h1
    cases h1
  refine ⟨?_, ?_, ?_⟩
  · rw [List.getElem?_append_left hk]
    exact h1
  · rw [List.take_append_of_le_length (Nat.le_of_lt hk)]
    exact h2
  · intro hall
    have hprev := h3 (noOtherSelection_of_snoc seen ev p.2 p.1 hall)
    rw [run_snoc]
    rcases step_selectedBuilding (AppState.run seen) ev with hs | ⟨b, hev, hview, hmem, hs⟩
    · rw [hs]
      exact hprev
    · rw [hs]
      have hb : b = p.1 := by
        apply hall seen.length b (Nat.le_of_lt hk)
        · rw [hev]
          simp
        · simp only [List.take_left']
          exact hview
        · simp only [List.take_left']
          exact hmem
      rw [hb]

theorem requestedAt_new (seen : List AppEvent) (b : Building)
    (hb : (AppState.run seen).selectedBuilding = some b) :
    RequestedAt (seen ++ [AppEvent.runSimulation]) (b, seen.length) := by
  refine ⟨?_, ?_, ?_⟩
  · simp
  · simp only [List.take_left']
    exact hb
  · intro _
    rw [run_snoc]
    rcases step_selectedBuilding (AppState.run seen) AppEvent.runSimulation with
      hs | ⟨b', hev, _⟩
    · rw [hs]
      exact hb
    · cases hev

theorem step_explained (seen : List AppEvent) (t : TrackedApp) (ev : AppEvent)
    (h : t.Explained seen) : (t.step ev).Explained (seen ++ [ev]) := by
  obtain ⟨h1, h2, h3, h4, h5, h6⟩ := h
  have happ : (t.step ev).app = AppState.run (seen ++ [ev]) := by
    rw [run_snoc, ← h1]
    rfl
  have hclock : (t.step ev).clock = (seen ++ [ev]).length := by
    simp [TrackedApp.step, h2]
  have up : ∀ p, RequestedAt seen p → RequestedAt (seen ++ [ev]) p :=
    fun p hp => requestedAt_snoc seen ev p hp
  refine ⟨happ, hclock, ?_⟩
  cases ev with
  | buildingsLoaded bs =>
    exact ⟨h3, fun p hp => up p (h4 p hp), fun p hp => up p (h5 p hp), h6⟩
  | navClick id =>
    simp only [TrackedApp.step, AppState.step]
    split
    · exact ⟨h3, fun p hp => up p (h4 p hp), fun p hp => up p (h5 p hp), h6⟩
    · exact ⟨h3, fun p hp => up p (h4 p hp), fun p hp => up p (h5 p hp), h6⟩
  | selectBuilding b0 =>
    simp only [TrackedApp.step, AppState.step]
    split
    · exact ⟨h3, fun p hp => up p (h4 p hp), fun p hp => up p (h5 p hp), h6⟩
    · exact ⟨h3, fun p hp => up p (h4 p hp), fun p hp => up p (h5 p hp), h6⟩
  | runSimulation =>
    simp only [TrackedApp.step, AppState.step]
    split
    · rename_i b0 hb0
      split
      · refine ⟨?_, ?_, fun p hp => up p (h5 p hp), h6⟩
        · simp [h3]
        · intro p hp
          simp only [List.mem_append, List.mem_singleton] at hp
          rcases hp with hp | hp
          · exact up p (h4 p hp)
          · rw [hp, h2]
            rw [h1] at hb0
            exact requestedAt_new seen b0 hb0
      · exact ⟨h3, fun p hp => up p (h4 p hp), fun p hp => up p (h5 p hp), h6⟩
    · exact ⟨h3, fun p hp => up p (h4 p hp), fun p hp => up p (h5 p hp), h6⟩
  | simulationComplete i data =>
    simp only [TrackedApp.step, AppState.step]
    split
    · rename_i hc
      have hi : i < t.requests.length := by
        have := hc.1
        rw [h3, List.length_map] at this
        exact this
      refine ⟨?_, ?_, ?_, ?_⟩
      · show t.app.runs.eraseIdx i = (t.requests.eraseIdx i).map Prod.fst
        rw [h3]
        exact (map_fst_eraseIdx t.requests i).symm
      · intro p hp
        exact up p (h4 p (List.mem_of_mem_eraseIdx hp))
      · intro p hp
        exact up p (h4 p (List.getElem?_mem hp))
      · intro _
        rw [List.getElem?_eq_getElem hi]
        rfl
    · exact ⟨h3, fun p hp => up p (h4 p hp), fun p hp => up p (h5 p hp), h6⟩
  | pollEnded i =>
    refine ⟨?_, ?_, fun p hp => up p (h5 p hp), h6⟩
    · show t.app.runs.eraseIdx i = (t.requests.eraseIdx i).map Prod.fst
      rw [h3]
      exact (map_fst_eraseIdx t.requests i).symm
    · intro p hp
      exact up p (h4 p (List.mem_of_mem_eraseIdx hp))

theorem foldl_explained (events seen : List AppEvent) (t : TrackedApp)
    (h : t.Explained seen) :
    (events.foldl TrackedApp.step t).Explained (seen ++ events) := by
  induction events generalizing seen t with
  | nil => simpa using h
  | cons ev evs ih =>
    have h1 := ih (seen ++ [ev]) (t.step ev) (step_explained seen t ev h)
    simpa using h1

theorem run_explained (events : List AppEvent) :
    (TrackedApp.run events).Explained events := by
  have h0 : TrackedApp.Explained []
      { app := AppState.initial, clock := 0, requests := [], resultsFor := none } := by
    refine ⟨rfl, rfl, rfl, ?_, ?_, ?_⟩
    · intro p hp; cases hp
    · intro p hp; cases hp
    · intro hs; cases hs
  have h := foldl_explained events [] _ h0
  simpa [TrackedApp.run] using h

/-- C22, as the code has it: in every reachable state in which `ResultsView`
is rendered, the results shown come from a completed run; that run was
requested by a click (event number `k`) made while a building `b` was the
selected building, and `b` is the currently selected building unless another
building has been selected since that click, whatever was selected before
it. -/
theorem results_belong_to_building_of_request (events : List AppEvent) :
    (TrackedApp.run events).app = AppState.run events ∧
    (ViewComponent.ResultsView ∈ rendered (AppState.run events) →
      ∃ b k, (TrackedApp.run events).resultsFor = some (b, k) ∧
        events[k]? = some AppEvent.runSimulation ∧
        (AppState.run (events.take k)).selectedBuilding = some b ∧
        (NoOtherSelection events k b → (AppState.run events).selectedBuilding = some b)) := by
  obtain ⟨happ, _, _, _, h5, h6⟩ := run_explained events
  rw [happ] at h6
  refine ⟨happ, ?_⟩
  intro hr
  have hres : (AppState.run events).simulationResults.isSome = true := by
    generalize AppState.run events = s at hr
    obtain ⟨view, bs, sel, res, runs⟩ := s
    simp only [rendered, List.mem_append] at hr
    rcases hr with ((((hr | hr) | hr) | hr) | hr) | hr
    all_goals
      split at hr
      · first
        | (rename_i hc; simp only [List.mem_singleton] at hr; exact hc.2)
        | (simp at hr)
      · simp at hr
  have hsome := h6 hres
  cases hf : (TrackedApp.run events).resultsFor with
  | none => rw [hf] at hsome; cases hsome
  | some p =>
    obtain ⟨a1, a2, a3⟩ := h5 p hf
    exact ⟨p.1, p.2, rfl, a1, a2, a3⟩

/-- Witness for C22 on a session that selects the clinic, then the hospital,
and then requests the run: the results of the hospital are shown under the
hospital. -/
theorem results_belong_to_building_of_request_witness :
    ViewComponent.ResultsView ∈ rendered (AppState.run reselectSession) ∧
    (TrackedApp.run reselectSession).resultsFor = some (⟨2, "Hospital"⟩, 5) ∧
    (AppState.run reselectSession).selectedBuilding = some ⟨2, "Hospital"⟩ := by
  obtain ⟨b, k, h1, _, _, h4⟩ :=
    (results_belong_to_building_of_request reselectSession).2 (by decide)
  have e : (TrackedApp.run reselectSession).resultsFor = some (⟨2, "Hospital"⟩, 5) := by
    decide
  rw [e] at h1
  simp only [Option.some.injEq, Prod.mk.injEq] at h1
  obtain ⟨hb, hk⟩ := h1
  subst hb
  subst hk
  refine ⟨by decide, e, h4 ?_⟩
  intro j b' hj hget _ _
  have hcases : j = 5 ∨ j = 6 ∨ j = 7 ∨ 8 ≤ j := by omega
  rcases hcases with h | h | h | h
  · subst h
    simp [reselectSession] at hget
  · subst h
    simp [reselectSession] at hget
  · subst h
    simp [reselectSession] at hget
  · rw [List.getElem?_eq_none (by simpa [reselectSession] using h)] at hget
    cases hget

/-- C22 fails as stated: a run is requested for the clinic, the hospital is
selected while the poll is going, and the poll completes; the results view
then shows the results of the clinic under the hospital. -/
theorem stale_results_shown_under_other_building :
    ViewComponent.ResultsView ∈ rendered (AppState.run staleSession) ∧
    (AppState.run staleSession).selectedBuilding = some ⟨2, "Hospital"⟩ ∧
    (TrackedApp.run staleSession).resultsFor = some (⟨1, "Clinic"⟩, 3) ∧
    (TrackedApp.run staleSession).app = AppState.run staleSession := by
  decide

end CHIP
